import Mathlib

/-!
CardDAV backend (`e-book-backend-webdav.c`): connecting, change detection, batched fetch,
single-item operations and error classification.

A shallow embedding of the synchronisation core of the WebDAV address-book backend.
C strings that may be `NULL` are `Option String`; `GSList`s are Lean lists, and the two
pending lists of a sync pass are addressed through node pointers (`GSListPtr`) where the code
walks them by pointer; the known-items `GHashTable` is an association list with unique keys,
whose list order stands for the unspecified iteration order of the table.  Calls into the
transport, the local cache and the vCard library are outside the file under study: what they
answer is a parameter of each operation (the fields of `Lib` and of the environments), and
every operation returns, next to its results, the private data afterwards and the list of
requests it issued.
-/

namespace WebDAV

/-! ## Data model -/

/-- The record `EBookMetaBackendInfo`: `uid`, `revision`, `object`, `extra` (all `gchar *`). -/
structure EBookMetaBackendInfo where
  uid : Option String
  revision : Option String
  object : Option String
  extra : Option String
deriving DecidableEq, Repr

/-- The constructor `e_book_meta_backend_info_new (uid, revision, object, extra)`; `uid` is not `NULL`. -/
def e_book_meta_backend_info_new (uid : String) (revision object extra : Option String) :
    EBookMetaBackendInfo :=
  { uid := some uid, revision := revision, object := object, extra := extra }

/-- The deep copy `e_book_meta_backend_info_copy`. -/
def e_book_meta_backend_info_copy (nfo : EBookMetaBackendInfo) : EBookMetaBackendInfo := nfo

/-- Offline state of a cached row (`EOfflineState`). -/
inductive EOfflineState
  | UNKNOWN | SYNCED | LOCALLY_CREATED | LOCALLY_MODIFIED | LOCALLY_DELETED
deriving DecidableEq, Repr

/-- One row of the local cache, as handed to the search callback:
`(uid, revision, object, extra, offline_state)`.  The cache is keyed by `uid`, which is never `NULL`. -/
structure CacheRow where
  uid : String
  revision : Option String
  object : Option String
  extra : Option String
  offline_state : EOfflineState
deriving DecidableEq, Repr

/-- One invocation of a multistatus traversal callback.  `prop_given = false` is the initial
call with `xpath_prop_prefix == NULL`; otherwise the call describes one `propstat` of the
response: its `href`, its `status_code`, and what the XPath context yields for `D:getetag`
(after `e_webdav_session_util_maybe_dequote`) and for `C:address-data`. -/
structure DavResponse where
  prop_given : Bool
  href : String
  status_code : Nat
  etag : Option String
  address_data : Option String
deriving DecidableEq, Repr

def SOUP_STATUS_CANCELLED : Nat := 1
def SOUP_STATUS_SSL_FAILED : Nat := 6
def SOUP_STATUS_OK : Nat := 200
def SOUP_STATUS_UNAUTHORIZED : Nat := 401
def SOUP_STATUS_FORBIDDEN : Nat := 403
def SOUP_STATUS_NOT_FOUND : Nat := 404
def SOUP_STATUS_METHOD_NOT_ALLOWED : Nat := 405

/-- What `g_strcmp0 (a, b) == 0` computes: equality of possibly-`NULL` strings. -/
def g_strcmp0_eq (a b : Option String) : Bool := decide (a = b)

/-- The test `g_str_has_suffix (str, suffix)`. -/
def g_str_has_suffix (str suffix : String) : Bool := suffix.data.isSuffixOf str.data

/-- The test `!s || !*s` on a `gchar *`. -/
def str_empty (s : Option String) : Bool :=
  match s with
  | none => true
  | some v => decide (v = "")

/-! ## The known-items hash table -/

/-- The table `known_items`: `gchar *href ~> EBookMetaBackendInfo *`.  Keys are kept unique by
`g_hash_table_insert`; the list order stands for the (unspecified) iteration order. -/
abbrev KnownItems := List (String × EBookMetaBackendInfo)

def g_hash_table_lookup (t : KnownItems) (key : String) : Option EBookMetaBackendInfo :=
  (t.find? (fun kv => decide (kv.1 = key))).map (fun kv => kv.2)

def g_hash_table_remove (t : KnownItems) (key : String) : KnownItems :=
  t.filter (fun kv => !decide (kv.1 = key))

def g_hash_table_insert (t : KnownItems) (key : String) (value : EBookMetaBackendInfo) : KnownItems :=
  (key, value) :: g_hash_table_remove t key

/-- Runs a callback over a sequence, threading the user data, until the callback returns `FALSE`. -/
def traverse {σ α : Type} (cb : σ → α → Bool × σ) : σ → List α → σ
  | s, [] => s
  | s, a :: rest =>
    match cb s a with
    | (true, s1) => traverse cb s1 rest
    | (false, s1) => s1

/-! ## Shallow listing: `ebb_webdav_get_contact_items_cb` -/

/-- The callback `ebb_webdav_get_contact_items_cb`; `request_path` is `request_uri->path` when
both `request_uri` and its path are set. -/
def ebb_webdav_get_contact_items_cb (request_path : Option String)
    (known_items : KnownItems) (r : DavResponse) : Bool × KnownItems :=
  if r.prop_given && decide (r.status_code = SOUP_STATUS_OK) then
    -- Skip collection resource, if returned by the server
    if g_str_has_suffix r.href "/" ||
        (match request_path with
         | some p => g_str_has_suffix r.href p
         | none => false) then
      (true, known_items)
    else
      match r.etag with
      | none => (true, known_items)
      | some etag =>
        -- UID is unknown at this moment
        (true, g_hash_table_insert known_items r.href
                 (e_book_meta_backend_info_new "" (some etag) none (some r.href)))
  else
    (true, known_items)

/-- The known-items table after a successful shallow listing delivered `items` to the callback. -/
def collect_known_items (request_path : Option String) (items : List DavResponse) : KnownItems :=
  traverse (ebb_webdav_get_contact_items_cb request_path) [] items

/-- The guards of `ebb_webdav_get_contact_items_cb` under which a response item is inserted
into `known_items`: a property call with status OK, whose `href` is not the collection itself,
carrying an etag. -/
def is_member_item (request_path : Option String) (r : DavResponse) : Bool :=
  r.prop_given && decide (r.status_code = SOUP_STATUS_OK) &&
  !(g_str_has_suffix r.href "/" ||
      (match request_path with
       | some p => g_str_has_suffix r.href p
       | none => false)) &&
  r.etag.isSome

/-! ## Diff against the cache: `ebb_webdav_search_changes_cb` -/

/-- The user data `WebDAVChangesData` of the cache scan. -/
structure WebDAVChangesData where
  out_modified_objects : List EBookMetaBackendInfo
  out_removed_objects : List EBookMetaBackendInfo
  known_items : KnownItems
deriving DecidableEq, Repr

/-- The callback `ebb_webdav_search_changes_cb`. -/
def ebb_webdav_search_changes_cb (ccd : WebDAVChangesData) (row : CacheRow) :
    Bool × WebDAVChangesData :=
  match row.extra with
  | none => (true, ccd)
  | some extra =>
    if extra = "" then (true, ccd)
    else
      match g_hash_table_lookup ccd.known_items extra with
      | some nfo =>
        if g_strcmp0_eq row.revision nfo.revision then
          (true, { ccd with known_items := g_hash_table_remove ccd.known_items extra })
        else
          let nfo1 : EBookMetaBackendInfo :=
            if str_empty nfo.uid then { nfo with uid := some row.uid } else nfo
          (true, { ccd with
            out_modified_objects := e_book_meta_backend_info_copy nfo1 :: ccd.out_modified_objects
            known_items := g_hash_table_remove ccd.known_items extra })
      | none =>
        (true, { ccd with
          out_removed_objects :=
            e_book_meta_backend_info_new row.uid row.revision row.object (some extra)
              :: ccd.out_removed_objects })

/-- The cache scan `e_book_cache_search_with_callback` over the rows it delivers. -/
def search_changes (ccd : WebDAVChangesData) (rows : List CacheRow) : WebDAVChangesData :=
  traverse ebb_webdav_search_changes_cb ccd rows

/-- The created list: every entry left in `known_items`, copied and prepended in iteration order. -/
def created_from_known (known_items : KnownItems) : List EBookMetaBackendInfo :=
  known_items.foldl (fun acc kv => e_book_meta_backend_info_copy kv.2 :: acc) []

/-! ## Errors and the session -/

/-- Codes of the `G_IO_ERROR` domain used by the backend. -/
inductive GIOErrorEnum
  | FAILED | NOT_FOUND | INVALID_DATA | CANCELLED | CONNECTION_REFUSED
deriving DecidableEq, Repr

/-- Codes of the `E_DATA_BOOK_ERROR` domain used by the backend. -/
inductive EDataBookStatus
  | CONTACT_NOT_FOUND | AUTHENTICATION_FAILED | AUTHENTICATION_REQUIRED
  | TLS_NOT_AVAILABLE | OTHER_ERROR | INVALID_ARG
deriving DecidableEq, Repr

/-- The pair (domain, code) of a `GError`. -/
inductive GErrorCode
  | SOUP_HTTP_ERROR (status : Nat)
  | G_IO_ERROR (code : GIOErrorEnum)
  | E_DATA_BOOK_ERROR (status : EDataBookStatus)
  | OTHER (domain : String) (code : Nat)
deriving DecidableEq, Repr

/-- A `GError`: domain and code, and the message. -/
structure GError where
  code : GErrorCode
  message : String
deriving DecidableEq, Repr

/-- The test `g_error_matches (error, domain, code)`; `FALSE` on a `NULL` error. -/
def g_error_matches (error : Option GError) (c : GErrorCode) : Bool :=
  match error with
  | some e => decide (e.code = c)
  | none => false

/-- The error built by `EDB_ERROR (code)`. -/
def EDB_ERROR (status : EDataBookStatus) : GError :=
  { code := GErrorCode.E_DATA_BOOK_ERROR status, message := "" }

/-- The error built by `EDB_ERROR_EX (code, msg)`. -/
def EDB_ERROR_EX (status : EDataBookStatus) (msg : String) : GError :=
  { code := GErrorCode.E_DATA_BOOK_ERROR status, message := msg }

abbrev ENamedParameters := List (String × String)

/-- The transport session, as far as the backend looks into it: the credentials it was given
and whether the server asked for credentials. -/
structure EWebDAVSession where
  credentials : Option ENamedParameters
  authentication_requires_credentials : Bool
deriving DecidableEq, Repr

/-- The private data `EBookBackendWebDAVPrivate`. -/
structure EBookBackendWebDAVPrivate where
  webdav : Option EWebDAVSession
  ctag_supported : Bool
  is_google : Bool
deriving DecidableEq, Repr

/-- How an external call ended: it returned `TRUE`, or `FALSE` with the `GError` it set (if any). -/
inductive Outcome
  | ok
  | failed (error : Option GError)
deriving DecidableEq, Repr

/-- The requests a top-level operation issues, in order. -/
inductive Request
  | getctag
  | propfind
  | cache_search
  | report (hrefs : List (Option String))
  | get_data (uri : String)
  | put_data (uri : Option String) (etag : Option String) (bytes : String)
  | delete (uri : String) (etag : Option String)
  | report_existing
  | options (uri : Option String)
deriving DecidableEq, Repr

/-! ## Error classifier: `ebb_webdav_check_credentials_error` -/

def ebb_webdav_check_credentials_error (priv : EBookBackendWebDAVPrivate) (op_error : GError) :
    GError :=
  if g_error_matches (some op_error) (GErrorCode.SOUP_HTTP_ERROR SOUP_STATUS_SSL_FAILED)
      && priv.webdav.isSome then
    { op_error with code := GErrorCode.E_DATA_BOOK_ERROR EDataBookStatus.TLS_NOT_AVAILABLE }
  else if g_error_matches (some op_error) (GErrorCode.SOUP_HTTP_ERROR SOUP_STATUS_UNAUTHORIZED)
      || g_error_matches (some op_error) (GErrorCode.SOUP_HTTP_ERROR SOUP_STATUS_FORBIDDEN) then
    match priv.webdav with
    | some webdav =>
      match webdav.credentials with
      | some credentials =>
        if credentials.length > 0 then
          { op_error with code := GErrorCode.E_DATA_BOOK_ERROR EDataBookStatus.AUTHENTICATION_FAILED }
        else
          { op_error with code := GErrorCode.E_DATA_BOOK_ERROR EDataBookStatus.AUTHENTICATION_REQUIRED }
      | none =>
        { op_error with code := GErrorCode.E_DATA_BOOK_ERROR EDataBookStatus.AUTHENTICATION_REQUIRED }
    | none =>
      { op_error with code := GErrorCode.E_DATA_BOOK_ERROR EDataBookStatus.AUTHENTICATION_REQUIRED }
  else
    op_error

/-- Whether the session exists and holds credentials: the test
`credentials && e_named_parameters_count (credentials) > 0` under `if (bbdav->priv->webdav)`. -/
def credentials_supplied (priv : EBookBackendWebDAVPrivate) : Bool :=
  match priv.webdav with
  | some webdav =>
    match webdav.credentials with
    | some credentials => decide (credentials.length > 0)
    | none => false
  | none => false

/-! ## The vCard object model and the library functions taken as parameters -/

/-- A parsed contact, as far as the backend looks into it: its `UID`, its
`X-EVOLUTION-WEBDAV-ETAG` attribute, and the rest of the card. -/
structure EContact where
  uid : Option String
  x_etag : Option String
  rest : String
deriving DecidableEq, Repr

/-- A URI as the backend sees it (`SoupURI`): credentials, host and path. -/
structure SoupURI where
  user : Option String
  password : Option String
  host : Option String
  path : Option String
deriving DecidableEq, Repr

/-- Library functions the backend calls and this file does not define. -/
structure Lib where
  /-- Function `e_contact_new_from_vcard`. -/
  e_contact_new_from_vcard : String → Option EContact
  /-- Function `e_vcard_to_string (contact, EVC_FORMAT_VCARD_30)`; `NULL` when the card cannot be serialized. -/
  e_vcard_to_string : EContact → Option String
  /-- Path part of a URI string: `soup_uri_new` then `soup_uri_to_string (suri, TRUE)`; `NULL` when it does not parse. -/
  soup_uri_path_of : String → Option String
  /-- Function `soup_uri_encode (part, NULL)`. -/
  soup_uri_encode : String → String
  /-- Function `soup_uri_to_string (uri, FALSE)`. -/
  soup_uri_to_string : SoupURI → Option String
  /-- Function `g_path_get_dirname`. -/
  g_path_get_dirname : String → Option String
  /-- Whether `e_util_utf8_strstrcase (haystack, needle)` finds the needle (is not `NULL`). -/
  e_util_utf8_strstrcase : String → String → Bool
  /-- Whether `g_ascii_strcasecmp (a, b) == 0`; also the key equality `camel_strcase_equal` of
  the capability tables. -/
  g_ascii_strcasecmp_eq : String → String → Bool

/-! ## Batched fetch: `ebb_webdav_update_nfo_with_contact`, `ebb_webdav_multiget_response_cb`,
`ebb_webdav_multiget_from_sets_sync` -/

def E_WEBDAV_MAX_MULTIGET_AMOUNT : Nat := 100

def ebb_webdav_update_nfo_with_contact (L : Lib) (nfo : EBookMetaBackendInfo) (contact : EContact)
    (etag : Option String) : EBookMetaBackendInfo :=
  let uid := contact.uid
  let etag1 := if str_empty etag then nfo.revision else etag
  let contact1 : EContact := { contact with x_etag := etag1 }
  let nfo1 : EBookMetaBackendInfo := { nfo with object := L.e_vcard_to_string contact1 }
  let nfo2 : EBookMetaBackendInfo := if str_empty nfo1.uid then { nfo1 with uid := uid } else nfo1
  if !g_strcmp0_eq etag1 nfo2.revision then { nfo2 with revision := etag1 } else nfo2

/-- A pointer to a `GSList` node of one of the two pending lists of a sync pass (the two lists
are separate chains: the last node of the created list has no successor), or `NULL`. -/
inductive GSListPtr
  | null
  | created (i : Nat)
  | modified (i : Nat)
deriving DecidableEq, Repr

/-- The nodes of the two pending lists; the data pointer of a node may be `NULL`. -/
structure PendingLists where
  created : List (Option EBookMetaBackendInfo)
  modified : List (Option EBookMetaBackendInfo)
deriving DecidableEq, Repr

namespace PendingLists

/-- Pointer to the first node of the created list (`NULL` for the empty list). -/
def created_head (h : PendingLists) : GSListPtr :=
  match h.created with
  | [] => GSListPtr.null
  | _ :: _ => GSListPtr.created 0

/-- Pointer to the first node of the modified list (`NULL` for the empty list). -/
def modified_head (h : PendingLists) : GSListPtr :=
  match h.modified with
  | [] => GSListPtr.null
  | _ :: _ => GSListPtr.modified 0

/-- The data of a node, `link->data`. -/
def data (h : PendingLists) : GSListPtr → Option EBookMetaBackendInfo
  | GSListPtr.null => none
  | GSListPtr.created i => (h.created.get? i).join
  | GSListPtr.modified i => (h.modified.get? i).join

/-- The successor `g_slist_next (link)`. -/
def next (h : PendingLists) : GSListPtr → GSListPtr
  | GSListPtr.null => GSListPtr.null
  | GSListPtr.created i => if i + 1 < h.created.length then GSListPtr.created (i + 1) else GSListPtr.null
  | GSListPtr.modified i => if i + 1 < h.modified.length then GSListPtr.modified (i + 1) else GSListPtr.null

/-- Stores `nfo` as the data of a node (the in-place update of `*nfo`). -/
def set_data (h : PendingLists) (link : GSListPtr) (nfo : EBookMetaBackendInfo) : PendingLists :=
  match link with
  | GSListPtr.null => h
  | GSListPtr.created i => { h with created := h.created.set i (some nfo) }
  | GSListPtr.modified i => { h with modified := h.modified.set i (some nfo) }

/-- The references held by the nodes of the two lists (`none` for a node without data). -/
def refs (h : PendingLists) : List (Option (Option String)) × List (Option (Option String)) :=
  (h.created.map (Option.map EBookMetaBackendInfo.extra),
   h.modified.map (Option.map EBookMetaBackendInfo.extra))

end PendingLists

/-- First node at position `j` or later of `l` (whose first element is at position `j`) with
non-`NULL` data whose `extra` equals `href`. -/
def find_extra (href : String) : List (Option EBookMetaBackendInfo) → Nat →
    Option (Nat × EBookMetaBackendInfo)
  | [], _ => none
  | none :: rest, j => find_extra href rest (j + 1)
  | some nfo :: rest, j =>
    if g_strcmp0_eq nfo.extra (some href) then some (j, nfo) else find_extra href rest (j + 1)

/-- The loop `for (link = *from_link; link; link = g_slist_next (link))` of the response
callback: the first node reachable from `from_link` that matches `href`. -/
def find_link (h : PendingLists) (from_link : GSListPtr) (href : String) :
    Option (GSListPtr × EBookMetaBackendInfo) :=
  match from_link with
  | GSListPtr.null => none
  | GSListPtr.created i =>
    (find_extra href (h.created.drop i) i).map (fun p => (GSListPtr.created p.1, p.2))
  | GSListPtr.modified i =>
    (find_extra href (h.modified.drop i) i).map (fun p => (GSListPtr.modified p.1, p.2))

/-- The callback `ebb_webdav_multiget_response_cb`; the user data is the pair of the pending
lists (updated in place) and the cursor `from_link`. -/
def ebb_webdav_multiget_response_cb (L : Lib) (ud : PendingLists × GSListPtr) (r : DavResponse) :
    Bool × (PendingLists × GSListPtr) :=
  if !r.prop_given then (true, ud)
  else if r.status_code = SOUP_STATUS_OK then
    match r.address_data with
    | none => (true, ud)
    | some address_data =>
      match L.e_contact_new_from_vcard address_data with
      | none => (true, ud)
      | some contact =>
        match contact.uid with
        | none => (true, ud)
        | some _ =>
          match find_link ud.1 ud.2 r.href with
          | none => (true, ud)
          | some (link, nfo) =>
            let from_link := if link = ud.2 then ud.1.next ud.2 else ud.2
            (true, (ud.1.set_data link (ebb_webdav_update_nfo_with_contact L nfo contact r.etag),
                    from_link))
  else (true, ud)

/-- What the server answers to one batched-detail request: the response items handed to the
callback, and how the call ended. -/
structure ReportReply where
  items : List DavResponse
  outcome : Outcome
deriving DecidableEq, Repr

/-- State of the `while (link && left_to_go > 0)` loop of `ebb_webdav_multiget_from_sets_sync`. -/
structure CollectState where
  link : GSListPtr
  set2 : GSListPtr
  left_to_go : Nat
  hrefs : List (Option String)
deriving DecidableEq, Repr

/-- The text written into one `href` element for a node whose `extra` is given:
`path ? path : nfo->extra`. -/
def href_of_extra (L : Lib) (extra : Option String) : Option String :=
  match extra with
  | none => none
  | some e =>
    match L.soup_uri_path_of e with
    | some path => some path
    | none => some e

/-- The text written into one `href` element: `path ? path : nfo->extra`. -/
def href_text (L : Lib) (nfo : EBookMetaBackendInfo) : Option String :=
  href_of_extra L nfo.extra

/-- The loop `while (link && left_to_go > 0)`; `fuel` bounds the number of iterations. -/
def multiget_collect (L : Lib) (h : PendingLists) : Nat → CollectState → CollectState
  | 0, s => s
  | fuel + 1, s =>
    if s.link = GSListPtr.null ∨ s.left_to_go = 0 then s
    else
      let nfo := h.data s.link
      let link1 := h.next s.link
      let link2 := if link1 = GSListPtr.null then s.set2 else link1
      let set2 := if link1 = GSListPtr.null then GSListPtr.null else s.set2
      match nfo with
      | none => multiget_collect L h fuel { s with link := link2, set2 := set2 }
      | some nfo =>
        multiget_collect L h fuel
          { link := link2, set2 := set2, left_to_go := s.left_to_go - 1,
            hrefs := s.hrefs ++ [href_text L nfo] }

/-- State of the batching loop of a sync pass. -/
structure MultigetState where
  lists : PendingLists
  link : GSListPtr
  set2 : GSListPtr
  success : Bool
  error : Option GError
  requests : List (List (Option String))
deriving DecidableEq, Repr

/-- One call `ebb_webdav_multiget_from_sets_sync (bbdav, &link, &set2, cancellable, &local_error)`;
`report n hrefs` is the server reply to the request carrying `hrefs` when `n` batched-detail
requests were issued before it. -/
def ebb_webdav_multiget_from_sets_sync (L : Lib)
    (report : Nat → List (Option String) → ReportReply) (st : MultigetState) : MultigetState :=
  if st.link = GSListPtr.null then { st with success := false }
  else
    let c := multiget_collect L st.lists (st.lists.created.length + st.lists.modified.length)
      { link := st.link, set2 := st.set2, left_to_go := E_WEBDAV_MAX_MULTIGET_AMOUNT, hrefs := [] }
    if c.left_to_go ≠ E_WEBDAV_MAX_MULTIGET_AMOUNT then
      let reply := report st.requests.length c.hrefs
      let ud := traverse (ebb_webdav_multiget_response_cb L) (st.lists, st.link) reply.items
      match reply.outcome with
      | Outcome.ok =>
        { lists := ud.1, link := c.link, set2 := c.set2, success := true, error := st.error,
          requests := st.requests ++ [c.hrefs] }
      | Outcome.failed err =>
        { lists := ud.1, link := c.link, set2 := c.set2, success := false,
          error := if err.isSome then err else st.error, requests := st.requests ++ [c.hrefs] }
    else
      { st with link := c.link, set2 := c.set2, success := true }

/-- The loop `do { success = ebb_webdav_multiget_from_sets_sync (...); } while (success && link);`. -/
def multiget_loop (L : Lib) (report : Nat → List (Option String) → ReportReply) :
    Nat → MultigetState → MultigetState
  | 0, st => st
  | fuel + 1, st =>
    let st1 := ebb_webdav_multiget_from_sets_sync L report st
    if st1.success && decide (st1.link ≠ GSListPtr.null) then multiget_loop L report fuel st1
    else st1

/-- The batched fetch of a sync pass (the block guarded by
`success && (*out_created_objects || *out_modified_objects)`), started on the two pending lists. -/
def multiget_all (L : Lib) (report : Nat → List (Option String) → ReportReply)
    (lists : PendingLists) (error : Option GError) : MultigetState :=
  let start : MultigetState :=
    match lists.created with
    | _ :: _ =>
      { lists := lists, link := lists.created_head, set2 := lists.modified_head,
        success := true, error := error, requests := [] }
    | [] =>
      { lists := lists, link := lists.modified_head, set2 := GSListPtr.null,
        success := true, error := error, requests := [] }
  multiget_loop L report (lists.created.length + lists.modified.length) start

/-! ## The pending queue, seen as one list -/

/-- The pending references in queue order, created list first: the text of the `href` element
of every node that has data. -/
def pending_hrefs (L : Lib) (lists : PendingLists) : List (Option String) :=
  (lists.created ++ lists.modified).reduceOption.map (href_text L)

/-- The references of the nodes of the queue, created list first (`none` for a node without
data). -/
def PendingLists.queue_refs (h : PendingLists) : List (Option (Option String)) :=
  h.refs.1 ++ h.refs.2

/-- The cursor pair (`link`, `set2`) of the batching loop when `p` nodes of the queue were
consumed; `nc` and `nm` are the lengths of the created and of the modified list. -/
def ptr_at (nc nm p : Nat) : GSListPtr × GSListPtr :=
  if p < nc then (GSListPtr.created p, if nm = 0 then GSListPtr.null else GSListPtr.modified 0)
  else if p < nc + nm then (GSListPtr.modified (p - nc), GSListPtr.null)
  else (GSListPtr.null, GSListPtr.null)

/-- One batch cut off a queue of node references: the `href` texts of the first `left` nodes
that have data, and the nodes that remain. -/
def take_batch (L : Lib) : Nat → List (Option (Option String)) →
    List (Option String) × List (Option (Option String))
  | 0, q => ([], q)
  | _ + 1, [] => ([], [])
  | left + 1, none :: q => take_batch L (left + 1) q
  | left + 1, some e :: q =>
    (href_of_extra L e :: (take_batch L left q).1, (take_batch L left q).2)

/-- The queue cut into batches of at most `E_WEBDAV_MAX_MULTIGET_AMOUNT` references. -/
def batches (L : Lib) : Nat → List (Option (Option String)) → List (List (Option String))
  | 0, _ => []
  | fuel + 1, q =>
    match q with
    | [] => []
    | _ :: _ =>
      match (take_batch L E_WEBDAV_MAX_MULTIGET_AMOUNT q).1 with
      | [] => []
      | hd :: tl =>
        (hd :: tl) :: batches L fuel (take_batch L E_WEBDAV_MAX_MULTIGET_AMOUNT q).2

/-! ## Change detection: `ebb_webdav_get_changes_sync` -/

/-- What the collaborators answer during one call of `ebb_webdav_get_changes_sync`. -/
structure GetChangesEnv where
  /-- Return value of `e_webdav_session_getctag_sync`. -/
  getctag_success : Bool
  /-- The value `e_webdav_session_getctag_sync` leaves in `new_sync_tag`. -/
  getctag_ctag : Option String
  /-- Return value of `g_cancellable_set_error_if_cancelled (cancellable, error)`. -/
  cancelled : Bool
  /-- The path of the `request_uri` handed to the listing callback, if any. -/
  request_path : Option String
  /-- Response items the shallow listing hands to `ebb_webdav_get_contact_items_cb`. -/
  propfind_items : List DavResponse
  /-- How `e_webdav_session_propfind_sync` ended. -/
  propfind_outcome : Outcome
  /-- Rows `e_book_cache_search_with_callback` hands to `ebb_webdav_search_changes_cb`. -/
  cache_rows : List CacheRow
  /-- How `e_book_cache_search_with_callback` ended. -/
  cache_outcome : Outcome
  /-- Server replies to the batched-detail requests (`e_webdav_session_report_sync`). -/
  report : Nat → List (Option String) → ReportReply

/-- Everything `ebb_webdav_get_changes_sync` returns or changes. -/
structure GetChangesResult where
  success : Bool
  error : Option GError
  out_new_sync_tag : Option String
  out_created_objects : List EBookMetaBackendInfo
  out_modified_objects : List EBookMetaBackendInfo
  out_removed_objects : List EBookMetaBackendInfo
  priv : EBookBackendWebDAVPrivate
  requests : List Request

/-- The error set by `g_cancellable_set_error_if_cancelled`. -/
def cancelled_error : GError :=
  { code := GErrorCode.G_IO_ERROR GIOErrorEnum.CANCELLED, message := "Operation was cancelled" }

/-- The tail of `ebb_webdav_get_changes_sync`: `if (local_error) { check_credentials_error; propagate }`. -/
def finish_error (priv : EBookBackendWebDAVPrivate) (local_error : Option GError) : Option GError :=
  local_error.map (ebb_webdav_check_credentials_error priv)

/-- The diff step of a slow-path pass whose listing succeeded: the known-items table collected
from the listing, scanned against the rows of the cache. -/
def diff_step (env : GetChangesEnv) : WebDAVChangesData :=
  search_changes
    { out_modified_objects := [], out_removed_objects := [],
      known_items := collect_known_items env.request_path env.propfind_items }
    env.cache_rows

/-- Lines 625 to 684 of `ebb_webdav_get_changes_sync`: the shallow listing, the diff against the
cache, the created list and the batched fetch; `log` holds the requests issued before. -/
def get_changes_slow_path (L : Lib) (env : GetChangesEnv) (priv : EBookBackendWebDAVPrivate)
    (new_sync_tag : Option String) (log : List Request) : GetChangesResult :=
  match env.propfind_outcome with
  | Outcome.failed err =>
    { success := false, error := finish_error priv err, out_new_sync_tag := new_sync_tag,
      out_created_objects := [], out_modified_objects := [], out_removed_objects := [],
      priv := priv, requests := log ++ [Request.propfind] }
  | Outcome.ok =>
    let ccd := diff_step env
    match env.cache_outcome with
    | Outcome.failed err =>
      { success := false, error := finish_error priv err, out_new_sync_tag := new_sync_tag,
        out_created_objects := [], out_modified_objects := ccd.out_modified_objects,
        out_removed_objects := ccd.out_removed_objects,
        priv := priv, requests := log ++ [Request.propfind, Request.cache_search] }
    | Outcome.ok =>
      let created := created_from_known ccd.known_items
      if created.isEmpty && ccd.out_modified_objects.isEmpty then
        { success := true, error := none, out_new_sync_tag := new_sync_tag,
          out_created_objects := created, out_modified_objects := ccd.out_modified_objects,
          out_removed_objects := ccd.out_removed_objects,
          priv := priv, requests := log ++ [Request.propfind, Request.cache_search] }
      else
        let m := multiget_all L env.report
          { created := created.map some, modified := ccd.out_modified_objects.map some } none
        { success := m.success, error := finish_error priv m.error, out_new_sync_tag := new_sync_tag,
          out_created_objects := m.lists.created.reduceOption,
          out_modified_objects := m.lists.modified.reduceOption,
          out_removed_objects := ccd.out_removed_objects,
          priv := priv,
          requests := log ++ [Request.propfind, Request.cache_search] ++ m.requests.map Request.report }

/-- The function `ebb_webdav_get_changes_sync`. -/
def ebb_webdav_get_changes_sync (L : Lib) (env : GetChangesEnv) (priv : EBookBackendWebDAVPrivate)
    (last_sync_tag : Option String) : GetChangesResult :=
  if priv.ctag_supported then
    if !env.getctag_success then
      let priv1 : EBookBackendWebDAVPrivate := { priv with ctag_supported := env.cancelled }
      if priv1.ctag_supported || priv1.webdav.isNone then
        { success := false, error := if env.cancelled then some cancelled_error else none,
          out_new_sync_tag := none,
          out_created_objects := [], out_modified_objects := [], out_removed_objects := [],
          priv := priv1, requests := [Request.getctag] }
      else
        get_changes_slow_path L env priv1 env.getctag_ctag [Request.getctag]
    else if env.getctag_ctag.isSome && last_sync_tag.isSome
        && g_strcmp0_eq last_sync_tag env.getctag_ctag then
      { success := true, error := none, out_new_sync_tag := env.getctag_ctag,
        out_created_objects := [], out_modified_objects := [], out_removed_objects := [],
        priv := priv, requests := [Request.getctag] }
    else
      get_changes_slow_path L env priv env.getctag_ctag [Request.getctag]
  else
    get_changes_slow_path L env priv none []

/-! ## Single-item operations: `ebb_webdav_uid_to_uri`, load, save, remove, list-existing -/

/-- The function `ebb_webdav_uid_to_uri`; `source_uri` is the URI of the backend source
(`e_source_webdav_dup_soup_uri`). -/
def ebb_webdav_uid_to_uri (L : Lib) (source_uri : Option SoupURI) (uid : String)
    (extension : Option String) : Option String :=
  match source_uri with
  | none => none
  | some soup_uri =>
    let filename :=
      match extension with
      | some ext => L.soup_uri_encode (uid ++ ext)
      | none => L.soup_uri_encode uid
    -- a path ending in a slash loses that slash
    let path1 : Option String :=
      match soup_uri.path with
      | some p => if p.data.getLast? = some '/' then some (String.mk p.data.dropLast) else some p
      | none => none
    let tmp := (if str_empty path1 then "" else path1.getD "") ++ "/" ++ filename
    L.soup_uri_to_string { soup_uri with user := none, password := none, path := some tmp }

/-- What `e_webdav_session_get_data_sync` answers: how it ended and the out-parameters
`href`, `etag`, `bytes`, and whether `length` was set. -/
structure GetDataReply where
  outcome : Outcome
  href : Option String
  etag : Option String
  bytes : Option String
  length_set : Bool
deriving DecidableEq, Repr

/-- What the collaborators answer during one call of `ebb_webdav_load_contact_sync`. -/
structure LoadEnv where
  /-- Reply to the `n`-th single-resource fetch of the call, issued against `uri`. -/
  get_data : Nat → String → GetDataReply
  getctag_success : Bool
  getctag_ctag : Option String
  /-- Result of `e_book_meta_backend_dup_sync_tag`. -/
  last_sync_tag : Option String
  /-- Result of `g_cancellable_is_cancelled`. -/
  cancelled : Bool

/-- Everything `ebb_webdav_load_contact_sync` returns or changes. -/
structure LoadResult where
  success : Bool
  error : Option GError
  out_contact : Option EContact
  priv : EBookBackendWebDAVPrivate
  requests : List Request

/-- The error of a failed external call, seen through `local_error`. -/
def Outcome.error_of : Outcome → Option GError
  | Outcome.ok => none
  | Outcome.failed err => err

/-- Whether an external call returned `TRUE`. -/
def Outcome.is_ok : Outcome → Bool
  | Outcome.ok => true
  | Outcome.failed _ => false

/-- Lines 914 to 943 of `ebb_webdav_load_contact_sync`: parse what the successful fetch
returned, then classify the error. -/
def load_finish (L : Lib) (priv : EBookBackendWebDAVPrivate) (reply : GetDataReply)
    (log : List Request) : LoadResult :=
  if reply.outcome.is_ok then
    let contact : Option EContact :=
      match reply.href, reply.etag, reply.bytes with
      | some _, some etag, some bytes =>
        if reply.length_set then
          (L.e_contact_new_from_vcard bytes).map (fun c => { c with x_etag := some etag })
        else none
      | _, _, _ => none
    match contact with
    | some c =>
      { success := true, error := none, out_contact := some c, priv := priv, requests := log }
    | none =>
      { success := false,
        error := finish_error priv
          (some (EDB_ERROR_EX EDataBookStatus.OTHER_ERROR "Received object is not a valid vCard")),
        out_contact := none, priv := priv, requests := log }
  else
    { success := false, error := finish_error priv reply.outcome.error_of, out_contact := none,
      priv := priv, requests := log }

/-- Lines 891 to 912 of `ebb_webdav_load_contact_sync`: the fetches against the URIs derived
from `uid`; `n` fetches were issued before. -/
def load_by_uid (L : Lib) (env : LoadEnv) (priv : EBookBackendWebDAVPrivate)
    (source_uri : Option SoupURI) (uid : String) (n : Nat) (log : List Request) : LoadResult :=
  match ebb_webdav_uid_to_uri L source_uri uid (if priv.is_google then none else some ".vcf") with
  | none => { success := false, error := none, out_contact := none, priv := priv, requests := log }
  | some uri =>
    let reply := env.get_data n uri
    let log1 := log ++ [Request.get_data uri]
    -- Do not try twice with Google, it is either without extension or not there.
    if !reply.outcome.is_ok && !priv.is_google && !env.cancelled &&
        g_error_matches reply.outcome.error_of (GErrorCode.SOUP_HTTP_ERROR SOUP_STATUS_NOT_FOUND) then
      match ebb_webdav_uid_to_uri L source_uri uid none with
      | some uri2 =>
        load_finish L priv (env.get_data (n + 1) uri2) (log1 ++ [Request.get_data uri2])
      | none => load_finish L priv reply log1
    else
      load_finish L priv reply log1

/-- Lines 866 to 889 of `ebb_webdav_load_contact_sync`, entered when the direct fetch did not
succeed: the change-tag check, then the fetches by `uid`. -/
def load_after_direct (L : Lib) (env : LoadEnv) (priv : EBookBackendWebDAVPrivate)
    (source_uri : Option SoupURI) (uid : String) (n : Nat) (log : List Request) : LoadResult :=
  if priv.ctag_supported then
    if env.getctag_success && env.getctag_ctag.isSome
        && g_strcmp0_eq env.last_sync_tag env.getctag_ctag then
      -- The book did not change, thus the contact cannot be there
      { success := false, error := some (EDB_ERROR EDataBookStatus.CONTACT_NOT_FOUND),
        out_contact := none, priv := priv, requests := log ++ [Request.getctag] }
    else
      load_by_uid L env priv source_uri uid n (log ++ [Request.getctag])
  else
    load_by_uid L env priv source_uri uid n log

/-- The function `ebb_webdav_load_contact_sync`. -/
def ebb_webdav_load_contact_sync (L : Lib) (env : LoadEnv) (priv : EBookBackendWebDAVPrivate)
    (source_uri : Option SoupURI) (uid : String) (extra : Option String) : LoadResult :=
  match extra with
  | none => load_after_direct L env priv source_uri uid 0 []
  | some uri =>
    if uri = "" then load_after_direct L env priv source_uri uid 0 []
    else
      let reply := env.get_data 0 uri
      if reply.outcome.is_ok then load_finish L priv reply [Request.get_data uri]
      else load_after_direct L env priv source_uri uid 1 [Request.get_data uri]

/-- The conflict policies `EConflictResolution`. -/
inductive EConflictResolution
  | FAIL | USE_NEWER | KEEP_SERVER | KEEP_LOCAL | WRITE_COPY
deriving DecidableEq, Repr

/-- What `e_webdav_session_put_data_sync` answers: how it ended and the `href` it reports. -/
structure PutDataReply where
  outcome : Outcome
  out_href : Option String
deriving DecidableEq, Repr

/-- Everything `ebb_webdav_save_contact_sync` returns or changes. -/
structure SaveResult where
  success : Bool
  error : Option GError
  out_new_uid : Option String
  out_new_extra : Option String
  priv : EBookBackendWebDAVPrivate
  requests : List Request

/-- The function `ebb_webdav_save_contact_sync`; `put_data uri etag bytes` is the reply of the
server to the write. -/
def ebb_webdav_save_contact_sync (L : Lib)
    (put_data : Option String → Option String → String → PutDataReply)
    (priv : EBookBackendWebDAVPrivate) (source_uri : Option SoupURI)
    (overwrite_existing : Bool) (conflict_resolution : EConflictResolution)
    (contact : EContact) (extra : Option String) : SaveResult :=
  let etag := contact.x_etag
  let vcard_string := L.e_vcard_to_string { contact with x_etag := none }
  match contact.uid, vcard_string with
  | some uid, some vcard =>
    if !overwrite_existing || !str_empty extra then
      let href := if str_empty extra then ebb_webdav_uid_to_uri L source_uri uid (some ".vcf") else none
      let force_write :=
        overwrite_existing && decide (conflict_resolution = EConflictResolution.KEEP_LOCAL)
      let uri := if !str_empty extra then extra else href
      let if_match := if force_write then some "" else if overwrite_existing then etag else none
      let reply := put_data uri if_match vcard
      { success := reply.outcome.is_ok, error := finish_error priv reply.outcome.error_of,
        out_new_uid := if reply.outcome.is_ok then some uid else none,
        out_new_extra := reply.out_href, priv := priv,
        requests := [Request.put_data uri if_match vcard] }
    else
      { success := false,
        error := some (EDB_ERROR_EX EDataBookStatus.OTHER_ERROR "Object to save is not a valid vCard"),
        out_new_uid := none, out_new_extra := none, priv := priv, requests := [] }
  | _, _ =>
    { success := false,
      error := some (EDB_ERROR_EX EDataBookStatus.OTHER_ERROR "Object to save is not a valid vCard"),
      out_new_uid := none, out_new_extra := none, priv := priv, requests := [] }

/-- Everything `ebb_webdav_remove_contact_sync` returns or changes. -/
structure RemoveResult where
  success : Bool
  error : Option GError
  priv : EBookBackendWebDAVPrivate
  requests : List Request

/-- Result of the delete requests issued so far. -/
structure DeleteState where
  success : Bool
  local_error : Option GError
  requests : List Request

/-- One call `e_webdav_session_delete_sync (webdav, uri, NULL, etag, cancellable, &local_error)`
after `g_clear_error (&local_error)`; `delete n uri etag` is the reply to the `n`-th delete. -/
def delete_step (delete : Nat → String → Option String → Outcome) (etag : Option String)
    (uri : String) (st : DeleteState) : DeleteState :=
  let reply := delete st.requests.length uri etag
  { success := reply.is_ok, local_error := reply.error_of,
    requests := st.requests ++ [Request.delete uri etag] }

/-- The function `ebb_webdav_remove_contact_sync`. -/
def ebb_webdav_remove_contact_sync (L : Lib) (delete : Nat → String → Option String → Outcome)
    (priv : EBookBackendWebDAVPrivate) (source_uri : Option SoupURI)
    (conflict_resolution : EConflictResolution) (uid : String) (extra : Option String)
    (object : String) : RemoveResult :=
  match extra with
  | none => { success := false, error := some (EDB_ERROR EDataBookStatus.INVALID_ARG),
              priv := priv, requests := [] }
  | some uri =>
    if uri = "" then
      { success := false, error := some (EDB_ERROR EDataBookStatus.INVALID_ARG),
        priv := priv, requests := [] }
    else
      match L.e_contact_new_from_vcard object with
      | none => { success := false, error := some (EDB_ERROR EDataBookStatus.INVALID_ARG),
                  priv := priv, requests := [] }
      | some contact =>
        let etag := if conflict_resolution = EConflictResolution.FAIL then contact.x_etag else none
        let st1 := delete_step delete etag uri { success := false, local_error := none, requests := [] }
        let st3 :=
          if g_error_matches st1.local_error (GErrorCode.SOUP_HTTP_ERROR SOUP_STATUS_NOT_FOUND) then
            let st2 :=
              match ebb_webdav_uid_to_uri L source_uri uid (some ".vcf") with
              | some href => delete_step delete etag href st1
              | none => st1
            if g_error_matches st2.local_error (GErrorCode.SOUP_HTTP_ERROR SOUP_STATUS_NOT_FOUND) then
              match ebb_webdav_uid_to_uri L source_uri uid none with
              | some href => delete_step delete etag href st2
              | none => st2
            else st2
          else st1
        { success := st3.success, error := finish_error priv st3.local_error, priv := priv,
          requests := st3.requests }

/-- The callback `ebb_webdav_extract_existing_cb`. -/
def ebb_webdav_extract_existing_cb (L : Lib) (out_existing_objects : List EBookMetaBackendInfo)
    (r : DavResponse) : Bool × List EBookMetaBackendInfo :=
  if !r.prop_given then (true, out_existing_objects)
  else if r.status_code = SOUP_STATUS_OK then
    match r.address_data with
    | none => (true, out_existing_objects)
    | some address_data =>
      match L.e_contact_new_from_vcard address_data with
      | none => (true, out_existing_objects)
      | some contact =>
        match contact.uid with
        | none => (true, out_existing_objects)
        | some uid =>
          (true, e_book_meta_backend_info_new uid r.etag none (some r.href) :: out_existing_objects)
  else (true, out_existing_objects)

/-- Everything `ebb_webdav_list_existing_sync` returns or changes. -/
structure ListExistingResult where
  success : Bool
  error : Option GError
  out_existing_objects : List EBookMetaBackendInfo
  priv : EBookBackendWebDAVPrivate
  requests : List Request

/-- The function `ebb_webdav_list_existing_sync`; `reply` is what the server answers to the
address-book query. -/
def ebb_webdav_list_existing_sync (L : Lib) (reply : ReportReply)
    (priv : EBookBackendWebDAVPrivate) : ListExistingResult :=
  let objs := traverse (ebb_webdav_extract_existing_cb L) [] reply.items
  { success := reply.outcome.is_ok, error := finish_error priv reply.outcome.error_of,
    out_existing_objects := if reply.outcome.is_ok then objs.reverse else objs,
    priv := priv, requests := [Request.report_existing] }

/-- The function `ebb_webdav_disconnect_sync`: the session is released. -/
def ebb_webdav_disconnect_sync (priv : EBookBackendWebDAVPrivate) : EBookBackendWebDAVPrivate :=
  { priv with webdav := none }

/-! ## A session: operations issued one after the other between connect and disconnect -/

/-- One top-level operation of a connected backend, with the answers of its collaborators. -/
inductive Operation
  | get_changes (env : GetChangesEnv) (last_sync_tag : Option String)
  | load_contact (env : LoadEnv) (uid : String) (extra : Option String)
  | save_contact (put_data : Option String → Option String → String → PutDataReply)
      (overwrite_existing : Bool) (conflict_resolution : EConflictResolution)
      (contact : EContact) (extra : Option String)
  | remove_contact (delete : Nat → String → Option String → Outcome)
      (conflict_resolution : EConflictResolution) (uid : String) (extra : Option String)
      (object : String)
  | list_existing (reply : ReportReply)

/-- Runs one operation: the private data afterwards and the requests it issued. -/
def run_operation (L : Lib) (source_uri : Option SoupURI) (priv : EBookBackendWebDAVPrivate) :
    Operation → EBookBackendWebDAVPrivate × List Request
  | Operation.get_changes env last_sync_tag =>
    let r := ebb_webdav_get_changes_sync L env priv last_sync_tag
    (r.priv, r.requests)
  | Operation.load_contact env uid extra =>
    let r := ebb_webdav_load_contact_sync L env priv source_uri uid extra
    (r.priv, r.requests)
  | Operation.save_contact put_data overwrite_existing conflict_resolution contact extra =>
    let r := ebb_webdav_save_contact_sync L put_data priv source_uri overwrite_existing
      conflict_resolution contact extra
    (r.priv, r.requests)
  | Operation.remove_contact delete conflict_resolution uid extra object =>
    let r := ebb_webdav_remove_contact_sync L delete priv source_uri conflict_resolution uid extra
      object
    (r.priv, r.requests)
  | Operation.list_existing reply =>
    let r := ebb_webdav_list_existing_sync L reply priv
    (r.priv, r.requests)

/-- Runs a sequence of operations from `priv`: the private data at the end and, per
operation, the requests it issued. -/
def run_session (L : Lib) (source_uri : Option SoupURI) :
    EBookBackendWebDAVPrivate → List Operation → EBookBackendWebDAVPrivate × List (List Request)
  | priv, [] => (priv, [])
  | priv, op :: ops =>
    let r := run_operation L source_uri priv op
    let rest := run_session L source_uri r.1 ops
    (rest.1, r.2 :: rest.2)

/-! ## Capability negotiation: `ebb_webdav_connect_sync` -/

/-- The results of an authentication attempt, `ESourceAuthenticationResult`. -/
inductive ESourceAuthenticationResult
  | UNKNOWN | ERROR | ERROR_SSL_FAILED | ACCEPTED | REJECTED | REQUIRED
deriving DecidableEq, Repr

/-- The connection states of a source, `ESourceConnectionStatus`. -/
inductive ESourceConnectionStatus
  | DISCONNECTED | CONNECTING | CONNECTED | SSL_FAILED
deriving DecidableEq, Repr

def E_WEBDAV_CAPABILITY_ADDRESSBOOK : String := "addressbook"
def SOUP_METHOD_PUT : String := "PUT"
def SOUP_METHOD_POST : String := "POST"
def SOUP_METHOD_DELETE : String := "DELETE"

/-- The test `g_str_has_prefix (str, prefix)`. -/
def g_str_begins_with (str start : String) : Bool := start.data.isPrefixOf str.data

/-- The test `table && g_hash_table_contains (table, key)` on a capability or allows table,
whose keys are compared without regard to case. -/
def strcase_table_contains (L : Lib) (table : Option (List String)) (key : String) : Bool :=
  match table with
  | some keys => keys.any (fun k => L.g_ascii_strcasecmp_eq k key)
  | none => false

/-- What `e_webdav_session_options_sync` answers: how it ended and the two tables. -/
structure OptionsReply where
  outcome : Outcome
  capabilities : Option (List String)
  allows : Option (List String)
deriving DecidableEq, Repr

/-- What the collaborators answer during one call of `ebb_webdav_connect_sync`. -/
structure ConnectEnv where
  /-- Reply to the `n`-th capability probe, issued against `uri` (`NULL`: the collection). -/
  options : Nat → Option String → OptionsReply
  /-- How `e_webdav_session_getctag_sync (..., &local_error)` ended. -/
  getctag : Outcome
  /-- Result of `e_soup_session_get_authentication_requires_credentials`. -/
  authentication_requires_credentials : Bool

/-- The locals `success`, `local_error`, `capabilities`, `allows` after the capability probe,
and the requests issued. -/
structure ProbeState where
  success : Bool
  local_error : Option GError
  capabilities : Option (List String)
  allows : Option (List String)
  requests : List Request
deriving DecidableEq, Repr

/-- The retry of the probe against the parent directory (lines 105 to 129), for a source URI
with host and non-empty `path`. -/
def connect_probe_parent (L : Lib) (env : ConnectEnv) (soup_uri : SoupURI) (path : String)
    (st : ProbeState) : ProbeState :=
  let path1 := if path.data.getLast? = some '/' then String.mk path.data.dropLast else path
  match L.g_path_get_dirname path1 with
  | none => st
  | some dir =>
    if g_str_begins_with path1 dir then
      match L.soup_uri_to_string { soup_uri with path := some dir } with
      | none => st
      | some uri =>
        let reply := env.options 1 (some uri)
        { success := reply.outcome.is_ok, local_error := reply.outcome.error_of,
          capabilities := reply.capabilities, allows := reply.allows,
          requests := st.requests ++ [Request.options (some uri)] }
    else st

/-- Lines 92 to 144 of `ebb_webdav_connect_sync`: the capability probe and its two fallbacks. -/
def connect_probe (L : Lib) (env : ConnectEnv) (source_uri : Option SoupURI) : ProbeState :=
  let reply := env.options 0 none
  let st : ProbeState :=
    { success := reply.outcome.is_ok, local_error := reply.outcome.error_of,
      capabilities := reply.capabilities, allows := reply.allows,
      requests := [Request.options none] }
  -- iCloud and Google servers can return "404 Not Found" when issued OPTIONS on the collection
  if g_error_matches st.local_error (GErrorCode.SOUP_HTTP_ERROR SOUP_STATUS_NOT_FOUND) then
    match source_uri with
    | none => st
    | some soup_uri =>
      let icloud : Option String :=
        match soup_uri.host, soup_uri.path with
        | some host, some path =>
          if path != "" && L.e_util_utf8_strstrcase host ".icloud.com" then some path else none
        | _, _ => none
      match icloud with
      | some path => connect_probe_parent L env soup_uri path st
      | none =>
        match soup_uri.host with
        | some host =>
          if L.e_util_utf8_strstrcase host ".googleusercontent.com" then
            -- Google does not like OPTIONS, hard-code it
            { st with success := true, local_error := none,
                      capabilities := some [E_WEBDAV_CAPABILITY_ADDRESSBOOK],
                      allows := some [SOUP_METHOD_PUT] }
          else st
        | none => st
  else st

/-- The test `credentials_empty` of the failure branch: no credentials were given and the
session's authentication requires credentials. -/
def connect_credentials_empty (credentials : Option ENamedParameters)
    (requires_credentials : Bool) : Bool :=
  (match credentials with
   | none => true
   | some c => decide (c.length = 0)) && requires_credentials

/-- What the failure branch of `ebb_webdav_connect_sync` decides. -/
structure FailureReport where
  auth_result : ESourceAuthenticationResult
  local_error : Option GError
  is_ssl_error : Bool
deriving DecidableEq, Repr

/-- Lines 213 to 248 of `ebb_webdav_connect_sync`: the authentication result for a failed
connect, the error to propagate, and whether the failure was a TLS failure. -/
def connect_failure (credentials : Option ENamedParameters) (requires_credentials : Bool)
    (local_error : Option GError) : FailureReport :=
  let credentials_empty := connect_credentials_empty credentials requires_credentials
  let is_ssl_error :=
    g_error_matches local_error (GErrorCode.SOUP_HTTP_ERROR SOUP_STATUS_SSL_FAILED)
  let decided : ESourceAuthenticationResult × Option GError :=
    -- because evolution knows only G_IO_ERROR_CANCELLED
    if g_error_matches local_error (GErrorCode.SOUP_HTTP_ERROR SOUP_STATUS_CANCELLED) then
      (ESourceAuthenticationResult.ERROR,
       local_error.map (fun e => { e with code := GErrorCode.G_IO_ERROR GIOErrorEnum.CANCELLED }))
    else if g_error_matches local_error (GErrorCode.SOUP_HTTP_ERROR SOUP_STATUS_FORBIDDEN)
        && credentials_empty then
      (ESourceAuthenticationResult.REQUIRED, local_error)
    else if g_error_matches local_error (GErrorCode.SOUP_HTTP_ERROR SOUP_STATUS_UNAUTHORIZED) then
      if credentials_empty then (ESourceAuthenticationResult.REQUIRED, local_error)
      else (ESourceAuthenticationResult.REJECTED, local_error)
    else if g_error_matches local_error (GErrorCode.G_IO_ERROR GIOErrorEnum.CONNECTION_REFUSED)
        || (!requires_credentials
            && g_error_matches local_error (GErrorCode.G_IO_ERROR GIOErrorEnum.NOT_FOUND)) then
      (ESourceAuthenticationResult.REJECTED, local_error)
    else
      match local_error with
      | none =>
        (ESourceAuthenticationResult.ERROR,
         some { code := GErrorCode.G_IO_ERROR GIOErrorEnum.FAILED, message := "Unknown error" })
      | some e => (ESourceAuthenticationResult.ERROR, some e)
  { auth_result :=
      if is_ssl_error then ESourceAuthenticationResult.ERROR_SSL_FAILED else decided.1,
    local_error := decided.2, is_ssl_error := is_ssl_error }

/-- Everything `ebb_webdav_connect_sync` returns or changes: the return value, `*error`,
`*out_auth_result` (if written), whether the certificate details were retrieved, the last
connection status set on the source (if any), the writability set on the backend (if any),
the private data afterwards and the requests issued. -/
structure ConnectResult where
  success : Bool
  error : Option GError
  out_auth_result : Option ESourceAuthenticationResult
  ssl_details_retrieved : Bool
  connection_status : Option ESourceConnectionStatus
  writable : Option Bool
  priv : EBookBackendWebDAVPrivate
  requests : List Request
deriving DecidableEq, Repr

/-- The error set when the collection is not an address book; `uri` is the result of
`soup_uri_to_string (soup_uri, FALSE)` on the URI of the source, printed by `%s` (a `NULL`
string is printed as `(null)`). -/
def not_address_book_error (uri : Option String) : GError :=
  { code := GErrorCode.G_IO_ERROR GIOErrorEnum.INVALID_DATA,
    message := "Given URL “" ++ uri.getD "(null)" ++ "” doesn’t reference WebDAV address book" }

/-- What `g_propagate_error (error, local_error)` leaves in `*error`: an error set before
stays. -/
def g_propagate_error (error local_error : Option GError) : Option GError :=
  match error with
  | some e => some e
  | none => local_error

/-- Lines 210 to 266 of `ebb_webdav_connect_sync`, for a connect that did not succeed. -/
def connect_fail (env : ConnectEnv) (priv : EBookBackendWebDAVPrivate)
    (credentials : Option ENamedParameters) (error local_error : Option GError)
    (writable : Option Bool) (requests : List Request) : ConnectResult :=
  let report := connect_failure credentials env.authentication_requires_credentials local_error
  { success := false, error := g_propagate_error error report.local_error,
    out_auth_result := some report.auth_result,
    ssl_details_retrieved := report.is_ssl_error,
    connection_status :=
      some (if report.is_ssl_error then ESourceConnectionStatus.SSL_FAILED
            else ESourceConnectionStatus.DISCONNECTED),
    writable := writable,
    priv := { priv with webdav := none }, requests := requests }

/-- The function `ebb_webdav_connect_sync`. -/
def ebb_webdav_connect_sync (L : Lib) (env : ConnectEnv) (priv : EBookBackendWebDAVPrivate)
    (source_uri : Option SoupURI) (credentials : Option ENamedParameters) : ConnectResult :=
  match priv.webdav with
  | some _ =>
    { success := true, error := none, out_auth_result := none, ssl_details_retrieved := false,
      connection_status := none, writable := none, priv := priv, requests := [] }
  | none =>
    let webdav : EWebDAVSession :=
      { credentials := credentials,
        authentication_requires_credentials := env.authentication_requires_credentials }
    -- Thinks the getctag extension is available the first time
    let priv1 : EBookBackendWebDAVPrivate :=
      { webdav := some webdav, ctag_supported := true, is_google := priv.is_google }
    let probe := connect_probe L env source_uri
    if probe.success then
      -- The POST added for FastMail servers, which do not advertise PUT on collections.
      let is_writable :=
        strcase_table_contains L probe.allows SOUP_METHOD_PUT ||
        strcase_table_contains L probe.allows SOUP_METHOD_POST ||
        strcase_table_contains L probe.allows SOUP_METHOD_DELETE
      if strcase_table_contains L probe.capabilities E_WEBDAV_CAPABILITY_ADDRESSBOOK then
        let is_google :=
          match source_uri with
          | some soup_uri =>
            match soup_uri.host with
            | some host =>
              L.g_ascii_strcasecmp_eq host "www.google.com" ||
              L.g_ascii_strcasecmp_eq host "apidata.googleusercontent.com"
            | none => false
          | none => false
        let priv2 : EBookBackendWebDAVPrivate := { priv1 with is_google := is_google }
        let requests := probe.requests ++ [Request.getctag]
        -- The getctag extension is not required, thus check for unauthorized error only.
        if !env.getctag.is_ok && g_error_matches env.getctag.error_of
            (GErrorCode.SOUP_HTTP_ERROR SOUP_STATUS_UNAUTHORIZED) then
          connect_fail env priv2 credentials none env.getctag.error_of (some is_writable) requests
        else
          { success := true, error := none,
            out_auth_result := some ESourceAuthenticationResult.ACCEPTED,
            ssl_details_retrieved := false,
            connection_status := some ESourceConnectionStatus.CONNECTED,
            writable := some is_writable, priv := priv2, requests := requests }
      else
        connect_fail env priv1 credentials
          (some (not_address_book_error (source_uri.bind L.soup_uri_to_string)))
          probe.local_error none probe.requests
    else
      connect_fail env priv1 credentials none probe.local_error none probe.requests

/-! ## Concrete inputs on which the model is evaluated -/

/-- The directory part of a file name the way `g_path_get_dirname` computes it: everything
before the last slash, without the slashes that end it; `.` when there is no slash and `/`
when nothing else is left. -/
def example_dirname (file_name : String) : Option String :=
  if file_name.data.contains '/' then
    let upto := (file_name.data.reverse.dropWhile (fun c => c != '/')).reverse
    let dir := (upto.reverse.dropWhile (fun c => c == '/')).reverse
    match dir with
    | [] => some "/"
    | _ :: _ => some (String.mk dir)
  else some "."

/-- A small stand-in for the vCard and URI library: a card is its own uid, URIs are their own
path, nothing is escaped, and the case of letters is not folded. -/
def example_lib : Lib where
  e_contact_new_from_vcard := fun s => some { uid := some s, x_etag := none, rest := s }
  e_vcard_to_string := fun c => some c.rest
  soup_uri_path_of := fun _ => none
  soup_uri_encode := fun s => s
  soup_uri_to_string := fun u => u.path
  g_path_get_dirname := example_dirname
  e_util_utf8_strstrcase := fun haystack needle =>
    haystack.data.tails.any (fun t => needle.data.isPrefixOf t)
  g_ascii_strcasecmp_eq := fun a b => decide (a = b)

/-- A listing item for the resource `href` with the given etag. -/
def example_item (href etag : String) : DavResponse :=
  { prop_given := true, href := href, status_code := SOUP_STATUS_OK, etag := some etag,
    address_data := none }

/-- A batched-detail response item for `href`: its card and a fresh etag. -/
def example_card (href : String) : DavResponse :=
  { prop_given := true, href := href, status_code := SOUP_STATUS_OK, etag := some "fresh",
    address_data := some ("card of " ++ href) }

/-- A synced cache row. -/
def example_row (uid revision extra : String) : CacheRow :=
  { uid := uid, revision := some revision, object := some ("cached " ++ uid), extra := some extra,
    offline_state := EOfflineState.SYNCED }

/-- A server that answers every batched-detail request with the cards of all requested
references, in request order. -/
def example_report (_n : Nat) (hrefs : List (Option String)) : ReportReply :=
  { items := hrefs.filterMap (fun h => h.map example_card), outcome := Outcome.ok }

/-- A sync pass against the collection `/book/` whose listing returns `items`, with `rows` in
the cache; the change-tag fetch fails. -/
def example_env (items : List DavResponse) (rows : List CacheRow) : GetChangesEnv where
  getctag_success := false
  getctag_ctag := none
  cancelled := false
  request_path := some "/book/"
  propfind_items := items
  propfind_outcome := Outcome.ok
  cache_rows := rows
  cache_outcome := Outcome.ok
  report := example_report

/-- A connected backend with credentials, change-tag support switched off. -/
def example_priv : EBookBackendWebDAVPrivate :=
  { webdav := some { credentials := some [("username", "user")],
                     authentication_requires_credentials := true },
    ctag_supported := false, is_google := false }

/-- The URI of the example collection. -/
def example_source_uri : Option SoupURI :=
  some { user := some "user", password := none, host := some "dav.example.org",
         path := some "/book/" }

/-- The transport error for a resource the server does not have. -/
def example_not_found : GError :=
  { code := GErrorCode.SOUP_HTTP_ERROR SOUP_STATUS_NOT_FOUND, message := "Not Found" }

/-- A load during which every fetch is answered with not-found and the change-tag fetch fails
(the operation is not cancelled). -/
def example_load_env : LoadEnv where
  get_data := fun _ _ =>
    { outcome := Outcome.failed (some example_not_found), href := none, etag := none,
      bytes := none, length_set := false }
  getctag_success := false
  getctag_ctag := none
  last_sync_tag := some "ctag-7"
  cancelled := false

/-- A pending record for the resource number `i` of the example collection; its content was
not fetched yet. -/
def example_pending (i : Nat) : Option EBookMetaBackendInfo :=
  some { uid := some "", revision := some "etag", object := none,
         extra := some (String.mk ('/' :: List.replicate (i + 1) 'x')) }

/-- A pending queue of 101 records with pairwise distinct references: 60 created, 41
modified. -/
def example_queue : PendingLists :=
  { created := (List.range 60).map example_pending,
    modified := (List.range 41).map (fun i => example_pending (60 + i)) }

/-- A server on which every batched-detail request fails. -/
def example_failing_report (_n : Nat) (_hrefs : List (Option String)) : ReportReply :=
  { items := [],
    outcome := Outcome.failed
      (some { code := GErrorCode.SOUP_HTTP_ERROR 500, message := "Internal Server Error" }) }

/-- A capability probe answered by an address-book collection that allows writing. -/
def example_options_ok : OptionsReply :=
  { outcome := Outcome.ok, capabilities := some ["access-control", "addressbook"],
    allows := some ["OPTIONS", "GET", "PUT", "DELETE"] }

/-- A capability probe that fails with the given transport status. -/
def example_options_failed (status : Nat) : OptionsReply :=
  { outcome := Outcome.failed
      (some { code := GErrorCode.SOUP_HTTP_ERROR status, message := "probe failed" }),
    capabilities := none, allows := none }

/-- A connect during which the first capability probe is answered with `first`, a second probe
would be answered by an address-book collection, and the change-tag probe succeeds. -/
def example_connect_env (first : OptionsReply) (requires_credentials : Bool) : ConnectEnv where
  options := fun n _ =>
    match n with
    | 0 => first
    | _ + 1 => example_options_ok
  getctag := Outcome.ok
  authentication_requires_credentials := requires_credentials

/-- A backend without a session. -/
def example_unconnected : EBookBackendWebDAVPrivate :=
  { webdav := none, ctag_supported := false, is_google := false }

/-- The URI of a collection `/a/b/` on a host of the `.icloud.com` domain. -/
def example_icloud_uri : Option SoupURI :=
  some { user := some "user", password := none, host := some "p01-contacts.icloud.com",
         path := some "/a/b/" }

/-! ## Basic facts about the hash table model and the traversals -/

theorem traverse_all_true {σ α : Type} (cb : σ → α → Bool × σ) (h : ∀ s a, (cb s a).1 = true)
    (s : σ) (l : List α) : traverse cb s l = l.foldl (fun s a => (cb s a).2) s := by
  induction l generalizing s with
  | nil => rfl
  | cons a rest ih =>
    have h1 := h s a
    rw [List.foldl_cons, ← ih]
    generalize hc : cb s a = c at h1
    obtain ⟨b, s1⟩ := c
    simp only at h1
    subst h1
    simp [traverse, hc]

theorem lookup_eq_none_iff (t : KnownItems) (k : String) :
    g_hash_table_lookup t k = none ↔ ∀ kv ∈ t, kv.1 ≠ k := by
  simp [g_hash_table_lookup, List.find?_eq_none]

theorem lookup_remove (t : KnownItems) (k k1 : String) :
    g_hash_table_lookup (g_hash_table_remove t k1) k
      = if k = k1 then none else g_hash_table_lookup t k := by
  simp only [g_hash_table_lookup, g_hash_table_remove, List.find?_filter]
  by_cases h : k = k1
  · subst h
    have : (fun a : String × EBookMetaBackendInfo => (!decide (a.1 = k) && decide (a.1 = k)))
        = fun _ => false := by
      funext a; by_cases h1 : a.1 = k <;> simp [h1]
    simp [this]
  · have : (fun a : String × EBookMetaBackendInfo => (!decide (a.1 = k1) && decide (a.1 = k)))
        = fun a => decide (a.1 = k) := by
      funext a
      by_cases h1 : a.1 = k
      · have h2 : ¬ a.1 = k1 := fun h3 => h (h1 ▸ h3)
        simp [h1, h2, h]
      · simp [h1]
    simp [this, h]

theorem lookup_mem (t : KnownItems) (k : String) (v : EBookMetaBackendInfo)
    (h : g_hash_table_lookup t k = some v) : (k, v) ∈ t := by
  simp only [g_hash_table_lookup, Option.map_eq_some'] at h
  obtain ⟨kv, h1, h2⟩ := h
  have h3 := List.find?_some h1
  have h4 := List.mem_of_find?_eq_some h1
  simp at h3
  obtain ⟨a, b⟩ := kv
  simp at h3 h2
  subst h3; subst h2
  exact h4

/-! ## The cache scan -/

theorem search_changes_cb_fst (ccd : WebDAVChangesData) (row : CacheRow) :
    (ebb_webdav_search_changes_cb ccd row).1 = true := by
  unfold ebb_webdav_search_changes_cb
  split
  · rfl
  · split
    · rfl
    · split
      · split <;> rfl
      · rfl

theorem search_changes_nil (ccd : WebDAVChangesData) : search_changes ccd [] = ccd := rfl

theorem search_changes_cons (ccd : WebDAVChangesData) (row : CacheRow) (rows : List CacheRow) :
    search_changes ccd (row :: rows)
      = search_changes (ebb_webdav_search_changes_cb ccd row).2 rows := by
  have h := search_changes_cb_fst ccd row
  generalize hc : ebb_webdav_search_changes_cb ccd row = c at h
  obtain ⟨b, s1⟩ := c
  simp only at h
  subst h
  simp [search_changes, traverse, hc]

theorem search_changes_append (ccd : WebDAVChangesData) (pre post : List CacheRow) :
    search_changes ccd (pre ++ post) = search_changes (search_changes ccd pre) post := by
  induction pre generalizing ccd with
  | nil => rfl
  | cons r rest ih => simp [search_changes_cons, ih]

theorem remove_of_lookup_none (t : KnownItems) (k : String)
    (h : g_hash_table_lookup t k = none) : g_hash_table_remove t k = t := by
  rw [lookup_eq_none_iff] at h
  simp only [g_hash_table_remove, List.filter_eq_self]
  intro kv hkv
  simp [h kv hkv]

/-- The known-items table after one scan step: the row's non-empty reference is dropped. -/
theorem search_changes_cb_known (ccd : WebDAVChangesData) (row : CacheRow) :
    (ebb_webdav_search_changes_cb ccd row).2.known_items
      = match row.extra with
        | some e => if e = "" then ccd.known_items else g_hash_table_remove ccd.known_items e
        | none => ccd.known_items := by
  unfold ebb_webdav_search_changes_cb
  cases he : row.extra with
  | none => simp
  | some e =>
    by_cases h0 : e = ""
    · simp [h0]
    · simp only [h0, if_false]
      cases hl : g_hash_table_lookup ccd.known_items e with
      | none => simp [remove_of_lookup_none _ _ hl]
      | some nfo => by_cases hr : g_strcmp0_eq row.revision nfo.revision = true <;> simp [hr]

theorem search_changes_known (ccd : WebDAVChangesData) (rows : List CacheRow) :
    (search_changes ccd rows).known_items
      = ccd.known_items.filter
          (fun kv => !(rows.any (fun r => decide (r.extra = some kv.1) && !decide (kv.1 = "")))) := by
  induction rows generalizing ccd with
  | nil => simp [search_changes_nil]
  | cons row rest ih =>
    rw [search_changes_cons, ih, search_changes_cb_known]
    cases he : row.extra with
    | none => simp [he]
    | some e =>
      by_cases h0 : e = ""
      · subst h0
        simp only [if_true]
        apply List.filter_congr
        intro kv _
        by_cases h1 : kv.1 = ""
        · simp [he, h1]
        · have h2 : ¬ "" = kv.1 := fun h => h1 h.symm
          simp [he, h1, h2]
      · simp only [h0, if_false, g_hash_table_remove, List.filter_filter]
        apply List.filter_congr
        intro kv _
        by_cases h1 : kv.1 = e
        · subst h1; simp [he, h0]
        · have h2 : ¬ e = kv.1 := fun h => h1 h.symm
          simp [he, h1, h2]

/-! ## The shallow listing -/

theorem get_contact_items_cb_fst (p : Option String) (t : KnownItems) (r : DavResponse) :
    (ebb_webdav_get_contact_items_cb p t r).1 = true := by
  unfold ebb_webdav_get_contact_items_cb
  split
  · split
    · rfl
    · split <;> rfl
  · rfl

theorem get_contact_items_cb_snd (p : Option String) (t : KnownItems) (r : DavResponse) :
    (ebb_webdav_get_contact_items_cb p t r).2
      = if is_member_item p r then
          g_hash_table_insert t r.href
            (e_book_meta_backend_info_new "" r.etag none (some r.href))
        else t := by
  unfold ebb_webdav_get_contact_items_cb is_member_item
  generalize (r.prop_given && decide (r.status_code = SOUP_STATUS_OK)) = a
  generalize g_str_has_suffix r.href "/" = b1
  cases p with
  | none => cases a <;> cases b1 <;> cases r.etag <;> simp
  | some q =>
    cases a <;> cases b1 <;> cases r.etag <;> cases hb : g_str_has_suffix r.href q <;> simp [hb]

theorem lookup_insert (t : KnownItems) (k k1 : String) (v1 : EBookMetaBackendInfo) :
    g_hash_table_lookup (g_hash_table_insert t k1 v1) k
      = if k = k1 then some v1 else g_hash_table_lookup t k := by
  have h := lookup_remove t k k1
  by_cases hk : k = k1
  · subst hk
    simp [g_hash_table_insert, g_hash_table_lookup]
  · have hk2 : ¬ k1 = k := fun h => hk h.symm
    simp only [hk, if_false] at h ⊢
    rw [← h]
    simp [g_hash_table_insert, g_hash_table_lookup, List.find?_cons, hk2]

theorem collect_known_items_eq_foldl (p : Option String) (items : List DavResponse) :
    collect_known_items p items
      = items.foldl (fun t r => (ebb_webdav_get_contact_items_cb p t r).2) [] :=
  traverse_all_true _ (get_contact_items_cb_fst p) [] items

theorem collect_known_items_snoc (p : Option String) (items : List DavResponse) (r : DavResponse) :
    collect_known_items p (items ++ [r])
      = if is_member_item p r then
          g_hash_table_insert (collect_known_items p items) r.href
            (e_book_meta_backend_info_new "" r.etag none (some r.href))
        else collect_known_items p items := by
  simp only [collect_known_items_eq_foldl, List.foldl_append, List.foldl_cons, List.foldl_nil,
    get_contact_items_cb_snd]

theorem mem_remove (t : KnownItems) (k : String) (kv : String × EBookMetaBackendInfo) :
    kv ∈ g_hash_table_remove t k ↔ kv ∈ t ∧ kv.1 ≠ k := by
  simp [g_hash_table_remove]

theorem remove_length_le (t : KnownItems) (k : String) :
    (g_hash_table_remove t k).length ≤ t.length := List.length_filter_le _ _

theorem remove_length_lt (t : KnownItems) (k : String) (v : EBookMetaBackendInfo)
    (h : g_hash_table_lookup t k = some v) : (g_hash_table_remove t k).length < t.length := by
  have hm := lookup_mem t k v h
  unfold g_hash_table_remove
  apply List.length_filter_lt_length_iff_exists.mpr
  exact ⟨(k, v), hm, by simp⟩

theorem remove_keys_nodup (t : KnownItems) (k : String) (h : (t.map Prod.fst).Nodup) :
    ((g_hash_table_remove t k).map Prod.fst).Nodup := by
  unfold g_hash_table_remove
  exact (List.Nodup.sublist ((List.filter_sublist t).map Prod.fst) h)

theorem collect_keys_nodup (p : Option String) (items : List DavResponse) :
    ((collect_known_items p items).map Prod.fst).Nodup := by
  induction items using List.reverseRecOn with
  | nil => simp [collect_known_items, traverse]
  | append_singleton items r ih =>
    rw [collect_known_items_snoc]
    split
    · simp only [g_hash_table_insert, List.map_cons, List.nodup_cons]
      refine ⟨?_, remove_keys_nodup _ _ ih⟩
      simp [mem_remove]
    · exact ih

theorem collect_length_le (p : Option String) (items : List DavResponse) :
    (collect_known_items p items).length ≤ items.length := by
  induction items using List.reverseRecOn with
  | nil => simp [collect_known_items, traverse]
  | append_singleton items r ih =>
    rw [collect_known_items_snoc]
    split
    · simp only [g_hash_table_insert, List.length_cons, List.length_append, List.length_nil]
      have := remove_length_le (collect_known_items p items) r.href
      omega
    · simp only [List.length_append, List.length_cons, List.length_nil]; omega

/-- Every entry of the collected table was inserted for a member item of the listing, under its
`href`, with an empty uid, the listed etag, no object, and the `href` as `extra`. -/
theorem collect_mem (p : Option String) (items : List DavResponse) (k : String)
    (v : EBookMetaBackendInfo) (h : (k, v) ∈ collect_known_items p items) :
    ∃ r ∈ items, is_member_item p r = true ∧ r.href = k ∧
      v = e_book_meta_backend_info_new "" r.etag none (some k) := by
  induction items using List.reverseRecOn with
  | nil => simp [collect_known_items, traverse] at h
  | append_singleton items r ih =>
    rw [collect_known_items_snoc] at h
    by_cases hm : is_member_item p r = true
    · simp only [hm, if_true, g_hash_table_insert, List.mem_cons] at h
      rcases h with h | h
      · injection h with h1 h2
        exact ⟨r, by simp, hm, h1.symm, by rw [h2, h1]⟩
      · obtain ⟨r1, hr1, h1⟩ := ih ((mem_remove _ _ _).mp h).1
        exact ⟨r1, by simp [hr1], h1⟩
    · simp only [hm] at h
      obtain ⟨r1, hr1, h1⟩ := ih h
      exact ⟨r1, by simp [hr1], h1⟩

/-- Every member item of the listing has its `href` in the collected table. -/
theorem collect_lookup_of_member (p : Option String) (items : List DavResponse) (r : DavResponse)
    (hr : r ∈ items) (hm : is_member_item p r = true) :
    ∃ v, g_hash_table_lookup (collect_known_items p items) r.href = some v := by
  induction items using List.reverseRecOn with
  | nil => simp at hr
  | append_singleton items r1 ih =>
    rw [collect_known_items_snoc]
    by_cases hm1 : is_member_item p r1 = true
    · simp only [hm1, if_true, lookup_insert]
      by_cases hk : r.href = r1.href
      · exact ⟨e_book_meta_backend_info_new "" r1.etag none (some r1.href), by simp [hk]⟩
      · have hr2 : r ∈ items := by
          simp only [List.mem_append, List.mem_singleton] at hr
          rcases hr with hr | hr
          · exact hr
          · exact absurd (hr ▸ rfl) hk
        obtain ⟨v, hv⟩ := ih hr2
        exact ⟨v, by simp [hk, hv]⟩
    · have hr2 : r ∈ items := by
        simp only [List.mem_append, List.mem_singleton] at hr
        rcases hr with hr | hr
        · exact hr
        · exact absurd (hr ▸ hm) hm1
      simpa [hm1] using ih hr2

/-! ## Where the records of the diff come from -/

/-- A modified record is either an old one or was emitted for a row whose reference was in
the table with a different revision. -/
theorem search_changes_cb_modified (ccd : WebDAVChangesData) (row : CacheRow)
    (x : EBookMetaBackendInfo)
    (hx : x ∈ (ebb_webdav_search_changes_cb ccd row).2.out_modified_objects) :
    x ∈ ccd.out_modified_objects ∨
    ∃ e nfo, row.extra = some e ∧ e ≠ "" ∧ g_hash_table_lookup ccd.known_items e = some nfo ∧
      row.revision ≠ nfo.revision ∧
      x = (if str_empty nfo.uid then { nfo with uid := some row.uid } else nfo) := by
  unfold ebb_webdav_search_changes_cb at hx
  cases he : row.extra with
  | none => simp [he] at hx; exact Or.inl hx
  | some e =>
    by_cases h0 : e = ""
    · simp [he, h0] at hx; exact Or.inl hx
    · cases hl : g_hash_table_lookup ccd.known_items e with
      | none => simp [he, h0, hl] at hx; exact Or.inl hx
      | some nfo =>
        by_cases hr : row.revision = nfo.revision
        · simp [he, h0, hl, hr, g_strcmp0_eq] at hx; exact Or.inl hx
        · simp only [he, h0, hl, hr, g_strcmp0_eq, if_false, decide_False, Bool.false_eq_true,
            e_book_meta_backend_info_copy, List.mem_cons] at hx
          rcases hx with hx | hx
          · exact Or.inr ⟨e, nfo, rfl, h0, hl, hr, hx⟩
          · exact Or.inl hx

theorem search_changes_cb_removed (ccd : WebDAVChangesData) (row : CacheRow)
    (x : EBookMetaBackendInfo)
    (hx : x ∈ (ebb_webdav_search_changes_cb ccd row).2.out_removed_objects) :
    x ∈ ccd.out_removed_objects ∨
    ∃ e, row.extra = some e ∧ e ≠ "" ∧ g_hash_table_lookup ccd.known_items e = none ∧
      x = e_book_meta_backend_info_new row.uid row.revision row.object (some e) := by
  unfold ebb_webdav_search_changes_cb at hx
  cases he : row.extra with
  | none => simp [he] at hx; exact Or.inl hx
  | some e =>
    by_cases h0 : e = ""
    · simp [he, h0] at hx; exact Or.inl hx
    · cases hl : g_hash_table_lookup ccd.known_items e with
      | none =>
        simp only [he, h0, hl, if_false, List.mem_cons] at hx
        rcases hx with hx | hx
        · exact Or.inr ⟨e, rfl, h0, hl, hx⟩
        · exact Or.inl hx
      | some nfo =>
        by_cases hr : g_strcmp0_eq row.revision nfo.revision = true
        · simp [he, h0, hl, hr] at hx; exact Or.inl hx
        · simp [he, h0, hl, hr] at hx; exact Or.inl hx

/-- A lookup that succeeds after a scan step succeeded before it with the same result. -/
theorem lookup_after_cb (ccd : WebDAVChangesData) (row : CacheRow) (k : String)
    (v : EBookMetaBackendInfo)
    (h : g_hash_table_lookup (ebb_webdav_search_changes_cb ccd row).2.known_items k = some v) :
    g_hash_table_lookup ccd.known_items k = some v := by
  rw [search_changes_cb_known] at h
  cases he : row.extra with
  | none => simpa [he] using h
  | some e =>
    by_cases h0 : e = ""
    · simpa [he, h0] using h
    · simp only [he, h0, if_false, lookup_remove] at h
      by_cases hk : k = e
      · simp [hk] at h
      · simpa [hk] using h

theorem search_changes_modified (ccd : WebDAVChangesData) (rows : List CacheRow)
    (x : EBookMetaBackendInfo) (hx : x ∈ (search_changes ccd rows).out_modified_objects) :
    x ∈ ccd.out_modified_objects ∨
    ∃ row ∈ rows, ∃ e nfo, row.extra = some e ∧ e ≠ "" ∧
      g_hash_table_lookup ccd.known_items e = some nfo ∧ row.revision ≠ nfo.revision ∧
      x = (if str_empty nfo.uid then { nfo with uid := some row.uid } else nfo) := by
  induction rows generalizing ccd with
  | nil => exact Or.inl hx
  | cons row rest ih =>
    rw [search_changes_cons] at hx
    rcases ih _ hx with h | ⟨r, hr, e, nfo, h1, h2, h3, h4, h5⟩
    · rcases search_changes_cb_modified ccd row x h with h | ⟨e, nfo, h1, h2, h3, h4, h5⟩
      · exact Or.inl h
      · exact Or.inr ⟨row, by simp, e, nfo, h1, h2, h3, h4, h5⟩
    · exact Or.inr ⟨r, by simp [hr], e, nfo, h1, h2, lookup_after_cb ccd row e nfo h3, h4, h5⟩

theorem search_changes_removed (ccd : WebDAVChangesData) (rows : List CacheRow)
    (x : EBookMetaBackendInfo) (hx : x ∈ (search_changes ccd rows).out_removed_objects) :
    x ∈ ccd.out_removed_objects ∨
    ∃ row ∈ rows, ∃ e, row.extra = some e ∧ e ≠ "" ∧
      x = e_book_meta_backend_info_new row.uid row.revision row.object (some e) := by
  induction rows generalizing ccd with
  | nil => exact Or.inl hx
  | cons row rest ih =>
    rw [search_changes_cons] at hx
    rcases ih _ hx with h | ⟨r, hr, e, h1, h2, h3⟩
    · rcases search_changes_cb_removed ccd row x h with h | ⟨e, h1, h2, _, h5⟩
      · exact Or.inl h
      · exact Or.inr ⟨row, by simp, e, h1, h2, h5⟩
    · exact Or.inr ⟨r, by simp [hr], e, h1, h2, h3⟩

/-- While a reference is in the table and at most one row of the scan carries it, the scan
emits no removed record with that reference. -/
theorem search_changes_removed_present (ccd : WebDAVChangesData) (rows : List CacheRow)
    (ref : String) (nfo : EBookMetaBackendInfo)
    (hl : g_hash_table_lookup ccd.known_items ref = some nfo)
    (hc : rows.countP (fun r => decide (r.extra = some ref)) ≤ 1)
    (x : EBookMetaBackendInfo) (hx : x ∈ (search_changes ccd rows).out_removed_objects)
    (hxe : x.extra = some ref) : x ∈ ccd.out_removed_objects := by
  induction rows generalizing ccd with
  | nil => exact hx
  | cons row rest ih =>
    rw [search_changes_cons] at hx
    by_cases hre : row.extra = some ref
    · -- this row drops the reference; no later row carries it
      have hc0 : rest.countP (fun r => decide (r.extra = some ref)) = 0 := by
        simp only [List.countP_cons, hre, decide_True, if_true] at hc
        omega
      rcases search_changes_removed _ rest x hx with h | ⟨r, hr, e, h1, _, h3⟩
      · rcases search_changes_cb_removed ccd row x h with h | ⟨e, h1, _, h3, _⟩
        · exact h
        · rw [hre] at h1
          injection h1 with h1
          subst h1
          rw [hl] at h3
          exact absurd h3 (by simp)
      · have : x.extra = some e := by rw [h3]; rfl
        rw [hxe] at this
        injection this with this
        subst this
        rw [List.countP_eq_zero] at hc0
        exact absurd (by simpa using h1) (hc0 r hr)
    · have hc1 : rest.countP (fun r => decide (r.extra = some ref)) ≤ 1 := by
        simpa [List.countP_cons, hre] using hc
      have hl1 : g_hash_table_lookup (ebb_webdav_search_changes_cb ccd row).2.known_items ref
          = some nfo := by
        rw [search_changes_cb_known]
        cases he : row.extra with
        | none => simpa using hl
        | some e =>
          have hne : ¬ ref = e := fun h => hre (by rw [he, h])
          by_cases h0 : e = ""
          · simpa [h0] using hl
          · simp [h0, lookup_remove, hne, hl]
      have h := ih _ hl1 hc1 hx
      rcases search_changes_cb_removed ccd row x h with h | ⟨e, h1, _, _, h5⟩
      · exact h
      · have : x.extra = some e := by rw [h5]; rfl
        rw [hxe] at this
        injection this with this
        subst this
        exact absurd h1 hre

/-! ## The batched fetch keeps the references of the pending lists -/

theorem traverse_invariant {σ α : Type} (P : σ → Prop) (cb : σ → α → Bool × σ)
    (h : ∀ s a, P s → P (cb s a).2) (s : σ) (l : List α) (hs : P s) : P (traverse cb s l) := by
  induction l generalizing s with
  | nil => exact hs
  | cons a rest ih =>
    have h1 := h s a hs
    generalize hc : cb s a = c at h1
    obtain ⟨b, s1⟩ := c
    cases b
    · simpa [traverse, hc] using h1
    · simpa [traverse, hc] using ih s1 h1

theorem update_nfo_extra (L : Lib) (nfo : EBookMetaBackendInfo) (contact : EContact)
    (etag : Option String) :
    (ebb_webdav_update_nfo_with_contact L nfo contact etag).extra = nfo.extra := by
  unfold ebb_webdav_update_nfo_with_contact
  simp only
  repeat' split
  all_goals rfl

theorem list_set_same {α : Type} (l : List α) (i : Nat) (a : α) (h : l.get? i = some a) :
    l.set i a = l := by
  induction l generalizing i with
  | nil => rfl
  | cons b rest ih =>
    cases i with
    | zero => simp at h; simp [h]
    | succ j => simp at h; simp [ih j (by simpa using h)]

theorem find_extra_spec (href : String) (l : List (Option EBookMetaBackendInfo)) (j i : Nat)
    (nfo : EBookMetaBackendInfo) (h : find_extra href l j = some (i, nfo)) :
    j ≤ i ∧ l.get? (i - j) = some (some nfo) ∧ nfo.extra = some href := by
  induction l generalizing j with
  | nil => simp [find_extra] at h
  | cons a rest ih =>
    cases a with
    | none =>
      simp only [find_extra] at h
      obtain ⟨h1, h2, h3⟩ := ih (j + 1) h
      refine ⟨by omega, ?_, h3⟩
      have : i - j = (i - (j + 1)) + 1 := by omega
      rw [this]; simpa using h2
    | some n =>
      simp only [find_extra] at h
      by_cases hm : g_strcmp0_eq n.extra (some href) = true
      · simp only [hm, if_true, Option.some.injEq, Prod.mk.injEq] at h
        obtain ⟨h1, h2⟩ := h
        subst h1; subst h2
        simp [g_strcmp0_eq] at hm
        simp [hm]
      · simp only [hm] at h
        obtain ⟨h1, h2, h3⟩ := ih (j + 1) h
        refine ⟨by omega, ?_, h3⟩
        have : i - j = (i - (j + 1)) + 1 := by omega
        rw [this]; simpa using h2

theorem find_link_spec (h : PendingLists) (from_link link : GSListPtr) (href : String)
    (nfo : EBookMetaBackendInfo) (hf : find_link h from_link href = some (link, nfo)) :
    nfo.extra = some href ∧
    ((∃ i, link = GSListPtr.created i ∧ h.created.get? i = some (some nfo)) ∨
     (∃ i, link = GSListPtr.modified i ∧ h.modified.get? i = some (some nfo))) := by
  cases from_link with
  | null => simp [find_link] at hf
  | created j =>
    simp only [find_link, Option.map_eq_some'] at hf
    obtain ⟨⟨i, n⟩, h1, h2⟩ := hf
    simp only [Prod.mk.injEq] at h2
    obtain ⟨h2, h3⟩ := h2
    subst h2; subst h3
    obtain ⟨h4, h5, h6⟩ := find_extra_spec href _ j i n h1
    rw [List.get?_eq_getElem?] at h5
    refine ⟨h6, Or.inl ⟨i, rfl, ?_⟩⟩
    rw [List.get?_eq_getElem?]
    rw [List.getElem?_drop] at h5
    have : j + (i - j) = i := by omega
    rwa [this] at h5
  | modified j =>
    simp only [find_link, Option.map_eq_some'] at hf
    obtain ⟨⟨i, n⟩, h1, h2⟩ := hf
    simp only [Prod.mk.injEq] at h2
    obtain ⟨h2, h3⟩ := h2
    subst h2; subst h3
    obtain ⟨h4, h5, h6⟩ := find_extra_spec href _ j i n h1
    rw [List.get?_eq_getElem?] at h5
    refine ⟨h6, Or.inr ⟨i, rfl, ?_⟩⟩
    rw [List.get?_eq_getElem?]
    rw [List.getElem?_drop] at h5
    have : j + (i - j) = i := by omega
    rwa [this] at h5

theorem set_data_refs (h : PendingLists) (link : GSListPtr) (nfo nfo1 : EBookMetaBackendInfo)
    (hl : (∃ i, link = GSListPtr.created i ∧ h.created.get? i = some (some nfo)) ∨
          (∃ i, link = GSListPtr.modified i ∧ h.modified.get? i = some (some nfo)))
    (he : nfo1.extra = nfo.extra) : (h.set_data link nfo1).refs = h.refs := by
  rcases hl with ⟨i, h1, h2⟩ | ⟨i, h1, h2⟩
  · subst h1
    simp only [PendingLists.set_data, PendingLists.refs, List.map_set, Option.map_some', he]
    rw [list_set_same]
    simp only [List.get?_eq_getElem?] at h2
    simp [List.get?_eq_getElem?, h2]
  · subst h1
    simp only [PendingLists.set_data, PendingLists.refs, List.map_set, Option.map_some', he]
    rw [list_set_same]
    simp only [List.get?_eq_getElem?] at h2
    simp [List.get?_eq_getElem?, h2]

theorem multiget_response_cb_refs (L : Lib) (ud : PendingLists × GSListPtr) (r : DavResponse) :
    (ebb_webdav_multiget_response_cb L ud r).2.1.refs = ud.1.refs := by
  unfold ebb_webdav_multiget_response_cb
  split
  · rfl
  · split
    · split
      · rfl
      · split
        · rfl
        · split
          · rfl
          · split
            · rfl
            · rename_i link nfo hf
              obtain ⟨_, h2⟩ := find_link_spec _ _ _ _ _ hf
              exact set_data_refs _ _ nfo _ h2 (update_nfo_extra _ _ _ _)
    · rfl

theorem multiget_traverse_refs (L : Lib) (ud : PendingLists × GSListPtr)
    (items : List DavResponse) :
    (traverse (ebb_webdav_multiget_response_cb L) ud items).1.refs = ud.1.refs :=
  traverse_invariant (fun s => s.1.refs = ud.1.refs) _
    (fun s a hs => (multiget_response_cb_refs L s a).trans hs) ud items rfl

theorem multiget_from_sets_refs (L : Lib) (report : Nat → List (Option String) → ReportReply)
    (st : MultigetState) :
    (ebb_webdav_multiget_from_sets_sync L report st).lists.refs = st.lists.refs := by
  unfold ebb_webdav_multiget_from_sets_sync
  split
  · rfl
  · simp only
    split
    · split
      · exact multiget_traverse_refs L _ _
      · exact multiget_traverse_refs L _ _
    · rfl

theorem multiget_loop_refs (L : Lib) (report : Nat → List (Option String) → ReportReply)
    (fuel : Nat) (st : MultigetState) :
    (multiget_loop L report fuel st).lists.refs = st.lists.refs := by
  induction fuel generalizing st with
  | zero => rfl
  | succ n ih =>
    simp only [multiget_loop]
    split
    · rw [ih, multiget_from_sets_refs]
    · exact multiget_from_sets_refs L report st

theorem multiget_all_refs (L : Lib) (report : Nat → List (Option String) → ReportReply)
    (lists : PendingLists) (error : Option GError) :
    (multiget_all L report lists error).lists.refs = lists.refs := by
  unfold multiget_all
  rw [multiget_loop_refs]
  split <;> rfl

theorem reduceOption_map_some {α : Type} (c : List α) : (c.map some).reduceOption = c := by
  induction c with
  | nil => rfl
  | cons a rest ih => simp [List.reduceOption_cons_of_some, ih]

theorem reduceOption_extras (l : List (Option EBookMetaBackendInfo))
    (c : List EBookMetaBackendInfo)
    (h : l.map (Option.map EBookMetaBackendInfo.extra)
          = (c.map some).map (Option.map EBookMetaBackendInfo.extra)) :
    l.reduceOption.map EBookMetaBackendInfo.extra = c.map EBookMetaBackendInfo.extra := by
  rw [← List.reduceOption_map, h, List.reduceOption_map, reduceOption_map_some]

theorem created_from_known_eq (t : KnownItems) :
    created_from_known t = (t.map Prod.snd).reverse := by
  unfold created_from_known
  have : ∀ (acc : List EBookMetaBackendInfo),
      t.foldl (fun acc kv => e_book_meta_backend_info_copy kv.2 :: acc) acc
        = (t.map Prod.snd).reverse ++ acc := by
    induction t with
    | nil => intro acc; rfl
    | cons kv rest ih =>
      intro acc
      rw [List.foldl_cons, ih]
      simp [e_book_meta_backend_info_copy]
  simpa using this []

/-- A pass that issues the listing runs the slow path. -/
theorem slow_path_of_propfind (L : Lib) (env : GetChangesEnv) (priv : EBookBackendWebDAVPrivate)
    (last_sync_tag : Option String)
    (h : Request.propfind ∈ (ebb_webdav_get_changes_sync L env priv last_sync_tag).requests) :
    ∃ priv1 tag log, ebb_webdav_get_changes_sync L env priv last_sync_tag
      = get_changes_slow_path L env priv1 tag log := by
  unfold ebb_webdav_get_changes_sync at h ⊢
  cases h1 : priv.ctag_supported with
  | false => exact ⟨priv, none, [], by simp⟩
  | true =>
    simp only [h1, if_true] at h ⊢
    cases h2 : env.getctag_success with
    | false =>
      simp only [h2, Bool.not_false, if_true] at h ⊢
      by_cases h3 : (env.cancelled || priv.webdav.isNone) = true
      · simp [h3] at h
      · exact ⟨_, _, _, by simp only [h3]; rfl⟩
    | true =>
      simp only [h2, Bool.not_true, Bool.false_eq_true, if_false] at h ⊢
      by_cases h3 : (env.getctag_ctag.isSome && last_sync_tag.isSome
          && g_strcmp0_eq last_sync_tag env.getctag_ctag) = true
      · simp [h3] at h
      · exact ⟨_, _, _, by simp only [h3]; rfl⟩

/-- The lists a slow-path pass returns, in terms of the diff step: the removed list is the one
of the diff, the modified list carries the references of the diff in the same order, and so
does the created list, which is built from the table left by the scan. -/
theorem slow_path_lists (L : Lib) (env : GetChangesEnv) (priv : EBookBackendWebDAVPrivate)
    (tag : Option String) (log : List Request) (hp : env.propfind_outcome = Outcome.ok) :
    (get_changes_slow_path L env priv tag log).out_removed_objects
        = (diff_step env).out_removed_objects ∧
    (get_changes_slow_path L env priv tag log).out_modified_objects.map EBookMetaBackendInfo.extra
        = (diff_step env).out_modified_objects.map EBookMetaBackendInfo.extra ∧
    (get_changes_slow_path L env priv tag log).out_created_objects.map EBookMetaBackendInfo.extra
        = if env.cache_outcome = Outcome.ok then
            (created_from_known (diff_step env).known_items).map EBookMetaBackendInfo.extra
          else [] := by
  unfold get_changes_slow_path
  rw [hp]
  simp only
  cases hc : env.cache_outcome with
  | failed err => simp
  | ok =>
    simp only [if_true]
    split
    · simp
    · have hr := multiget_all_refs L env.report
        { created := (created_from_known (diff_step env).known_items).map some,
          modified := (diff_step env).out_modified_objects.map some } none
      simp only [PendingLists.refs, Prod.mk.injEq] at hr
      exact ⟨rfl, reduceOption_extras _ _ hr.2, reduceOption_extras _ _ hr.1⟩

/-! ## Classification of cache rows and listing entries -/

theorem countP_one_unique {α : Type} (p : α → Bool) (l : List α)
    (h : l.countP p ≤ 1) (x y : α) (hx : x ∈ l) (hy : y ∈ l) (hpx : p x = true)
    (hpy : p y = true) : x = y := by
  induction l with
  | nil => simp at hx
  | cons a rest ih =>
    simp only [List.countP_cons] at h
    simp only [List.mem_cons] at hx hy
    by_cases ha : p a = true
    · have h0 : rest.countP p = 0 := by
        simp only [ha, if_true] at h
        omega
      rw [List.countP_eq_zero] at h0
      rcases hx with hx | hx
      · rcases hy with hy | hy
        · rw [hx, hy]
        · exact absurd hpy (h0 y hy)
      · exact absurd hpx (h0 x hx)
    · have h1 : rest.countP p ≤ 1 := by simpa [ha] using h
      rcases hx with hx | hx
      · exact absurd (hx ▸ hpx) ha
      · rcases hy with hy | hy
        · exact absurd (hy ▸ hpy) ha
        · exact ih h1 hx hy

/-- The created list holds no record whose reference is carried by a row of the cache. -/
theorem created_not_carried (env : GetChangesEnv) (row : CacheRow) (ref : String)
    (hrow : row ∈ env.cache_rows) (hextra : row.extra = some ref) (hne : ref ≠ "")
    (x : EBookMetaBackendInfo) (hx : x ∈ created_from_known (diff_step env).known_items) :
    x.extra ≠ some ref := by
  intro hxe
  rw [created_from_known_eq, List.mem_reverse, List.mem_map] at hx
  obtain ⟨⟨k, v⟩, hkv, hv⟩ := hx
  simp only at hv
  subst hv
  simp only [diff_step, search_changes_known, List.mem_filter] at hkv
  obtain ⟨hmem, hfil⟩ := hkv
  obtain ⟨r, _, _, _, hveq⟩ := collect_mem _ _ _ _ hmem
  rw [hveq] at hxe
  simp only [e_book_meta_backend_info_new, Option.some.injEq] at hxe
  subst hxe
  simp only [Bool.not_eq_true', List.any_eq_false, Bool.and_eq_true, decide_eq_true_eq,
    Bool.not_eq_true', decide_eq_false_iff_not, not_and, not_not] at hfil
  exact hne (hfil row hrow hextra)

/-- A created record's reference is a key of the known-items table collected from the listing. -/
theorem created_is_known (env : GetChangesEnv) (x : EBookMetaBackendInfo)
    (hx : x ∈ created_from_known (diff_step env).known_items) :
    ∃ k, x.extra = some k ∧
      (k, x) ∈ collect_known_items env.request_path env.propfind_items := by
  rw [created_from_known_eq, List.mem_reverse, List.mem_map] at hx
  obtain ⟨⟨k, v⟩, hkv, hv⟩ := hx
  simp only at hv
  subst hv
  simp only [diff_step, search_changes_known, List.mem_filter] at hkv
  obtain ⟨r, _, _, _, hveq⟩ := collect_mem _ _ _ _ hkv.1
  exact ⟨k, by rw [hveq]; rfl, hkv.1⟩

/-- A modified record of the diff carries the reference of a row whose reference is in the
collected table with a revision different from the row's. -/
theorem modified_is_changed (env : GetChangesEnv) (x : EBookMetaBackendInfo)
    (hx : x ∈ (diff_step env).out_modified_objects) :
    ∃ row ∈ env.cache_rows, ∃ e nfo, row.extra = some e ∧ e ≠ "" ∧ x.extra = some e ∧
      g_hash_table_lookup (collect_known_items env.request_path env.propfind_items) e = some nfo ∧
      row.revision ≠ nfo.revision := by
  rcases search_changes_modified _ _ x hx with h | ⟨row, hrow, e, nfo, h1, h2, h3, h4, h5⟩
  · simp at h
  · refine ⟨row, hrow, e, nfo, h1, h2, ?_, h3, h4⟩
    obtain ⟨r, _, _, _, hveq⟩ := collect_mem _ _ _ _ (lookup_mem _ _ _ h3)
    rw [h5, hveq]
    split <;> rfl

/-! ## C1: a cache row found unchanged in the listing -/

/-- C1 (as stated, refuted): two cache rows carry the reference `/book/A`, which the listing
returns with the etag both rows have as revision; the second row scanned is nevertheless
classified removed. -/
theorem c1_counterexample_shared_reference :
    Request.propfind ∈
      (ebb_webdav_get_changes_sync example_lib
        (example_env [example_item "/book/A" "etag1"]
          [example_row "u1" "etag1" "/book/A", example_row "u2" "etag1" "/book/A"])
        example_priv none).requests ∧
    g_hash_table_lookup
      (collect_known_items (some "/book/") [example_item "/book/A" "etag1"]) "/book/A"
      = some (e_book_meta_backend_info_new "" (example_row "u2" "etag1" "/book/A").revision none
          (some "/book/A")) ∧
    (ebb_webdav_get_changes_sync example_lib
        (example_env [example_item "/book/A" "etag1"]
          [example_row "u1" "etag1" "/book/A", example_row "u2" "etag1" "/book/A"])
        example_priv none).out_removed_objects
      = [e_book_meta_backend_info_new "u2" (some "etag1") (some "cached u2") (some "/book/A")] := by
  decide

/-- C1 (amended): in a slow-path pass, a cache row whose non-empty reference is in the listing
with an etag equal to the row's revision, and which is the only row carrying that reference,
is classified neither created, modified nor removed: no record with its reference is in any
of the three lists. -/
theorem c1_unchanged_row_not_classified (L : Lib) (env : GetChangesEnv)
    (priv : EBookBackendWebDAVPrivate) (last_sync_tag : Option String)
    (row : CacheRow) (ref : String) (nfo : EBookMetaBackendInfo)
    (hslow : Request.propfind ∈ (ebb_webdav_get_changes_sync L env priv last_sync_tag).requests)
    (hok : env.propfind_outcome = Outcome.ok)
    (hrow : row ∈ env.cache_rows) (hextra : row.extra = some ref) (hne : ref ≠ "")
    (hl : g_hash_table_lookup (collect_known_items env.request_path env.propfind_items) ref
            = some nfo)
    (hrev : nfo.revision = row.revision)
    (honly : env.cache_rows.countP (fun r => decide (r.extra = some ref)) = 1) :
    (∀ x ∈ (ebb_webdav_get_changes_sync L env priv last_sync_tag).out_created_objects,
        x.extra ≠ some ref) ∧
    (∀ x ∈ (ebb_webdav_get_changes_sync L env priv last_sync_tag).out_modified_objects,
        x.extra ≠ some ref) ∧
    (∀ x ∈ (ebb_webdav_get_changes_sync L env priv last_sync_tag).out_removed_objects,
        x.extra ≠ some ref) := by
  obtain ⟨priv1, tag, log, heq⟩ := slow_path_of_propfind L env priv last_sync_tag hslow
  rw [heq]
  obtain ⟨hr, hm, hc⟩ := slow_path_lists L env priv1 tag log hok
  refine ⟨?_, ?_, ?_⟩
  · intro x hx hxe
    have h1 : some ref ∈ (get_changes_slow_path L env priv1 tag log).out_created_objects.map
        EBookMetaBackendInfo.extra := List.mem_map.mpr ⟨x, hx, hxe⟩
    rw [hc] at h1
    split at h1
    · obtain ⟨y, hy, hye⟩ := List.mem_map.mp h1
      exact created_not_carried env row ref hrow hextra hne y hy hye
    · simp at h1
  · intro x hx hxe
    have h1 : some ref ∈ (get_changes_slow_path L env priv1 tag log).out_modified_objects.map
        EBookMetaBackendInfo.extra := List.mem_map.mpr ⟨x, hx, hxe⟩
    rw [hm] at h1
    obtain ⟨y, hy, hye⟩ := List.mem_map.mp h1
    obtain ⟨row1, hrow1, e, nfo1, h2, _, h4, h5, h6⟩ := modified_is_changed env y hy
    rw [hye] at h4
    injection h4 with h4
    subst h4
    rw [hl] at h5
    injection h5 with h5
    subst h5
    have := countP_one_unique (fun r => decide (r.extra = some ref)) env.cache_rows
      (le_of_eq honly) row row1 hrow hrow1 (by simpa using hextra) (by simpa using h2)
    subst this
    exact h6 hrev.symm
  · intro x hx hxe
    rw [hr] at hx
    have := search_changes_removed_present _ env.cache_rows ref nfo hl (le_of_eq honly) x hx hxe
    simp at this

/-- C1 (amended), at a concrete pass: the listing returns `/book/A` and `/book/B`, the cache
holds `/book/A` with the listed etag. -/
theorem c1_unchanged_row_not_classified_witness :
    (∀ x ∈ (ebb_webdav_get_changes_sync example_lib
        (example_env [example_item "/book/A" "etag1", example_item "/book/B" "etag2"]
          [example_row "u1" "etag1" "/book/A"]) example_priv none).out_created_objects,
        x.extra ≠ some "/book/A") ∧
    (∀ x ∈ (ebb_webdav_get_changes_sync example_lib
        (example_env [example_item "/book/A" "etag1", example_item "/book/B" "etag2"]
          [example_row "u1" "etag1" "/book/A"]) example_priv none).out_modified_objects,
        x.extra ≠ some "/book/A") ∧
    (∀ x ∈ (ebb_webdav_get_changes_sync example_lib
        (example_env [example_item "/book/A" "etag1", example_item "/book/B" "etag2"]
          [example_row "u1" "etag1" "/book/A"]) example_priv none).out_removed_objects,
        x.extra ≠ some "/book/A") :=
  c1_unchanged_row_not_classified example_lib
    (example_env [example_item "/book/A" "etag1", example_item "/book/B" "etag2"]
      [example_row "u1" "etag1" "/book/A"]) example_priv none
    (example_row "u1" "etag1" "/book/A") "/book/A"
    (e_book_meta_backend_info_new "" (some "etag1") none (some "/book/A"))
    (by decide) (by decide) (by decide) (by decide) (by decide) (by decide) (by decide) (by decide)

/-! ## C2: a cache row whose reference is absent from the listing -/

theorem lookup_none_after_cb (ccd : WebDAVChangesData) (row : CacheRow) (k : String)
    (h : g_hash_table_lookup ccd.known_items k = none) :
    g_hash_table_lookup (ebb_webdav_search_changes_cb ccd row).2.known_items k = none := by
  rw [search_changes_cb_known]
  cases he : row.extra with
  | none => simpa using h
  | some e =>
    by_cases h0 : e = ""
    · simpa [h0] using h
    · simp only [h0, if_false, lookup_remove]
      split
      · rfl
      · exact h

/-- The removed list after one scan step: unchanged, or one record for the row prepended. -/
theorem search_changes_cb_removed_eq (ccd : WebDAVChangesData) (row : CacheRow) :
    (ebb_webdav_search_changes_cb ccd row).2.out_removed_objects
      = match row.extra with
        | none => ccd.out_removed_objects
        | some e =>
          if e = "" then ccd.out_removed_objects
          else
            match g_hash_table_lookup ccd.known_items e with
            | some _ => ccd.out_removed_objects
            | none =>
              e_book_meta_backend_info_new row.uid row.revision row.object (some e)
                :: ccd.out_removed_objects := by
  unfold ebb_webdav_search_changes_cb
  cases he : row.extra with
  | none => rfl
  | some e =>
    by_cases h0 : e = ""
    · simp [h0]
    · simp only [h0, if_false]
      cases hl : g_hash_table_lookup ccd.known_items e with
      | none => rfl
      | some nfo => simp only; split <;> rfl

/-- Rows with another uid leave the number of removed records of a given uid unchanged. -/
theorem removed_count_other_uid (ccd : WebDAVChangesData) (rows : List CacheRow)
    (x : EBookMetaBackendInfo) (uid : String) (hxu : x.uid = some uid)
    (h : ∀ r ∈ rows, r.uid ≠ uid) :
    (search_changes ccd rows).out_removed_objects.count x = ccd.out_removed_objects.count x := by
  induction rows generalizing ccd with
  | nil => rfl
  | cons row rest ih =>
    rw [search_changes_cons, ih _ (fun r hr => h r (by simp [hr])), search_changes_cb_removed_eq]
    have hu : row.uid ≠ uid := h row (by simp)
    cases he : row.extra with
    | none => rfl
    | some e =>
      simp only
      split
      · rfl
      · split
        · rfl
        · have hneq : e_book_meta_backend_info_new row.uid row.revision row.object (some e) ≠ x := by
            intro hx
            rw [← hx] at hxu
            simp only [e_book_meta_backend_info_new, Option.some.injEq] at hxu
            exact hu hxu
          rw [List.count_cons_of_ne hneq.symm]

theorem removed_count_absent (ccd : WebDAVChangesData) (rows : List CacheRow) (row : CacheRow)
    (ref : String) (hrow : row ∈ rows) (hkey : (rows.map CacheRow.uid).Nodup)
    (hextra : row.extra = some ref) (hne : ref ≠ "")
    (habs : g_hash_table_lookup ccd.known_items ref = none) :
    (search_changes ccd rows).out_removed_objects.count
        (e_book_meta_backend_info_new row.uid row.revision row.object (some ref))
      = ccd.out_removed_objects.count
          (e_book_meta_backend_info_new row.uid row.revision row.object (some ref)) + 1 := by
  induction rows generalizing ccd with
  | nil => simp at hrow
  | cons r rest ih =>
    simp only [List.map_cons, List.nodup_cons, List.mem_map, not_exists, not_and] at hkey
    rw [search_changes_cons]
    simp only [List.mem_cons] at hrow
    rcases hrow with hrow | hrow
    · subst hrow
      rw [removed_count_other_uid _ rest _ row.uid rfl (fun r hr h => hkey.1 r hr h),
        search_changes_cb_removed_eq]
      simp [hextra, hne, habs]
    · have hu : r.uid ≠ row.uid := fun h => hkey.1 row hrow h.symm
      rw [ih _ hrow hkey.2 (lookup_none_after_cb ccd r ref habs), search_changes_cb_removed_eq]
      cases he : r.extra with
      | none => rfl
      | some e =>
        simp only
        split
        · rfl
        · split
          · rfl
          · have hneq : e_book_meta_backend_info_new r.uid r.revision r.object (some e)
                ≠ e_book_meta_backend_info_new row.uid row.revision row.object (some ref) := by
              intro hx
              simp only [e_book_meta_backend_info_new, EBookMetaBackendInfo.mk.injEq,
                Option.some.injEq] at hx
              exact hu hx.1
            rw [List.count_cons_of_ne hneq.symm]

/-- C2: in a slow-path pass whose listing succeeded, for a row of the cache (whose rows have
pairwise distinct uids, the key of the cache) with a non-empty reference that is absent from
the listing, the removed list holds exactly one record for that row, carrying its uid,
revision, object and reference, and the reference is in neither the created nor the
modified list. -/
theorem c2_absent_row_removed_once (L : Lib) (env : GetChangesEnv)
    (priv : EBookBackendWebDAVPrivate) (last_sync_tag : Option String)
    (row : CacheRow) (ref : String)
    (hslow : Request.propfind ∈ (ebb_webdav_get_changes_sync L env priv last_sync_tag).requests)
    (hok : env.propfind_outcome = Outcome.ok)
    (hrow : row ∈ env.cache_rows) (hkey : (env.cache_rows.map CacheRow.uid).Nodup)
    (hextra : row.extra = some ref) (hne : ref ≠ "")
    (habs : g_hash_table_lookup (collect_known_items env.request_path env.propfind_items) ref
            = none) :
    (ebb_webdav_get_changes_sync L env priv last_sync_tag).out_removed_objects.count
        (e_book_meta_backend_info_new row.uid row.revision row.object (some ref)) = 1 ∧
    (∀ x ∈ (ebb_webdav_get_changes_sync L env priv last_sync_tag).out_created_objects,
        x.extra ≠ some ref) ∧
    (∀ x ∈ (ebb_webdav_get_changes_sync L env priv last_sync_tag).out_modified_objects,
        x.extra ≠ some ref) := by
  obtain ⟨priv1, tag, log, heq⟩ := slow_path_of_propfind L env priv last_sync_tag hslow
  rw [heq]
  obtain ⟨hr, hm, hc⟩ := slow_path_lists L env priv1 tag log hok
  refine ⟨?_, ?_, ?_⟩
  · rw [hr, diff_step, removed_count_absent _ _ row ref hrow hkey hextra hne habs]
    simp
  · intro x hx hxe
    have h1 : some ref ∈ (get_changes_slow_path L env priv1 tag log).out_created_objects.map
        EBookMetaBackendInfo.extra := List.mem_map.mpr ⟨x, hx, hxe⟩
    rw [hc] at h1
    split at h1
    · obtain ⟨y, hy, hye⟩ := List.mem_map.mp h1
      exact created_not_carried env row ref hrow hextra hne y hy hye
    · simp at h1
  · intro x hx hxe
    have h1 : some ref ∈ (get_changes_slow_path L env priv1 tag log).out_modified_objects.map
        EBookMetaBackendInfo.extra := List.mem_map.mpr ⟨x, hx, hxe⟩
    rw [hm] at h1
    obtain ⟨y, hy, hye⟩ := List.mem_map.mp h1
    obtain ⟨row1, _, e, nfo1, _, _, h4, h5, _⟩ := modified_is_changed env y hy
    rw [hye] at h4
    injection h4 with h4
    subst h4
    rw [habs] at h5
    exact absurd h5 (by simp)

/-- C2 at a concrete pass: the listing returns `/book/B` only, the cache holds `/book/A` and
`/book/B`. -/
theorem c2_absent_row_removed_once_witness :
    (ebb_webdav_get_changes_sync example_lib
        (example_env [example_item "/book/B" "etag2"]
          [example_row "u1" "etag1" "/book/A", example_row "u2" "etag2" "/book/B"])
        example_priv none).out_removed_objects.count
        (e_book_meta_backend_info_new "u1" (some "etag1") (some "cached u1") (some "/book/A")) = 1 ∧
    (∀ x ∈ (ebb_webdav_get_changes_sync example_lib
        (example_env [example_item "/book/B" "etag2"]
          [example_row "u1" "etag1" "/book/A", example_row "u2" "etag2" "/book/B"])
        example_priv none).out_created_objects, x.extra ≠ some "/book/A") ∧
    (∀ x ∈ (ebb_webdav_get_changes_sync example_lib
        (example_env [example_item "/book/B" "etag2"]
          [example_row "u1" "etag1" "/book/A", example_row "u2" "etag2" "/book/B"])
        example_priv none).out_modified_objects, x.extra ≠ some "/book/A") :=
  c2_absent_row_removed_once example_lib
    (example_env [example_item "/book/B" "etag2"]
      [example_row "u1" "etag1" "/book/A", example_row "u2" "etag2" "/book/B"])
    example_priv none (example_row "u1" "etag1" "/book/A") "/book/A"
    (by decide) (by decide) (by decide) (by decide) (by decide) (by decide) (by decide)

/-! ## C3: listing entries unknown to the cache -/

theorem nodup_keys_countP (t : KnownItems) (k : String) (v : EBookMetaBackendInfo)
    (hn : (t.map Prod.fst).Nodup) (hm : (k, v) ∈ t) :
    t.countP (fun kv => decide (kv.1 = k)) = 1 := by
  induction t with
  | nil => simp at hm
  | cons a rest ih =>
    simp only [List.map_cons, List.nodup_cons, List.mem_map, not_exists, not_and] at hn
    simp only [List.mem_cons] at hm
    rcases hm with hm | hm
    · subst hm
      have h0 : rest.countP (fun kv => decide (kv.1 = k)) = 0 := by
        rw [List.countP_eq_zero]
        intro kv hkv
        simpa using hn.1 kv hkv
      simp [List.countP_cons, h0]
    · have hne : ¬ a.1 = k := fun h => hn.1 (k, v) hm h.symm
      simp [List.countP_cons, hne, ih hn.2 hm]

/-- Each scan step that emits a modified record drops an entry of the table. -/
theorem search_changes_cb_length (ccd : WebDAVChangesData) (row : CacheRow) :
    (ebb_webdav_search_changes_cb ccd row).2.out_modified_objects.length
        + (ebb_webdav_search_changes_cb ccd row).2.known_items.length
      ≤ ccd.out_modified_objects.length + ccd.known_items.length := by
  unfold ebb_webdav_search_changes_cb
  cases he : row.extra with
  | none => simp
  | some e =>
    by_cases h0 : e = ""
    · simp [h0]
    · simp only [h0, if_false]
      cases hl : g_hash_table_lookup ccd.known_items e with
      | none => simp
      | some nfo =>
        have h1 := remove_length_lt ccd.known_items e nfo hl
        simp only
        split
        · simp only; omega
        · simp only [List.length_cons]; omega

theorem search_changes_length (ccd : WebDAVChangesData) (rows : List CacheRow) :
    (search_changes ccd rows).out_modified_objects.length
        + (search_changes ccd rows).known_items.length
      ≤ ccd.out_modified_objects.length + ccd.known_items.length := by
  induction rows generalizing ccd with
  | nil => exact le_refl _
  | cons row rest ih =>
    rw [search_changes_cons]
    exact le_trans (ih _) (search_changes_cb_length ccd row)

/-- C3: in a slow-path pass whose listing and cache scan succeeded, every member item of the
listing whose reference is carried by no row of the cache has exactly one record in the
created list; and the created and the modified list together are no longer than the
known-items table collected from the listing, which is no longer than the listing. -/
theorem c3_unknown_entries_created_once (L : Lib) (env : GetChangesEnv)
    (priv : EBookBackendWebDAVPrivate) (last_sync_tag : Option String)
    (hslow : Request.propfind ∈ (ebb_webdav_get_changes_sync L env priv last_sync_tag).requests)
    (hok : env.propfind_outcome = Outcome.ok) (hcache : env.cache_outcome = Outcome.ok) :
    (∀ it ∈ env.propfind_items, is_member_item env.request_path it = true →
      (∀ row ∈ env.cache_rows, row.extra ≠ some it.href) →
      (ebb_webdav_get_changes_sync L env priv last_sync_tag).out_created_objects.countP
        (fun x => decide (x.extra = some it.href)) = 1) ∧
    (ebb_webdav_get_changes_sync L env priv last_sync_tag).out_created_objects.length
        + (ebb_webdav_get_changes_sync L env priv last_sync_tag).out_modified_objects.length
      ≤ (collect_known_items env.request_path env.propfind_items).length ∧
    (collect_known_items env.request_path env.propfind_items).length
      ≤ env.propfind_items.length := by
  obtain ⟨priv1, tag, log, heq⟩ := slow_path_of_propfind L env priv last_sync_tag hslow
  rw [heq]
  obtain ⟨_, hm, hc⟩ := slow_path_lists L env priv1 tag log hok
  simp only [hcache, if_true] at hc
  have hextras : (created_from_known (diff_step env).known_items).map EBookMetaBackendInfo.extra
      = ((diff_step env).known_items.map (fun kv => some kv.1)).reverse := by
    rw [created_from_known_eq, List.map_reverse, List.map_map]
    congr 1
    apply List.map_congr_left
    intro kv hkv
    simp only [diff_step, search_changes_known, List.mem_filter] at hkv
    obtain ⟨r, _, _, _, hveq⟩ := collect_mem _ _ kv.1 kv.2 hkv.1
    simp only [Function.comp, hveq]
    rfl
  refine ⟨?_, ?_, collect_length_le _ _⟩
  · intro it hit hmem hnew
    have h1 : (get_changes_slow_path L env priv1 tag log).out_created_objects.countP
          (fun x => decide (x.extra = some it.href))
        = ((get_changes_slow_path L env priv1 tag log).out_created_objects.map
            EBookMetaBackendInfo.extra).countP (fun e => decide (e = some it.href)) := by
      rw [List.countP_map]; rfl
    rw [h1, hc, hextras, List.countP_reverse, List.countP_map]
    obtain ⟨v, hv⟩ := collect_lookup_of_member env.request_path env.propfind_items it hit hmem
    have hin : (it.href, v) ∈ (diff_step env).known_items := by
      simp only [diff_step, search_changes_known, List.mem_filter]
      refine ⟨lookup_mem _ _ _ hv, ?_⟩
      simp only [Bool.not_eq_true', List.any_eq_false, Bool.and_eq_true, decide_eq_true_eq,
        Bool.not_eq_true', decide_eq_false_iff_not, not_and, not_not]
      intro row hrow hre
      exact absurd hre (hnew row hrow)
    have hnd : ((diff_step env).known_items.map Prod.fst).Nodup := by
      simp only [diff_step, search_changes_known]
      exact List.Nodup.sublist ((List.filter_sublist _).map Prod.fst) (collect_keys_nodup _ _)
    have := nodup_keys_countP _ it.href v hnd hin
    have hfun : ((fun e : Option String => decide (e = some it.href)) ∘
        fun kv : String × EBookMetaBackendInfo => some kv.1)
        = fun kv => decide (kv.1 = it.href) := by
      funext kv; simp [Function.comp]
    rw [hfun]
    exact this
  · have hlc : (get_changes_slow_path L env priv1 tag log).out_created_objects.length
        = (diff_step env).known_items.length := by
      have := congrArg List.length hc
      simpa [created_from_known_eq] using this
    have hlm : (get_changes_slow_path L env priv1 tag log).out_modified_objects.length
        = (diff_step env).out_modified_objects.length := by
      have := congrArg List.length hm
      simpa using this
    rw [hlc, hlm]
    have := search_changes_length
      { out_modified_objects := [], out_removed_objects := [],
        known_items := collect_known_items env.request_path env.propfind_items } env.cache_rows
    simp only [List.length_nil, Nat.zero_add] at this
    simp only [diff_step]
    omega

/-- C3 at a concrete pass: the listing returns the collection itself, `/book/A` and `/book/B`;
the cache holds `/book/A`. -/
theorem c3_unknown_entries_created_once_witness :
    (∀ it ∈ [example_item "/book/" "c", example_item "/book/A" "etag1",
              example_item "/book/B" "etag2"],
      is_member_item (some "/book/") it = true →
      (∀ row ∈ [example_row "u1" "etag1" "/book/A"], row.extra ≠ some it.href) →
      (ebb_webdav_get_changes_sync example_lib
        (example_env [example_item "/book/" "c", example_item "/book/A" "etag1",
          example_item "/book/B" "etag2"] [example_row "u1" "etag1" "/book/A"])
        example_priv none).out_created_objects.countP
        (fun x => decide (x.extra = some it.href)) = 1) ∧
    (ebb_webdav_get_changes_sync example_lib
        (example_env [example_item "/book/" "c", example_item "/book/A" "etag1",
          example_item "/book/B" "etag2"] [example_row "u1" "etag1" "/book/A"])
        example_priv none).out_created_objects.length
      + (ebb_webdav_get_changes_sync example_lib
        (example_env [example_item "/book/" "c", example_item "/book/A" "etag1",
          example_item "/book/B" "etag2"] [example_row "u1" "etag1" "/book/A"])
        example_priv none).out_modified_objects.length
      ≤ (collect_known_items (some "/book/") [example_item "/book/" "c",
          example_item "/book/A" "etag1", example_item "/book/B" "etag2"]).length ∧
    (collect_known_items (some "/book/") [example_item "/book/" "c",
        example_item "/book/A" "etag1", example_item "/book/B" "etag2"]).length
      ≤ [example_item "/book/" "c", example_item "/book/A" "etag1",
          example_item "/book/B" "etag2"].length :=
  c3_unknown_entries_created_once example_lib
    (example_env [example_item "/book/" "c", example_item "/book/A" "etag1",
      example_item "/book/B" "etag2"] [example_row "u1" "etag1" "/book/A"])
    example_priv none (by decide) (by decide) (by decide)

/-! ## C4: a cache row whose reference is listed with another etag -/

theorem lookup_after_scan (ccd : WebDAVChangesData) (rows : List CacheRow) (k : String)
    (v : EBookMetaBackendInfo)
    (h : g_hash_table_lookup (search_changes ccd rows).known_items k = some v) :
    g_hash_table_lookup ccd.known_items k = some v := by
  induction rows generalizing ccd with
  | nil => exact h
  | cons row rest ih =>
    rw [search_changes_cons] at h
    exact lookup_after_cb ccd row k v (ih _ h)

theorem search_changes_cb_modified_mono (ccd : WebDAVChangesData) (row : CacheRow)
    (x : EBookMetaBackendInfo) (hx : x ∈ ccd.out_modified_objects) :
    x ∈ (ebb_webdav_search_changes_cb ccd row).2.out_modified_objects := by
  unfold ebb_webdav_search_changes_cb
  cases he : row.extra with
  | none => exact hx
  | some e =>
    simp only
    split
    · exact hx
    · split
      · split
        · exact hx
        · simp [hx]
      · exact hx

theorem search_changes_modified_mono (ccd : WebDAVChangesData) (rows : List CacheRow)
    (x : EBookMetaBackendInfo) (hx : x ∈ ccd.out_modified_objects) :
    x ∈ (search_changes ccd rows).out_modified_objects := by
  induction rows generalizing ccd with
  | nil => exact hx
  | cons row rest ih =>
    rw [search_changes_cons]
    exact ih _ (search_changes_cb_modified_mono ccd row x hx)

/-- C4: when the scan of the cache reaches a row whose non-empty reference is in the
known-items table with an etag different from the row's revision, the step for that row (the
batched fetch comes later) prepends a modified record with that reference, the etag the
listing reported for it and the uid of the row, leaves the removed list alone and drops the
reference from the table; at the end of the diff the record is in the modified list and no
created record carries the reference. -/
theorem c4_changed_row_modified (env : GetChangesEnv) (pre post : List CacheRow)
    (row : CacheRow) (ref : String) (nfo : EBookMetaBackendInfo)
    (hrows : env.cache_rows = pre ++ row :: post)
    (hextra : row.extra = some ref) (hne : ref ≠ "")
    (hl : g_hash_table_lookup
            (search_changes
              { out_modified_objects := [], out_removed_objects := [],
                known_items := collect_known_items env.request_path env.propfind_items }
              pre).known_items ref = some nfo)
    (hrev : row.revision ≠ nfo.revision) :
    (∃ it ∈ env.propfind_items, is_member_item env.request_path it = true ∧ it.href = ref ∧
        it.etag = nfo.revision) ∧
    (ebb_webdav_search_changes_cb
        (search_changes
          { out_modified_objects := [], out_removed_objects := [],
            known_items := collect_known_items env.request_path env.propfind_items } pre)
        row).2.out_modified_objects
      = { uid := some row.uid, revision := nfo.revision, object := none, extra := some ref }
        :: (search_changes
            { out_modified_objects := [], out_removed_objects := [],
              known_items := collect_known_items env.request_path env.propfind_items }
            pre).out_modified_objects ∧
    (ebb_webdav_search_changes_cb
        (search_changes
          { out_modified_objects := [], out_removed_objects := [],
            known_items := collect_known_items env.request_path env.propfind_items } pre)
        row).2.out_removed_objects
      = (search_changes
          { out_modified_objects := [], out_removed_objects := [],
            known_items := collect_known_items env.request_path env.propfind_items }
          pre).out_removed_objects ∧
    g_hash_table_lookup
      (ebb_webdav_search_changes_cb
        (search_changes
          { out_modified_objects := [], out_removed_objects := [],
            known_items := collect_known_items env.request_path env.propfind_items } pre)
        row).2.known_items ref = none ∧
    ({ uid := some row.uid, revision := nfo.revision, object := none, extra := some ref }
        : EBookMetaBackendInfo) ∈ (diff_step env).out_modified_objects ∧
    (∀ x ∈ created_from_known (diff_step env).known_items, x.extra ≠ some ref) := by
  have hl0 := lookup_after_scan _ _ _ _ hl
  obtain ⟨it, hit, hmem, hhref, hveq⟩ := collect_mem _ _ _ _ (lookup_mem _ _ _ hl0)
  have hstep : (ebb_webdav_search_changes_cb
        (search_changes
          { out_modified_objects := [], out_removed_objects := [],
            known_items := collect_known_items env.request_path env.propfind_items } pre)
        row).2.out_modified_objects
      = { uid := some row.uid, revision := nfo.revision, object := none, extra := some ref }
        :: (search_changes
            { out_modified_objects := [], out_removed_objects := [],
              known_items := collect_known_items env.request_path env.propfind_items }
            pre).out_modified_objects := by
    unfold ebb_webdav_search_changes_cb
    simp only [hextra, hne, if_false, hl, g_strcmp0_eq, hrev, decide_False, Bool.false_eq_true,
      e_book_meta_backend_info_copy]
    rw [hveq]
    simp [e_book_meta_backend_info_new, str_empty]
  refine ⟨⟨it, hit, hmem, hhref, by rw [hveq]; rfl⟩, hstep, ?_, ?_, ?_, ?_⟩
  · rw [search_changes_cb_removed_eq]
    simp [hextra, hne, hl]
  · rw [search_changes_cb_known]
    simp [hextra, hne, lookup_remove]
  · simp only [diff_step, hrows, search_changes_append, search_changes_cons]
    apply search_changes_modified_mono
    rw [hstep]
    simp
  · intro x hx
    exact created_not_carried env row ref (by simp [hrows]) hextra hne x hx

/-- C4 at a concrete diff: the listing returns `/book/A` with `etag2`, the cache holds it
with `etag1`. -/
theorem c4_changed_row_modified_witness :
    (∃ it ∈ [example_item "/book/A" "etag2"], is_member_item (some "/book/") it = true ∧
        it.href = "/book/A" ∧ it.etag = some "etag2") ∧
    (ebb_webdav_search_changes_cb
        (search_changes
          { out_modified_objects := [], out_removed_objects := [],
            known_items := collect_known_items (some "/book/") [example_item "/book/A" "etag2"] }
          [])
        (example_row "u1" "etag1" "/book/A")).2.out_modified_objects
      = { uid := some "u1", revision := some "etag2", object := none, extra := some "/book/A" }
        :: (search_changes
            { out_modified_objects := [], out_removed_objects := [],
              known_items := collect_known_items (some "/book/") [example_item "/book/A" "etag2"] }
            []).out_modified_objects ∧
    (ebb_webdav_search_changes_cb
        (search_changes
          { out_modified_objects := [], out_removed_objects := [],
            known_items := collect_known_items (some "/book/") [example_item "/book/A" "etag2"] }
          [])
        (example_row "u1" "etag1" "/book/A")).2.out_removed_objects
      = (search_changes
          { out_modified_objects := [], out_removed_objects := [],
            known_items := collect_known_items (some "/book/") [example_item "/book/A" "etag2"] }
          []).out_removed_objects ∧
    g_hash_table_lookup
      (ebb_webdav_search_changes_cb
        (search_changes
          { out_modified_objects := [], out_removed_objects := [],
            known_items := collect_known_items (some "/book/") [example_item "/book/A" "etag2"] }
          [])
        (example_row "u1" "etag1" "/book/A")).2.known_items "/book/A" = none ∧
    ({ uid := some "u1", revision := some "etag2", object := none, extra := some "/book/A" }
        : EBookMetaBackendInfo) ∈
      (diff_step (example_env [example_item "/book/A" "etag2"]
        [example_row "u1" "etag1" "/book/A"])).out_modified_objects ∧
    (∀ x ∈ created_from_known
        (diff_step (example_env [example_item "/book/A" "etag2"]
          [example_row "u1" "etag1" "/book/A"])).known_items, x.extra ≠ some "/book/A") :=
  c4_changed_row_modified
    (example_env [example_item "/book/A" "etag2"] [example_row "u1" "etag1" "/book/A"])
    [] [] (example_row "u1" "etag1" "/book/A") "/book/A"
    (e_book_meta_backend_info_new "" (some "etag2") none (some "/book/A"))
    (by decide) (by decide) (by decide) (by decide) (by decide)

/-! ## C5: the two-item scenario -/

/-- The diff of the scenario: the table collected from two distinct member items, scanned
against one row that carries the first item's reference with the listed etag, ends with the
second item alone in the table and emits nothing. -/
theorem scenario_diff (request_path : Option String) (items : List DavResponse)
    (a b : DavResponse) (row : CacheRow)
    (hitems : items = [a, b] ∨ items = [b, a])
    (ha : is_member_item request_path a = true) (hb : is_member_item request_path b = true)
    (hab : a.href ≠ b.href) (hextra : row.extra = some a.href) (hne : a.href ≠ "")
    (hrev : row.revision = a.etag) :
    search_changes
      { out_modified_objects := [], out_removed_objects := [],
        known_items := collect_known_items request_path items } [row]
      = { out_modified_objects := [], out_removed_objects := [],
          known_items := [(b.href, e_book_meta_backend_info_new "" b.etag none (some b.href))] } := by
  have hba : ¬ b.href = a.href := fun h => hab h.symm
  have hcol : ∀ x y : DavResponse, collect_known_items request_path [x, y]
      = collect_known_items request_path (([] ++ [x]) ++ [y]) := fun _ _ => rfl
  have hnil : collect_known_items request_path [] = [] := rfl
  rw [search_changes_cons, search_changes_nil]
  rcases hitems with h | h
  · subst h
    rw [hcol, collect_known_items_snoc, collect_known_items_snoc, hnil]
    simp only [ha, hb, if_true]
    unfold ebb_webdav_search_changes_cb
    simp [hextra, hne, lookup_insert, hab, hba, g_strcmp0_eq, hrev, e_book_meta_backend_info_new,
      g_hash_table_insert, g_hash_table_remove, g_hash_table_lookup]
  · subst h
    rw [hcol, collect_known_items_snoc, collect_known_items_snoc, hnil]
    simp only [ha, hb, if_true]
    unfold ebb_webdav_search_changes_cb
    simp [hextra, hne, lookup_insert, hab, hba, g_strcmp0_eq, hrev, e_book_meta_backend_info_new,
      g_hash_table_insert, g_hash_table_remove, g_hash_table_lookup]

/-- Response items the listing callback does not accept (the initial call without properties,
the collection itself, items without status OK or without etag) leave the table as it is: the
table collected from a listing is the table collected from its accepted items. -/
theorem collect_known_items_filter (p : Option String) (items : List DavResponse) :
    collect_known_items p items
      = collect_known_items p (items.filter (fun r => is_member_item p r)) := by
  induction items using List.reverseRecOn with
  | nil => rfl
  | append_singleton items r ih =>
    rw [collect_known_items_snoc, List.filter_append]
    by_cases hm : is_member_item p r = true
    · simp only [hm, if_true, List.filter_cons_of_pos, List.filter_nil]
      rw [collect_known_items_snoc]
      simp only [hm, if_true, ih]
    · have hf : List.filter (fun r => is_member_item p r) [r] = [] := by
        simp [hm]
      rw [hf, List.append_nil, ← ih]
      simp [hm]

/-- C5: when the items of the listing of a slow-path pass that the listing callback accepts
as members are exactly `a` and `b` (in either order; the listing may deliver further responses
that are not members, such as the initial call without properties and the collection itself)
and the cache holds exactly one row, carrying the reference of `a` with the etag listed for
`a` as revision, the change-set is: created holds one record, for the reference of `b`;
modified and removed are empty. -/
theorem c5_scenario_change_set (L : Lib) (env : GetChangesEnv)
    (priv : EBookBackendWebDAVPrivate) (last_sync_tag : Option String)
    (a b : DavResponse) (row : CacheRow)
    (hslow : Request.propfind ∈ (ebb_webdav_get_changes_sync L env priv last_sync_tag).requests)
    (hok : env.propfind_outcome = Outcome.ok) (hcache : env.cache_outcome = Outcome.ok)
    (hitems : env.propfind_items.filter (fun r => is_member_item env.request_path r) = [a, b] ∨
      env.propfind_items.filter (fun r => is_member_item env.request_path r) = [b, a])
    (hab : a.href ≠ b.href)
    (hrows : env.cache_rows = [row]) (hextra : row.extra = some a.href) (hne : a.href ≠ "")
    (hrev : row.revision = a.etag) :
    (ebb_webdav_get_changes_sync L env priv last_sync_tag).out_created_objects.map
        EBookMetaBackendInfo.extra = [some b.href] ∧
    (ebb_webdav_get_changes_sync L env priv last_sync_tag).out_modified_objects = [] ∧
    (ebb_webdav_get_changes_sync L env priv last_sync_tag).out_removed_objects = [] := by
  have hmem : ∀ r, r ∈ env.propfind_items.filter (fun r => is_member_item env.request_path r) →
      is_member_item env.request_path r = true := by
    intro r hr
    exact (List.mem_filter.mp hr).2
  have ha : is_member_item env.request_path a = true := by
    apply hmem
    rcases hitems with h | h <;> rw [h] <;> simp
  have hb : is_member_item env.request_path b = true := by
    apply hmem
    rcases hitems with h | h <;> rw [h] <;> simp
  obtain ⟨priv1, tag, log, heq⟩ := slow_path_of_propfind L env priv last_sync_tag hslow
  rw [heq]
  obtain ⟨hr, hm, hc⟩ := slow_path_lists L env priv1 tag log hok
  have hd : diff_step env
      = { out_modified_objects := [], out_removed_objects := [],
          known_items := [(b.href, e_book_meta_backend_info_new "" b.etag none (some b.href))] } := by
    unfold diff_step
    rw [hrows, collect_known_items_filter]
    exact scenario_diff env.request_path _ a b row hitems ha hb hab hextra hne hrev
  rw [hd] at hr hm hc
  simp only [hcache, if_true] at hc
  refine ⟨?_, ?_, hr⟩
  · rw [hc]; rfl
  · simpa using hm

/-- C5 at the concrete scenario, with the listing as a server delivers it: the initial call
without properties, the collection `/book/` itself, then `/book/A` with `etag1` and `/book/B`
with `etag2`; the cache holds `/book/A` with `etag1`. -/
theorem c5_scenario_change_set_witness :
    (ebb_webdav_get_changes_sync example_lib
        (example_env
          [{ prop_given := false, href := "/book/", status_code := SOUP_STATUS_OK, etag := none,
             address_data := none },
           example_item "/book/" "c", example_item "/book/A" "etag1",
           example_item "/book/B" "etag2"]
          [example_row "u1" "etag1" "/book/A"]) example_priv none).out_created_objects.map
        EBookMetaBackendInfo.extra = [some "/book/B"] ∧
    (ebb_webdav_get_changes_sync example_lib
        (example_env
          [{ prop_given := false, href := "/book/", status_code := SOUP_STATUS_OK, etag := none,
             address_data := none },
           example_item "/book/" "c", example_item "/book/A" "etag1",
           example_item "/book/B" "etag2"]
          [example_row "u1" "etag1" "/book/A"]) example_priv none).out_modified_objects = [] ∧
    (ebb_webdav_get_changes_sync example_lib
        (example_env
          [{ prop_given := false, href := "/book/", status_code := SOUP_STATUS_OK, etag := none,
             address_data := none },
           example_item "/book/" "c", example_item "/book/A" "etag1",
           example_item "/book/B" "etag2"]
          [example_row "u1" "etag1" "/book/A"]) example_priv none).out_removed_objects = [] :=
  c5_scenario_change_set example_lib
    (example_env
      [{ prop_given := false, href := "/book/", status_code := SOUP_STATUS_OK, etag := none,
         address_data := none },
       example_item "/book/" "c", example_item "/book/A" "etag1",
       example_item "/book/B" "etag2"]
      [example_row "u1" "etag1" "/book/A"]) example_priv none
    (example_item "/book/A" "etag1") (example_item "/book/B" "etag2")
    (example_row "u1" "etag1" "/book/A")
    (by decide) (by decide) (by decide) (Or.inl (by decide)) (by decide) (by decide) (by decide)
    (by decide) (by decide)

/-! ## C6: the fast path -/

/-- C6: when change-tag support is enabled and the change-tag fetched from the server equals
`last_sync_tag`, the pass returns success at once with that tag as new sync tag, with the
created, modified and removed lists empty, and the only request it issued is the change-tag
fetch: no listing, no cache scan, no batched-detail request. -/
theorem c6_unchanged_ctag_returns_at_once (L : Lib) (env : GetChangesEnv)
    (priv : EBookBackendWebDAVPrivate) (tag : String)
    (hsup : priv.ctag_supported = true)
    (hfetch : env.getctag_success = true) (htag : env.getctag_ctag = some tag) :
    (ebb_webdav_get_changes_sync L env priv (some tag)).success = true ∧
    (ebb_webdav_get_changes_sync L env priv (some tag)).error = none ∧
    (ebb_webdav_get_changes_sync L env priv (some tag)).out_new_sync_tag = some tag ∧
    (ebb_webdav_get_changes_sync L env priv (some tag)).out_created_objects = [] ∧
    (ebb_webdav_get_changes_sync L env priv (some tag)).out_modified_objects = [] ∧
    (ebb_webdav_get_changes_sync L env priv (some tag)).out_removed_objects = [] ∧
    (ebb_webdav_get_changes_sync L env priv (some tag)).requests = [Request.getctag] ∧
    (ebb_webdav_get_changes_sync L env priv (some tag)).priv = priv := by
  unfold ebb_webdav_get_changes_sync
  simp [hsup, hfetch, htag, g_strcmp0_eq]

/-- C6 at a concrete pass: the server reports the change-tag `ctag-7`, the last sync tag. -/
theorem c6_unchanged_ctag_returns_at_once_witness :
    (ebb_webdav_get_changes_sync example_lib
      { example_env [example_item "/book/B" "etag2"] [] with
        getctag_success := true, getctag_ctag := some "ctag-7" }
      { example_priv with ctag_supported := true } (some "ctag-7")).success = true ∧
    (ebb_webdav_get_changes_sync example_lib
      { example_env [example_item "/book/B" "etag2"] [] with
        getctag_success := true, getctag_ctag := some "ctag-7" }
      { example_priv with ctag_supported := true } (some "ctag-7")).out_new_sync_tag
      = some "ctag-7" ∧
    (ebb_webdav_get_changes_sync example_lib
      { example_env [example_item "/book/B" "etag2"] [] with
        getctag_success := true, getctag_ctag := some "ctag-7" }
      { example_priv with ctag_supported := true } (some "ctag-7")).out_created_objects = [] ∧
    (ebb_webdav_get_changes_sync example_lib
      { example_env [example_item "/book/B" "etag2"] [] with
        getctag_success := true, getctag_ctag := some "ctag-7" }
      { example_priv with ctag_supported := true } (some "ctag-7")).requests
      = [Request.getctag] :=
  have h := c6_unchanged_ctag_returns_at_once example_lib
      { example_env [example_item "/book/B" "etag2"] [] with
        getctag_success := true, getctag_ctag := some "ctag-7" }
      { example_priv with ctag_supported := true } "ctag-7" rfl rfl rfl
  ⟨h.1, h.2.2.1, h.2.2.2.1, h.2.2.2.2.2.2.1⟩

/-! ## C7: the change-tag flag within a session -/

theorem load_finish_priv (L : Lib) (priv : EBookBackendWebDAVPrivate) (reply : GetDataReply)
    (log : List Request) :
    (load_finish L priv reply log).priv = priv ∧ (load_finish L priv reply log).requests = log := by
  unfold load_finish
  split
  · simp only
    split <;> exact ⟨rfl, rfl⟩
  · exact ⟨rfl, rfl⟩

theorem load_by_uid_priv (L : Lib) (env : LoadEnv) (priv : EBookBackendWebDAVPrivate)
    (source_uri : Option SoupURI) (uid : String) (n : Nat) (log : List Request)
    (hlog : Request.getctag ∉ log) :
    (load_by_uid L env priv source_uri uid n log).priv = priv ∧
    Request.getctag ∉ (load_by_uid L env priv source_uri uid n log).requests := by
  unfold load_by_uid
  split
  · exact ⟨rfl, hlog⟩
  · simp only
    split
    · split
      · refine ⟨(load_finish_priv _ _ _ _).1, ?_⟩
        rw [(load_finish_priv _ _ _ _).2]
        simp [hlog]
      · refine ⟨(load_finish_priv _ _ _ _).1, ?_⟩
        rw [(load_finish_priv _ _ _ _).2]
        simp [hlog]
    · refine ⟨(load_finish_priv _ _ _ _).1, ?_⟩
      rw [(load_finish_priv _ _ _ _).2]
      simp [hlog]

theorem load_contact_cleared (L : Lib) (env : LoadEnv) (priv : EBookBackendWebDAVPrivate)
    (source_uri : Option SoupURI) (uid : String) (extra : Option String)
    (hflag : priv.ctag_supported = false) :
    (ebb_webdav_load_contact_sync L env priv source_uri uid extra).priv = priv ∧
    Request.getctag ∉ (ebb_webdav_load_contact_sync L env priv source_uri uid extra).requests := by
  unfold ebb_webdav_load_contact_sync
  split
  · unfold load_after_direct
    simp only [hflag, Bool.false_eq_true, if_false]
    exact load_by_uid_priv _ _ _ _ _ _ _ (by simp)
  · split
    · unfold load_after_direct
      simp only [hflag, Bool.false_eq_true, if_false]
      exact load_by_uid_priv _ _ _ _ _ _ _ (by simp)
    · simp only
      split
      · refine ⟨(load_finish_priv _ _ _ _).1, ?_⟩
        rw [(load_finish_priv _ _ _ _).2]
        simp
      · unfold load_after_direct
        simp only [hflag, Bool.false_eq_true, if_false]
        exact load_by_uid_priv _ _ _ _ _ _ _ (by simp)

theorem slow_path_priv (L : Lib) (env : GetChangesEnv) (priv : EBookBackendWebDAVPrivate)
    (tag : Option String) (log : List Request) (hlog : Request.getctag ∉ log) :
    (get_changes_slow_path L env priv tag log).priv = priv ∧
    Request.getctag ∉ (get_changes_slow_path L env priv tag log).requests := by
  unfold get_changes_slow_path
  split
  · exact ⟨rfl, by simp [hlog]⟩
  · simp only
    split
    · exact ⟨rfl, by simp [hlog]⟩
    · split
      · exact ⟨rfl, by simp [hlog]⟩
      · exact ⟨rfl, by simp [hlog]⟩

theorem get_changes_cleared (L : Lib) (env : GetChangesEnv) (priv : EBookBackendWebDAVPrivate)
    (last_sync_tag : Option String) (hflag : priv.ctag_supported = false) :
    (ebb_webdav_get_changes_sync L env priv last_sync_tag).priv = priv ∧
    Request.getctag ∉ (ebb_webdav_get_changes_sync L env priv last_sync_tag).requests := by
  unfold ebb_webdav_get_changes_sync
  simp only [hflag, Bool.false_eq_true, if_false]
  exact slow_path_priv L env priv none [] (by simp)

theorem remove_contact_requests (L : Lib) (delete : Nat → String → Option String → Outcome)
    (priv : EBookBackendWebDAVPrivate) (source_uri : Option SoupURI)
    (conflict_resolution : EConflictResolution) (uid : String) (extra : Option String)
    (object : String) :
    (ebb_webdav_remove_contact_sync L delete priv source_uri conflict_resolution uid extra
      object).priv = priv ∧
    Request.getctag ∉ (ebb_webdav_remove_contact_sync L delete priv source_uri
      conflict_resolution uid extra object).requests := by
  have hstep : ∀ (etag : Option String) (uri : String) (st : DeleteState),
      Request.getctag ∉ st.requests →
      Request.getctag ∉ (delete_step delete etag uri st).requests := by
    intro etag uri st h
    simp [delete_step, h]
  have hopt : ∀ (etag : Option String) (o : Option String) (st : DeleteState),
      Request.getctag ∉ st.requests →
      Request.getctag ∉ (match o with
        | some href => delete_step delete etag href st
        | none => st).requests := by
    intro etag o st h
    cases o with
    | none => exact h
    | some href => exact hstep etag href st h
  unfold ebb_webdav_remove_contact_sync
  split
  · exact ⟨rfl, by simp⟩
  · split
    · exact ⟨rfl, by simp⟩
    · split
      · exact ⟨rfl, by simp⟩
      · rename_i uri _ _ contact _
        refine ⟨rfl, ?_⟩
        simp only
        generalize (if conflict_resolution = EConflictResolution.FAIL then contact.x_etag
          else none) = etag
        have h1 := hstep etag uri { success := false, local_error := none, requests := [] }
          (by simp)
        split_ifs
        · exact hopt _ _ _ (hopt _ _ _ h1)
        · exact hopt _ _ _ h1
        · exact h1

/-- Once the flag is cleared, no operation sets it again and none issues a change-tag fetch. -/
theorem run_operation_cleared (L : Lib) (source_uri : Option SoupURI)
    (priv : EBookBackendWebDAVPrivate) (op : Operation) (hflag : priv.ctag_supported = false) :
    (run_operation L source_uri priv op).1 = priv ∧
    Request.getctag ∉ (run_operation L source_uri priv op).2 := by
  cases op with
  | get_changes env last => exact get_changes_cleared L env priv last hflag
  | load_contact env uid extra => exact load_contact_cleared L env priv source_uri uid extra hflag
  | save_contact put_data ow cr contact extra =>
    simp only [run_operation]
    unfold ebb_webdav_save_contact_sync
    simp only
    split
    · split
      · exact ⟨rfl, by simp⟩
      · exact ⟨rfl, by simp⟩
    · exact ⟨rfl, by simp⟩
  | remove_contact delete cr uid extra object =>
    exact remove_contact_requests L delete priv source_uri cr uid extra object
  | list_existing reply =>
    exact ⟨rfl, by simp [run_operation, ebb_webdav_list_existing_sync]⟩

theorem run_session_cleared (L : Lib) (source_uri : Option SoupURI)
    (priv : EBookBackendWebDAVPrivate) (ops : List Operation)
    (hflag : priv.ctag_supported = false) :
    (run_session L source_uri priv ops).1 = priv ∧
    ∀ reqs ∈ (run_session L source_uri priv ops).2, Request.getctag ∉ reqs := by
  induction ops with
  | nil => exact ⟨rfl, by simp [run_session]⟩
  | cons op rest ih =>
    obtain ⟨h1, h2⟩ := run_operation_cleared L source_uri priv op hflag
    simp only [run_session, h1]
    refine ⟨ih.1, ?_⟩
    intro reqs hr
    simp only [List.mem_cons] at hr
    rcases hr with hr | hr
    · rw [hr]; exact h2
    · exact ih.2 reqs hr

theorem slow_path_priv_eq (L : Lib) (env : GetChangesEnv) (priv : EBookBackendWebDAVPrivate)
    (tag : Option String) (log : List Request) :
    (get_changes_slow_path L env priv tag log).priv = priv ∧
    ∀ x ∈ log, x ∈ (get_changes_slow_path L env priv tag log).requests := by
  unfold get_changes_slow_path
  split
  · exact ⟨rfl, fun x hx => by simp [hx]⟩
  · simp only
    split
    · exact ⟨rfl, fun x hx => by simp [hx]⟩
    · split
      · exact ⟨rfl, fun x hx => by simp [hx]⟩
      · exact ⟨rfl, fun x hx => by simp [hx]⟩

/-- C7 (as stated, refuted): in a connected session with change-tag support enabled, a load
whose direct fetch fails issues a change-tag fetch; that fetch fails while the operation is
not cancelled, and the flag stays set, so the sync pass that follows issues a change-tag fetch
again. -/
theorem c7_counterexample_probe_in_load :
    (run_session example_lib example_source_uri { example_priv with ctag_supported := true }
      [Operation.load_contact example_load_env "u1" (some "/book/x.vcf"),
       Operation.get_changes (example_env [] []) none]).2
      = [[Request.get_data "/book/x.vcf", Request.getctag, Request.get_data "/book/u1.vcf",
          Request.get_data "/book/u1"],
         [Request.getctag, Request.propfind, Request.cache_search]] ∧
    example_load_env.getctag_success = false ∧ example_load_env.cancelled = false ∧
    (run_operation example_lib example_source_uri { example_priv with ctag_supported := true }
      (Operation.load_contact example_load_env "u1" (some "/book/x.vcf"))).1.ctag_supported
      = true := by
  decide

/-- A load leaves the private data of the backend as it is, whatever its requests answer. -/
theorem load_by_uid_priv_eq (L : Lib) (env : LoadEnv) (priv : EBookBackendWebDAVPrivate)
    (source_uri : Option SoupURI) (uid : String) (n : Nat) (log : List Request) :
    (load_by_uid L env priv source_uri uid n log).priv = priv := by
  unfold load_by_uid
  split
  · rfl
  · simp only
    split
    · split
      · exact (load_finish_priv _ _ _ _).1
      · exact (load_finish_priv _ _ _ _).1
    · exact (load_finish_priv _ _ _ _).1

theorem load_contact_priv_eq (L : Lib) (env : LoadEnv) (priv : EBookBackendWebDAVPrivate)
    (source_uri : Option SoupURI) (uid : String) (extra : Option String) :
    (ebb_webdav_load_contact_sync L env priv source_uri uid extra).priv = priv := by
  have h : ∀ n log, (load_after_direct L env priv source_uri uid n log).priv = priv := by
    intro n log
    unfold load_after_direct
    split
    · split
      · rfl
      · exact load_by_uid_priv_eq _ _ _ _ _ _ _
    · exact load_by_uid_priv_eq _ _ _ _ _ _ _
  unfold ebb_webdav_load_contact_sync
  split
  · exact h _ _
  · split
    · exact h _ _
    · simp only
      split
      · exact (load_finish_priv _ _ _ _).1
      · exact h _ _

/-- C7 (amended): when the change-tag fetch of a sync pass fails while the operation is not
cancelled, the pass clears the change-tag-supported flag; from then on, whatever sequence of
sync passes, loads, saves, removes and list-existing calls follows in the session, the flag
is still cleared at its end and none of these operations issues a change-tag fetch.  A load
leaves the private data of the backend, and so the flag, as it is, whatever its change-tag
fetch and its other requests answer: a change-tag fetch that fails inside a load does not
clear a flag that is set. -/
theorem c7_failed_probe_not_repeated (L : Lib) (source_uri : Option SoupURI)
    (env : GetChangesEnv) (priv : EBookBackendWebDAVPrivate) (last_sync_tag : Option String)
    (ops : List Operation)
    (hsup : priv.ctag_supported = true) (hfail : env.getctag_success = false)
    (hnc : env.cancelled = false) :
    Request.getctag ∈ (ebb_webdav_get_changes_sync L env priv last_sync_tag).requests ∧
    (ebb_webdav_get_changes_sync L env priv last_sync_tag).priv.ctag_supported = false ∧
    (run_session L source_uri (ebb_webdav_get_changes_sync L env priv last_sync_tag).priv
      ops).1.ctag_supported = false ∧
    (∀ reqs ∈ (run_session L source_uri
        (ebb_webdav_get_changes_sync L env priv last_sync_tag).priv ops).2,
      Request.getctag ∉ reqs) ∧
    (∀ (lenv : LoadEnv) (uid : String) (extra : Option String),
      (ebb_webdav_load_contact_sync L lenv priv source_uri uid extra).priv = priv ∧
      (ebb_webdav_load_contact_sync L lenv priv source_uri uid extra).priv.ctag_supported
        = true ∧
      (run_operation L source_uri priv (Operation.load_contact lenv uid extra)).1 = priv) := by
  have hpriv : (ebb_webdav_get_changes_sync L env priv last_sync_tag).priv
      = { priv with ctag_supported := false } ∧
      Request.getctag ∈ (ebb_webdav_get_changes_sync L env priv last_sync_tag).requests := by
    unfold ebb_webdav_get_changes_sync
    simp only [hsup, hfail, hnc, if_true, Bool.not_false, Bool.false_or]
    split
    · exact ⟨rfl, by simp⟩
    · exact ⟨(slow_path_priv_eq L env _ _ _).1,
        (slow_path_priv_eq L env _ _ _).2 Request.getctag (by simp)⟩
  have hc := run_session_cleared L source_uri { priv with ctag_supported := false } ops rfl
  rw [hpriv.1]
  refine ⟨hpriv.2, rfl, ?_, hc.2, ?_⟩
  · rw [hc.1]
  · intro lenv uid extra
    have h := load_contact_priv_eq L lenv priv source_uri uid extra
    exact ⟨h, by rw [h]; exact hsup, h⟩

/-- C7 (amended) at a concrete session: a sync pass whose change-tag fetch fails, followed by
a load whose direct fetch fails and by another sync pass; and a load with a failing change-tag
fetch on the backend before that pass, which leaves the flag set. -/
theorem c7_failed_probe_not_repeated_witness :
    Request.getctag ∈ (ebb_webdav_get_changes_sync example_lib (example_env [] [])
      { example_priv with ctag_supported := true } none).requests ∧
    (ebb_webdav_get_changes_sync example_lib (example_env [] [])
      { example_priv with ctag_supported := true } none).priv.ctag_supported = false ∧
    (run_session example_lib example_source_uri
      (ebb_webdav_get_changes_sync example_lib (example_env [] [])
        { example_priv with ctag_supported := true } none).priv
      [Operation.load_contact example_load_env "u1" (some "/book/x.vcf"),
       Operation.get_changes (example_env [] []) none]).1.ctag_supported = false ∧
    (∀ reqs ∈ (run_session example_lib example_source_uri
        (ebb_webdav_get_changes_sync example_lib (example_env [] [])
          { example_priv with ctag_supported := true } none).priv
        [Operation.load_contact example_load_env "u1" (some "/book/x.vcf"),
         Operation.get_changes (example_env [] []) none]).2,
      Request.getctag ∉ reqs) ∧
    (ebb_webdav_load_contact_sync example_lib example_load_env
      { example_priv with ctag_supported := true } example_source_uri "u1"
      (some "/book/x.vcf")).priv.ctag_supported = true ∧
    Request.getctag ∈ (ebb_webdav_load_contact_sync example_lib example_load_env
      { example_priv with ctag_supported := true } example_source_uri "u1"
      (some "/book/x.vcf")).requests ∧
    example_load_env.getctag_success = false :=
  ⟨(c7_failed_probe_not_repeated example_lib example_source_uri (example_env [] [])
      { example_priv with ctag_supported := true } none
      [Operation.load_contact example_load_env "u1" (some "/book/x.vcf"),
       Operation.get_changes (example_env [] []) none]
      (by decide) (by decide) (by decide)).1,
   (c7_failed_probe_not_repeated example_lib example_source_uri (example_env [] [])
      { example_priv with ctag_supported := true } none
      [Operation.load_contact example_load_env "u1" (some "/book/x.vcf"),
       Operation.get_changes (example_env [] []) none]
      (by decide) (by decide) (by decide)).2.1,
   (c7_failed_probe_not_repeated example_lib example_source_uri (example_env [] [])
      { example_priv with ctag_supported := true } none
      [Operation.load_contact example_load_env "u1" (some "/book/x.vcf"),
       Operation.get_changes (example_env [] []) none]
      (by decide) (by decide) (by decide)).2.2.1,
   (c7_failed_probe_not_repeated example_lib example_source_uri (example_env [] [])
      { example_priv with ctag_supported := true } none
      [Operation.load_contact example_load_env "u1" (some "/book/x.vcf"),
       Operation.get_changes (example_env [] []) none]
      (by decide) (by decide) (by decide)).2.2.2.1,
   ((c7_failed_probe_not_repeated example_lib example_source_uri (example_env [] [])
      { example_priv with ctag_supported := true } none []
      (by decide) (by decide) (by decide)).2.2.2.2 example_load_env "u1"
      (some "/book/x.vcf")).2.1,
   by decide, rfl⟩

/-! ## C8: the batch builder walks the two pending lists as one queue -/

theorem queue_refs_length (h : PendingLists) :
    h.queue_refs.length = h.created.length + h.modified.length := by
  simp [PendingLists.queue_refs, PendingLists.refs]

theorem modified_head_eq (h : PendingLists) :
    h.modified_head = if h.modified.length = 0 then GSListPtr.null else GSListPtr.modified 0 := by
  unfold PendingLists.modified_head
  cases h.modified <;> simp

theorem created_head_eq (h : PendingLists) :
    h.created_head = if h.created.length = 0 then GSListPtr.null else GSListPtr.created 0 := by
  unfold PendingLists.created_head
  cases h.created <;> simp

theorem ptr_at_null (nc nm p : Nat) (hp : nc + nm ≤ p) :
    ptr_at nc nm p = (GSListPtr.null, GSListPtr.null) := by
  unfold ptr_at
  have h1 : ¬ p < nc := by omega
  have h2 : ¬ p < nc + nm := by omega
  simp [h1, h2]

theorem ptr_at_ne_null (nc nm p : Nat) (hp : p < nc + nm) :
    (ptr_at nc nm p).1 ≠ GSListPtr.null := by
  unfold ptr_at
  by_cases h1 : p < nc
  · simp [h1]
  · simp [h1, hp]

/-- The node under the cursor holds the `p`-th reference of the queue. -/
theorem data_at (h : PendingLists) (p : Nat) (hp : p < h.created.length + h.modified.length) :
    h.queue_refs.get? p
      = some ((h.data (ptr_at h.created.length h.modified.length p).1).map
          EBookMetaBackendInfo.extra) := by
  unfold ptr_at PendingLists.queue_refs PendingLists.refs
  simp only [List.get?_eq_getElem?]
  by_cases h1 : p < h.created.length
  · simp only [h1, if_true, PendingLists.data, List.get?_eq_getElem?]
    rw [List.getElem?_append_left (by simpa using h1)]
    simp only [List.getElem?_map]
    cases hc : h.created[p]? with
    | none => simp [List.getElem?_eq_none_iff] at hc; omega
    | some a => cases a <;> simp
  · simp only [h1, hp, if_true, if_false, PendingLists.data, List.get?_eq_getElem?]
    rw [List.getElem?_append_right (by simpa using h1)]
    simp only [List.getElem?_map, List.length_map]
    have h2 : p - h.created.length < h.modified.length := by omega
    cases hm : h.modified[p - h.created.length]? with
    | none => simp [List.getElem?_eq_none_iff] at hm; omega
    | some a => cases a <;> simp

/-- Advancing the cursor of the batch builder by one node, with the jump to the second list at
the end of the first, moves it to the next position of the queue. -/
theorem ptr_advance (h : PendingLists) (p : Nat) (hp : p < h.created.length + h.modified.length) :
    ((if h.next (ptr_at h.created.length h.modified.length p).1 = GSListPtr.null
        then (ptr_at h.created.length h.modified.length p).2
        else h.next (ptr_at h.created.length h.modified.length p).1),
     (if h.next (ptr_at h.created.length h.modified.length p).1 = GSListPtr.null
        then GSListPtr.null
        else (ptr_at h.created.length h.modified.length p).2))
      = ptr_at h.created.length h.modified.length (p + 1) := by
  unfold ptr_at
  by_cases h1 : p < h.created.length
  · by_cases h2 : p + 1 < h.created.length
    · simp [h1, h2, PendingLists.next]
    · have h3 : h.created.length = p + 1 := by omega
      by_cases h4 : h.modified.length = 0
      · simp [h1, h2, PendingLists.next, h4, h3]
      · have h5 : p + 1 < h.created.length + h.modified.length := by omega
        have h6 : 0 < h.modified.length := by omega
        simp [h1, h2, PendingLists.next, h4, h5, h3, h6]
  · have h2 : ¬ p + 1 < h.created.length := by omega
    by_cases h3 : p + 1 < h.created.length + h.modified.length
    · have h4 : p - h.created.length + 1 < h.modified.length := by omega
      have h5 : p + 1 - h.created.length = p - h.created.length + 1 := by omega
      simp [h1, h2, hp, h3, PendingLists.next, h4, h5]
    · have h4 : ¬ p - h.created.length + 1 < h.modified.length := by omega
      simp [h1, h2, hp, h3, PendingLists.next, h4]

theorem take_batch_nil (L : Lib) (left : Nat) : take_batch L left [] = ([], []) := by
  cases left <;> rfl

/-- The loop of the batch builder, started with `p` nodes of the queue consumed, cuts one batch
off the rest of the queue. -/
theorem multiget_collect_spec (L : Lib) (h : PendingLists) (fuel p left : Nat)
    (hrefs : List (Option String)) (hfuel : h.created.length + h.modified.length ≤ p + fuel) :
    multiget_collect L h fuel
        { link := (ptr_at h.created.length h.modified.length p).1,
          set2 := (ptr_at h.created.length h.modified.length p).2,
          left_to_go := left, hrefs := hrefs }
      = { link := (ptr_at h.created.length h.modified.length
            (h.created.length + h.modified.length
              - (take_batch L left (h.queue_refs.drop p)).2.length)).1,
          set2 := (ptr_at h.created.length h.modified.length
            (h.created.length + h.modified.length
              - (take_batch L left (h.queue_refs.drop p)).2.length)).2,
          left_to_go := left - (take_batch L left (h.queue_refs.drop p)).1.length,
          hrefs := hrefs ++ (take_batch L left (h.queue_refs.drop p)).1 } := by
  induction fuel generalizing p left hrefs with
  | zero =>
    have hp : h.created.length + h.modified.length ≤ p := by omega
    have hd : h.queue_refs.drop p = [] := by
      apply List.drop_eq_nil_of_le
      rw [queue_refs_length]; exact hp
    simp [multiget_collect, hd, take_batch_nil, ptr_at_null _ _ _ hp,
      ptr_at_null _ _ (h.created.length + h.modified.length) (le_refl _)]
  | succ n ih =>
    by_cases hp : h.created.length + h.modified.length ≤ p
    · have hd : h.queue_refs.drop p = [] := by
        apply List.drop_eq_nil_of_le
        rw [queue_refs_length]; exact hp
      simp [multiget_collect, hd, take_batch_nil, ptr_at_null _ _ _ hp,
        ptr_at_null _ _ (h.created.length + h.modified.length) (le_refl _)]
    · have hp1 : p < h.created.length + h.modified.length := by omega
      have hlen : (h.queue_refs.drop p).length = h.created.length + h.modified.length - p := by
        simp [queue_refs_length]
      cases left with
      | zero =>
        have : h.created.length + h.modified.length
            - (h.created.length + h.modified.length - p) = p := by omega
        simp [multiget_collect, take_batch, hlen, this]
      | succ l =>
        have hne := ptr_at_ne_null _ _ p hp1
        have hdrop : h.queue_refs.drop p
            = (h.data (ptr_at h.created.length h.modified.length p).1).map
                EBookMetaBackendInfo.extra :: h.queue_refs.drop (p + 1) := by
          rw [List.drop_eq_getElem_cons (by rw [queue_refs_length]; exact hp1)]
          congr 1
          have := data_at h p hp1
          rw [List.get?_eq_getElem?, List.getElem?_eq_getElem
            (by rw [queue_refs_length]; exact hp1)] at this
          exact Option.some.inj this
        have hadv := ptr_advance h p hp1
        rw [Prod.ext_iff] at hadv
        simp only at hadv
        rw [multiget_collect]
        simp only [hne, Nat.succ_ne_zero, or_self, if_false, Nat.add_sub_cancel]
        rw [hadv.1, hadv.2, hdrop]
        cases hdat : h.data (ptr_at h.created.length h.modified.length p).1 with
        | none =>
          simp only [Option.map_none', take_batch]
          exact ih (p + 1) (l + 1) hrefs (by omega)
        | some nfo =>
          simp only [Option.map_some', take_batch]
          rw [ih (p + 1) l (hrefs ++ [href_text L nfo]) (by omega)]
          simp [href_text, Nat.add_sub_add_right]

theorem take_batch_length_le (L : Lib) (left : Nat) (q : List (Option (Option String))) :
    (take_batch L left q).1.length ≤ left := by
  induction q generalizing left with
  | nil => simp [take_batch_nil]
  | cons a rest ih =>
    cases left with
    | zero => simp [take_batch]
    | succ l =>
      cases a with
      | none => simpa [take_batch] using ih (l + 1)
      | some e => simpa [take_batch] using ih l

theorem take_batch_suffix (L : Lib) (left : Nat) (q : List (Option (Option String))) :
    (take_batch L left q).2 <:+ q := by
  induction q generalizing left with
  | nil => simp [take_batch_nil]
  | cons a rest ih =>
    cases left with
    | zero => simp [take_batch]
    | succ l =>
      cases a with
      | none => simpa [take_batch] using (ih (l + 1)).trans (List.suffix_cons _ _)
      | some e => simpa [take_batch] using (ih l).trans (List.suffix_cons _ _)

theorem take_batch_rest_lt (L : Lib) (left : Nat) (q : List (Option (Option String)))
    (hl : 0 < left) (hq : q ≠ []) : (take_batch L left q).2.length < q.length := by
  cases q with
  | nil => exact absurd rfl hq
  | cons a rest =>
    cases left with
    | zero => omega
    | succ l =>
      cases a with
      | none =>
        have := (take_batch_suffix L (l + 1) rest).length_le
        simp only [take_batch, List.length_cons]; omega
      | some e =>
        have := (take_batch_suffix L l rest).length_le
        simp only [take_batch, List.length_cons]; omega

/-- A batch and what remains make up the `href` texts of the queue. -/
theorem take_batch_hrefs (L : Lib) (left : Nat) (q : List (Option (Option String))) :
    q.reduceOption.map (href_of_extra L)
      = (take_batch L left q).1 ++ (take_batch L left q).2.reduceOption.map (href_of_extra L) := by
  induction q generalizing left with
  | nil => simp [take_batch_nil]
  | cons a rest ih =>
    cases left with
    | zero => simp [take_batch]
    | succ l =>
      cases a with
      | none => simpa [take_batch, List.reduceOption_cons_of_none] using ih (l + 1)
      | some e => simpa [take_batch, List.reduceOption_cons_of_some] using ih l

/-- A batch that is not full leaves nothing behind. -/
theorem take_batch_short (L : Lib) (left : Nat) (q : List (Option (Option String)))
    (h : (take_batch L left q).1.length < left) : (take_batch L left q).2 = [] := by
  induction q generalizing left with
  | nil => simp [take_batch_nil]
  | cons a rest ih =>
    cases left with
    | zero => omega
    | succ l =>
      cases a with
      | none => simpa [take_batch] using ih (l + 1) (by simpa [take_batch] using h)
      | some e =>
        simp only [take_batch, List.length_cons] at h ⊢
        exact ih l (by omega)

theorem batches_length_le (L : Lib) (fuel : Nat) (q : List (Option (Option String))) :
    ∀ b ∈ batches L fuel q, b.length ≤ E_WEBDAV_MAX_MULTIGET_AMOUNT := by
  induction fuel generalizing q with
  | zero => simp [batches]
  | succ n ih =>
    intro b hb
    cases q with
    | nil => simp [batches] at hb
    | cons a rest =>
      simp only [batches] at hb
      split at hb
      · simp at hb
      · rename_i hd tl heq
        simp only [List.mem_cons] at hb
        rcases hb with hb | hb
        · rw [hb, ← heq]
          exact take_batch_length_le L _ _
        · exact ih _ b hb

theorem batches_flatten (L : Lib) (fuel : Nat) (q : List (Option (Option String)))
    (hf : q.length ≤ fuel) :
    (batches L fuel q).flatten = q.reduceOption.map (href_of_extra L) := by
  induction fuel generalizing q with
  | zero =>
    have : q = [] := List.length_eq_zero.mp (by omega)
    subst this
    simp [batches]
  | succ n ih =>
    cases q with
    | nil => simp [batches]
    | cons a rest =>
      have hlt := take_batch_rest_lt L E_WEBDAV_MAX_MULTIGET_AMOUNT (a :: rest)
        (by decide) (by simp)
      have hh := take_batch_hrefs L E_WEBDAV_MAX_MULTIGET_AMOUNT (a :: rest)
      have hs := take_batch_short L E_WEBDAV_MAX_MULTIGET_AMOUNT (a :: rest)
      simp only [batches]
      generalize take_batch L E_WEBDAV_MAX_MULTIGET_AMOUNT (a :: rest) = t at *
      split
      · rename_i heq
        rw [hh, heq, hs (by rw [heq]; decide)]
        simp
      · rename_i hd tl heq
        rw [List.flatten_cons, ih _ (by simp only [List.length_cons] at hlt hf; omega), hh, heq]

theorem batches_count (L : Lib) (fuel : Nat) (q : List (Option (Option String)))
    (hf : q.length ≤ fuel) :
    (batches L fuel q).length
      = ((q.reduceOption.map (href_of_extra L)).length + 99) / 100 := by
  induction fuel generalizing q with
  | zero =>
    have : q = [] := List.length_eq_zero.mp (by omega)
    subst this
    simp [batches]
  | succ n ih =>
    cases q with
    | nil => simp [batches]
    | cons a rest =>
      have hlt := take_batch_rest_lt L E_WEBDAV_MAX_MULTIGET_AMOUNT (a :: rest)
        (by decide) (by simp)
      have hh := take_batch_hrefs L E_WEBDAV_MAX_MULTIGET_AMOUNT (a :: rest)
      have hle := take_batch_length_le L E_WEBDAV_MAX_MULTIGET_AMOUNT (a :: rest)
      have hs := take_batch_short L E_WEBDAV_MAX_MULTIGET_AMOUNT (a :: rest)
      simp only [batches]
      generalize take_batch L E_WEBDAV_MAX_MULTIGET_AMOUNT (a :: rest) = t at *
      simp only [E_WEBDAV_MAX_MULTIGET_AMOUNT] at hle hs
      split
      · rename_i heq
        rw [hh, heq, hs (by rw [heq]; decide)]
        simp
      · rename_i hd tl heq
        rw [List.length_cons, ih _ (by simp only [List.length_cons] at hlt hf; omega), hh,
          List.length_append]
        by_cases hfull : t.1.length < 100
        · have hpos : 0 < t.1.length := by rw [heq]; simp
          rw [hs hfull]
          simp only [List.reduceOption_nil, List.map_nil, List.length_nil, Nat.add_zero]
          omega
        · have h100 : t.1.length = 100 := by omega
          rw [h100]
          omega

theorem refs_lengths (h h1 : PendingLists) (hr : h1.refs = h.refs) :
    h1.created.length = h.created.length ∧ h1.modified.length = h.modified.length ∧
    h1.queue_refs = h.queue_refs := by
  have h2 := congrArg (fun r => r.1.length) hr
  have h3 := congrArg (fun r => r.2.length) hr
  simp only [PendingLists.refs, List.length_map] at h2 h3
  exact ⟨h2, h3, by simp [PendingLists.queue_refs, hr]⟩

/-- One call of the batch builder with `p` nodes of the queue consumed: it cuts one batch off
the rest of the queue, issues it as one request unless it is empty, and leaves the cursor
behind the batch. -/
theorem multiget_from_sets_step (L : Lib) (report : Nat → List (Option String) → ReportReply)
    (st : MultigetState) (p : Nat)
    (hptr : (st.link, st.set2) = ptr_at st.lists.created.length st.lists.modified.length p)
    (hp : p < st.lists.created.length + st.lists.modified.length) :
    (ebb_webdav_multiget_from_sets_sync L report st).lists.refs = st.lists.refs ∧
    ((ebb_webdav_multiget_from_sets_sync L report st).link,
      (ebb_webdav_multiget_from_sets_sync L report st).set2)
      = ptr_at st.lists.created.length st.lists.modified.length
          (st.lists.created.length + st.lists.modified.length
            - (take_batch L E_WEBDAV_MAX_MULTIGET_AMOUNT (st.lists.queue_refs.drop p)).2.length) ∧
    ((take_batch L E_WEBDAV_MAX_MULTIGET_AMOUNT (st.lists.queue_refs.drop p)).1 = [] →
      (ebb_webdav_multiget_from_sets_sync L report st).requests = st.requests ∧
      (ebb_webdav_multiget_from_sets_sync L report st).success = true) ∧
    ((take_batch L E_WEBDAV_MAX_MULTIGET_AMOUNT (st.lists.queue_refs.drop p)).1 ≠ [] →
      (ebb_webdav_multiget_from_sets_sync L report st).requests
        = st.requests ++ [(take_batch L E_WEBDAV_MAX_MULTIGET_AMOUNT
            (st.lists.queue_refs.drop p)).1] ∧
      ((report st.requests.length (take_batch L E_WEBDAV_MAX_MULTIGET_AMOUNT
            (st.lists.queue_refs.drop p)).1).outcome = Outcome.ok →
        (ebb_webdav_multiget_from_sets_sync L report st).success = true) ∧
      ((report st.requests.length (take_batch L E_WEBDAV_MAX_MULTIGET_AMOUNT
            (st.lists.queue_refs.drop p)).1).outcome ≠ Outcome.ok →
        (ebb_webdav_multiget_from_sets_sync L report st).success = false)) := by
  rw [Prod.ext_iff] at hptr
  simp only at hptr
  have hne := ptr_at_ne_null _ _ p hp
  have hspec := multiget_collect_spec L st.lists
    (st.lists.created.length + st.lists.modified.length) p E_WEBDAV_MAX_MULTIGET_AMOUNT []
    (by omega)
  rw [← hptr.1, ← hptr.2] at hspec
  have hle := take_batch_length_le L E_WEBDAV_MAX_MULTIGET_AMOUNT (st.lists.queue_refs.drop p)
  refine ⟨multiget_from_sets_refs L report st, ?_, ?_, ?_⟩
  · unfold ebb_webdav_multiget_from_sets_sync
    rw [← hptr.1] at hne
    simp only [hne, if_false, hspec]
    split
    · split <;> rfl
    · rfl
  · intro hnil
    unfold ebb_webdav_multiget_from_sets_sync
    rw [← hptr.1] at hne
    simp only [hne, if_false, hspec, hnil, List.length_nil, Nat.sub_zero, ne_eq,
      not_true_eq_false, if_false]
    simp
  · intro hnn
    have hpos : 0 < (take_batch L E_WEBDAV_MAX_MULTIGET_AMOUNT
        (st.lists.queue_refs.drop p)).1.length := List.length_pos.mpr hnn
    have hcond : E_WEBDAV_MAX_MULTIGET_AMOUNT - (take_batch L E_WEBDAV_MAX_MULTIGET_AMOUNT
        (st.lists.queue_refs.drop p)).1.length ≠ E_WEBDAV_MAX_MULTIGET_AMOUNT := by
      have hE : E_WEBDAV_MAX_MULTIGET_AMOUNT = 100 := rfl
      rw [hE] at hle hpos ⊢
      omega
    unfold ebb_webdav_multiget_from_sets_sync
    rw [← hptr.1] at hne
    simp only [hne, if_false, hspec, hcond, ne_eq, not_false_eq_true, if_true, List.nil_append]
    cases ho : (report st.requests.length (take_batch L E_WEBDAV_MAX_MULTIGET_AMOUNT
        (st.lists.queue_refs.drop p)).1).outcome with
    | ok => simp
    | failed err => simp

theorem drop_of_suffix {α : Type} (l r : List α) (h : r <:+ l) :
    l.drop (l.length - r.length) = r := by
  obtain ⟨pre, rfl⟩ := h
  simp

/-- The batching loop, started with `p` nodes of the queue consumed: the requests it adds are
the batches of the rest of the queue up to the first request that fails, and all of them when
every request succeeds, in which case the loop ends with the queue exhausted. -/
theorem multiget_loop_spec (L : Lib) (report : Nat → List (Option String) → ReportReply)
    (q : List (Option (Option String))) (nc nm : Nat) (fuel : Nat) (st : MultigetState) (p : Nat)
    (hq : st.lists.queue_refs = q) (hnc : st.lists.created.length = nc)
    (hnm : st.lists.modified.length = nm)
    (hptr : (st.link, st.set2) = ptr_at nc nm p) (hp : p < nc + nm)
    (hfuel : nc + nm ≤ p + fuel) :
    (∃ k, (multiget_loop L report fuel st).requests
        = st.requests ++ (batches L fuel (q.drop p)).take k) ∧
    ((∀ n hs, (report n hs).outcome = Outcome.ok) →
      (multiget_loop L report fuel st).requests = st.requests ++ batches L fuel (q.drop p) ∧
      (multiget_loop L report fuel st).link = GSListPtr.null ∧
      (multiget_loop L report fuel st).success = true) := by
  induction fuel generalizing st p with
  | zero => omega
  | succ n ih =>
    subst hnc; subst hnm
    obtain ⟨hrefs, hptr1, hnil, hcons⟩ := multiget_from_sets_step L report st p hptr hp
    obtain ⟨hnc1, hnm1, hq1⟩ := refs_lengths _ _ hrefs
    have hqlen : q.length = st.lists.created.length + st.lists.modified.length := by
      rw [← hq, queue_refs_length]
    have hdne : q.drop p ≠ [] := by
      intro h
      have := congrArg List.length h
      simp at this
      omega
    have hlt := take_batch_rest_lt L E_WEBDAV_MAX_MULTIGET_AMOUNT (q.drop p) (by decide) hdne
    have hsuf : (take_batch L E_WEBDAV_MAX_MULTIGET_AMOUNT (q.drop p)).2 <:+ q :=
      (take_batch_suffix L _ _).trans (List.drop_suffix p q)
    have hdrop := drop_of_suffix q _ hsuf
    rw [hq] at hptr1 hnil hcons
    rw [Prod.ext_iff] at hptr1
    simp only at hptr1
    simp only [multiget_loop]
    obtain ⟨a, rest, hcr⟩ : ∃ a rest, q.drop p = a :: rest := by
      cases hd : q.drop p with
      | nil => exact absurd hd hdne
      | cons a rest => exact ⟨a, rest, rfl⟩
    have hbat : batches L (n + 1) (q.drop p)
        = match (take_batch L E_WEBDAV_MAX_MULTIGET_AMOUNT (q.drop p)).1 with
          | [] => []
          | hd :: tl =>
            (hd :: tl) :: batches L n (take_batch L E_WEBDAV_MAX_MULTIGET_AMOUNT (q.drop p)).2 := by
      rw [hcr]; rfl
    by_cases hb : (take_batch L E_WEBDAV_MAX_MULTIGET_AMOUNT (q.drop p)).1 = []
    · -- nothing left to fetch: the rest of the queue has no data
      have hrest := take_batch_short L E_WEBDAV_MAX_MULTIGET_AMOUNT (q.drop p)
        (by rw [hb]; decide)
      have hnull : (ebb_webdav_multiget_from_sets_sync L report st).link = GSListPtr.null := by
        rw [hptr1.1, hrest]
        simp [ptr_at_null]
      obtain ⟨hreq, hsucc⟩ := hnil hb
      have hcontF : ((ebb_webdav_multiget_from_sets_sync L report st).success
          && decide ((ebb_webdav_multiget_from_sets_sync L report st).link ≠ GSListPtr.null))
          = false := by simp [hnull]
      simp only [hcontF, Bool.false_eq_true, if_false]
      rw [hbat, hb]
      exact ⟨⟨0, by simp [hreq]⟩, fun _ => ⟨by simp [hreq], hnull, hsucc⟩⟩
    · obtain ⟨hreq, hsok, hsfail⟩ := hcons hb
      obtain ⟨hd, tl, hht⟩ : ∃ hd tl,
          (take_batch L E_WEBDAV_MAX_MULTIGET_AMOUNT (q.drop p)).1 = hd :: tl := by
        cases hh : (take_batch L E_WEBDAV_MAX_MULTIGET_AMOUNT (q.drop p)).1 with
        | nil => exact absurd hh hb
        | cons hd tl => exact ⟨hd, tl, rfl⟩
      have hbat1 : batches L (n + 1) (q.drop p)
          = (take_batch L E_WEBDAV_MAX_MULTIGET_AMOUNT (q.drop p)).1
            :: batches L n (take_batch L E_WEBDAV_MAX_MULTIGET_AMOUNT (q.drop p)).2 := by
        rw [hbat, hht]
      by_cases hcont : ((ebb_webdav_multiget_from_sets_sync L report st).success
          && decide ((ebb_webdav_multiget_from_sets_sync L report st).link ≠ GSListPtr.null))
          = true
      · -- the loop goes on behind the batch
        simp only [hcont, if_true]
        simp only [Bool.and_eq_true, decide_eq_true_eq] at hcont
        have hp1 : st.lists.created.length + st.lists.modified.length
            - (take_batch L E_WEBDAV_MAX_MULTIGET_AMOUNT (q.drop p)).2.length
            < st.lists.created.length + st.lists.modified.length := by
          by_contra hge
          apply hcont.2
          rw [hptr1.1, ptr_at_null _ _ _ (by omega)]
        have hlen2 : (take_batch L E_WEBDAV_MAX_MULTIGET_AMOUNT (q.drop p)).2.length
            < q.length - p := by simpa using hlt
        have hih := ih (ebb_webdav_multiget_from_sets_sync L report st)
          (st.lists.created.length + st.lists.modified.length
            - (take_batch L E_WEBDAV_MAX_MULTIGET_AMOUNT (q.drop p)).2.length)
          (by rw [hq1, hq]) hnc1 hnm1
          (by rw [Prod.ext_iff]; exact ⟨hptr1.1, hptr1.2⟩) hp1 (by omega)
        rw [← hqlen, hdrop, hreq] at hih
        obtain ⟨⟨k, hk⟩, hall⟩ := hih
        refine ⟨⟨k + 1, ?_⟩, ?_⟩
        · rw [hk, hbat1]; simp
        · intro hok
          obtain ⟨h1, h2, h3⟩ := hall hok
          exact ⟨by rw [h1, hbat1]; simp, h2, h3⟩
      · -- the loop stops: the request failed, or the queue is exhausted
        simp only [hcont, if_false, Bool.false_eq_true]
        refine ⟨⟨1, by rw [hreq, hbat1]; simp⟩, ?_⟩
        intro hok
        have hs := hsok (hok _ _)
        have hnull : (ebb_webdav_multiget_from_sets_sync L report st).link = GSListPtr.null := by
          by_contra hne
          exact hcont (by simp [hs, hne])
        have hrest : (take_batch L E_WEBDAV_MAX_MULTIGET_AMOUNT (q.drop p)).2 = [] := by
          by_contra hne
          have hpos := List.length_pos.mpr hne
          have hlen2 : (take_batch L E_WEBDAV_MAX_MULTIGET_AMOUNT (q.drop p)).2.length
              < q.length - p := by simpa using hlt
          rw [hptr1.1] at hnull
          exact ptr_at_ne_null _ _ _ (by omega) hnull
        refine ⟨?_, hnull, hs⟩
        rw [hreq, hbat1, hrest]
        cases n <;> simp [batches]

set_option maxRecDepth 100000

theorem flatten_take_prefix {α : Type} (l : List (List α)) (k : Nat) :
    (l.take k).flatten <+: l.flatten := by
  conv_rhs => rw [← List.take_append_drop k l]
  rw [List.flatten_append]
  exact List.prefix_append _ _

theorem queue_refs_hrefs (L : Lib) (lists : PendingLists) :
    lists.queue_refs.reduceOption.map (href_of_extra L) = pending_hrefs L lists := by
  simp only [PendingLists.queue_refs, PendingLists.refs, pending_hrefs, ← List.map_append,
    List.reduceOption_map, List.map_map]
  rfl

/-- The batched fetch issues the batches of the pending queue, up to the first request that
fails. -/
theorem multiget_all_spec (L : Lib) (report : Nat → List (Option String) → ReportReply)
    (lists : PendingLists) (error : Option GError) :
    (∃ k, (multiget_all L report lists error).requests
        = (batches L (lists.created.length + lists.modified.length) lists.queue_refs).take k) ∧
    ((∀ n hs, (report n hs).outcome = Outcome.ok) →
      (multiget_all L report lists error).requests
        = batches L (lists.created.length + lists.modified.length) lists.queue_refs ∧
      (multiget_all L report lists error).link = GSListPtr.null ∧
      (multiget_all L report lists error).success = true) := by
  by_cases hT : lists.created.length + lists.modified.length = 0
  · have hc : lists.created = [] := List.length_eq_zero.mp (by omega)
    have hm : lists.modified = [] := List.length_eq_zero.mp (by omega)
    simp only [multiget_all, hc, hm, List.length_nil, Nat.add_zero, multiget_loop, batches,
      PendingLists.modified_head]
    simp
  · unfold multiget_all
    cases hc : lists.created with
    | nil =>
      simp only [List.length_nil, Nat.zero_add]
      have hm : 0 < lists.modified.length := by
        rw [hc] at hT; simpa [Nat.pos_iff_ne_zero] using hT
      have := multiget_loop_spec L report lists.queue_refs 0 lists.modified.length
        lists.modified.length
        { lists := lists, link := lists.modified_head, set2 := GSListPtr.null, success := true,
          error := error, requests := [] } 0 rfl (by simp [hc]) rfl
        (by simp [modified_head_eq, ptr_at, Nat.pos_iff_ne_zero.mp hm, hm]) (by omega) (by omega)
      simpa using this
    | cons a rest =>
      have := multiget_loop_spec L report lists.queue_refs lists.created.length
        lists.modified.length (lists.created.length + lists.modified.length)
        { lists := lists, link := lists.created_head, set2 := lists.modified_head,
          success := true, error := error, requests := [] } 0 rfl rfl rfl
        (by simp [modified_head_eq, created_head_eq, ptr_at, hc]) (by simp [hc]) (by omega)
      simpa [hc] using this

/-- C8 (as stated, refuted): with 101 pending references (60 created, 41 modified) and a
server on which the batched-detail request fails, the fetcher issues one request, not two,
and the 101st reference is in no request. -/
theorem c8_counterexample_failed_request :
    (pending_hrefs example_lib example_queue).length = 101 ∧
    (multiget_all example_lib example_failing_report example_queue none).requests.length = 1 ∧
    href_of_extra example_lib (some (String.mk ('/' :: List.replicate 101 'x'))) ∉
      (multiget_all example_lib example_failing_report example_queue none).requests.flatten := by
  decide

/-- One call of the batch builder issues no request, or one request whose reply decides the
return value. -/
theorem multiget_from_sets_requests (L : Lib) (report : Nat → List (Option String) → ReportReply)
    (st : MultigetState) :
    (ebb_webdav_multiget_from_sets_sync L report st).requests = st.requests ∨
    ∃ hrefs, (ebb_webdav_multiget_from_sets_sync L report st).requests = st.requests ++ [hrefs] ∧
      ((report st.requests.length hrefs).outcome = Outcome.ok →
        (ebb_webdav_multiget_from_sets_sync L report st).success = true) ∧
      ((report st.requests.length hrefs).outcome ≠ Outcome.ok →
        (ebb_webdav_multiget_from_sets_sync L report st).success = false) := by
  unfold ebb_webdav_multiget_from_sets_sync
  split
  · exact Or.inl rfl
  · simp only
    split
    · right
      split
      · rename_i heq
        exact ⟨_, rfl, fun _ => rfl, fun h => absurd heq h⟩
      · rename_i err heq
        refine ⟨_, rfl, fun h => ?_, fun _ => rfl⟩
        rw [heq] at h
        cases h
    · exact Or.inl rfl

/-- The batching loop stops at the first request that fails: it keeps the requests issued
before, and a request it added whose reply is a failure is the last request, after which the
loop has ended without success. -/
theorem multiget_loop_stops (L : Lib) (report : Nat → List (Option String) → ReportReply)
    (fuel : Nat) (st : MultigetState) :
    (∃ added, (multiget_loop L report fuel st).requests = st.requests ++ added) ∧
    ∀ n hs, st.requests.length ≤ n → (multiget_loop L report fuel st).requests[n]? = some hs →
      (report n hs).outcome ≠ Outcome.ok →
      (multiget_loop L report fuel st).requests.length = n + 1 ∧
      (multiget_loop L report fuel st).success = false := by
  induction fuel generalizing st with
  | zero =>
    refine ⟨⟨[], by simp [multiget_loop]⟩, ?_⟩
    intro n hs hn hget _
    simp only [multiget_loop] at hget
    have : st.requests[n]? = none := List.getElem?_eq_none_iff.mpr hn
    rw [this] at hget
    cases hget
  | succ k ih =>
    simp only [multiget_loop]
    obtain ⟨⟨added, hadd⟩, hstop⟩ := ih (ebb_webdav_multiget_from_sets_sync L report st)
    rcases multiget_from_sets_requests L report st with h1 | ⟨hrefs, h1, hok, hfail⟩
    · split
      · refine ⟨⟨added, by rw [hadd, h1]⟩, ?_⟩
        intro n hs hn hget hne
        exact hstop n hs (by rw [h1]; exact hn) hget hne
      · refine ⟨⟨[], by rw [h1]; simp⟩, ?_⟩
        intro n hs hn hget _
        rw [h1] at hget
        have : st.requests[n]? = none := List.getElem?_eq_none_iff.mpr hn
        rw [this] at hget
        cases hget
    · split
      · rename_i hcont
        simp only [Bool.and_eq_true, decide_eq_true_eq] at hcont
        refine ⟨⟨hrefs :: added, by rw [hadd, h1]; simp⟩, ?_⟩
        intro n hs hn hget hne
        by_cases hlt : n = st.requests.length
        · exfalso
          rw [hadd, h1, hlt] at hget
          have hg : (st.requests ++ [hrefs] ++ added)[st.requests.length]? = some hrefs := by
            rw [List.append_assoc, List.getElem?_append_right (le_refl _)]
            simp
          rw [hg] at hget
          injection hget with hget
          subst hget
          rw [hlt] at hne
          have := hfail hne
          rw [hcont.1] at this
          cases this
        · exact hstop n hs (by rw [h1]; simp; omega) hget hne
      · refine ⟨⟨[hrefs], h1⟩, ?_⟩
        intro n hs hn hget hne
        rw [h1] at hget ⊢
        have hn2 : n = st.requests.length := by
          by_contra hcon
          have : (st.requests ++ [hrefs])[n]? = none := by
            apply List.getElem?_eq_none_iff.mpr
            simp; omega
          rw [this] at hget
          cases hget
        subst hn2
        have hg : (st.requests ++ [hrefs])[st.requests.length]? = some hrefs := by
          rw [List.getElem?_append_right (le_refl _)]
          simp
        rw [hg] at hget
        injection hget with hget
        subst hget
        exact ⟨by simp, hfail hne⟩

/-- The batched fetch of a sync pass stops at the first request that fails. -/
theorem multiget_all_stops (L : Lib) (report : Nat → List (Option String) → ReportReply)
    (lists : PendingLists) (error : Option GError) (n : Nat) (hs : List (Option String))
    (hget : (multiget_all L report lists error).requests[n]? = some hs)
    (hne : (report n hs).outcome ≠ Outcome.ok) :
    (multiget_all L report lists error).requests.length = n + 1 ∧
    (multiget_all L report lists error).success = false := by
  unfold multiget_all at hget ⊢
  split at hget
  · rename_i heq
    simp only [heq] at hget ⊢
    exact (multiget_loop_stops L report _ _).2 n hs (by simp) hget hne
  · rename_i heq
    simp only [heq] at hget ⊢
    exact (multiget_loop_stops L report _ _).2 n hs (by simp) hget hne


/-- C8 (amended): for the two pending lists of a sync pass, taken as one queue (created list
first), no batched-detail request carries more than 100 references, the references of the
requests, in the order issued, are an initial segment of the pending references in queue order
(no reference is requested twice), and at most ceil(N/100) requests are issued for N pending
references; when every request succeeds, exactly ceil(N/100) requests are issued, together
they carry exactly the pending references in queue order, and the fetch ends successfully with
the queue exhausted.  The fetcher stops at the first request that fails: a request the server
answers with a failure is the last request issued, and the fetch ends without success. -/
theorem c8_batches_of_pending_queue (L : Lib)
    (report : Nat → List (Option String) → ReportReply) (lists : PendingLists)
    (error : Option GError) :
    (∀ r ∈ (multiget_all L report lists error).requests, r.length ≤ 100) ∧
    (multiget_all L report lists error).requests.flatten <+: pending_hrefs L lists ∧
    (multiget_all L report lists error).requests.length
      ≤ ((pending_hrefs L lists).length + 99) / 100 ∧
    ((∀ n hs, (report n hs).outcome = Outcome.ok) →
      (multiget_all L report lists error).requests.length
        = ((pending_hrefs L lists).length + 99) / 100 ∧
      (multiget_all L report lists error).requests.flatten = pending_hrefs L lists ∧
      (multiget_all L report lists error).link = GSListPtr.null ∧
      (multiget_all L report lists error).success = true) ∧
    (∀ n hs, (multiget_all L report lists error).requests[n]? = some hs →
      (report n hs).outcome ≠ Outcome.ok →
      (multiget_all L report lists error).requests.length = n + 1 ∧
      (multiget_all L report lists error).success = false) := by
  obtain ⟨⟨k, hk⟩, hall⟩ := multiget_all_spec L report lists error
  have hfl := batches_flatten L (lists.created.length + lists.modified.length) lists.queue_refs
    (by rw [queue_refs_length])
  have hcnt := batches_count L (lists.created.length + lists.modified.length) lists.queue_refs
    (by rw [queue_refs_length])
  rw [queue_refs_hrefs] at hfl hcnt
  refine ⟨?_, ?_, ?_, ?_, ?_⟩
  · intro r hr
    rw [hk] at hr
    exact batches_length_le L _ _ r (List.mem_of_mem_take hr)
  · rw [hk, ← hfl]
    exact flatten_take_prefix _ k
  · rw [hk, ← hcnt, List.length_take]
    exact Nat.min_le_right _ _
  · intro hok
    obtain ⟨h1, h2, h3⟩ := hall hok
    exact ⟨by rw [h1, hcnt], by rw [h1, hfl], h2, h3⟩
  · intro n hs hget hne
    exact multiget_all_stops L report lists error n hs hget hne

/-- C8 (amended) at a concrete queue: 60 created and 41 modified records against a server that
answers every request: two requests are issued and together they carry the 101 references;
against a server on which every request fails: the first request, with the first 100
references, is the only one, and the fetch ends without success. -/
theorem c8_batches_of_pending_queue_witness :
    ((multiget_all example_lib example_report example_queue none).requests.length
      = ((pending_hrefs example_lib example_queue).length + 99) / 100 ∧
    (multiget_all example_lib example_report example_queue none).requests.flatten
      = pending_hrefs example_lib example_queue ∧
    (multiget_all example_lib example_report example_queue none).link = GSListPtr.null ∧
    (multiget_all example_lib example_report example_queue none).success = true) ∧
    ((multiget_all example_lib example_failing_report example_queue none).requests.length
      = 0 + 1 ∧
    (multiget_all example_lib example_failing_report example_queue none).success = false) :=
  ⟨(c8_batches_of_pending_queue example_lib example_report example_queue none).2.2.2.1
      (fun _ _ => rfl),
   (c8_batches_of_pending_queue example_lib example_failing_report example_queue
      none).2.2.2.2 0 ((pending_hrefs example_lib example_queue).take 100) (by decide)
      (by decide)⟩

/-! ## C9: matching the responses of a batched-detail request -/

/-- C9 (the code at the failing input): the listing returns `/book/A` with a new etag and the
new resource `/book/B`; the cache holds `/book/A`.  One batched-detail request carries both
references, the created one and the modified one, and the server answers with both cards.
The created record is filled from its card; the modified record, taken from the second list
to fill the batch, is left without content although its card was in the response.  When the
same modified record is fetched in a batch that starts in the modified list, it is filled. -/
theorem c9_straddling_batch_leaves_modified_unfilled :
    (ebb_webdav_get_changes_sync example_lib
        (example_env [example_item "/book/A" "etag2", example_item "/book/B" "etag3"]
          [example_row "u1" "etag1" "/book/A"]) example_priv none).requests
      = [Request.propfind, Request.cache_search,
         Request.report [some "/book/B", some "/book/A"]] ∧
    (example_report 0 [some "/book/B", some "/book/A"]).items
      = [example_card "/book/B", example_card "/book/A"] ∧
    (ebb_webdav_get_changes_sync example_lib
        (example_env [example_item "/book/A" "etag2", example_item "/book/B" "etag3"]
          [example_row "u1" "etag1" "/book/A"]) example_priv none).out_created_objects
      = [{ uid := some "card of /book/B", revision := some "fresh",
           object := some "card of /book/B", extra := some "/book/B" }] ∧
    (ebb_webdav_get_changes_sync example_lib
        (example_env [example_item "/book/A" "etag2", example_item "/book/B" "etag3"]
          [example_row "u1" "etag1" "/book/A"]) example_priv none).out_modified_objects
      = [{ uid := some "u1", revision := some "etag2", object := none,
           extra := some "/book/A" }] ∧
    (ebb_webdav_get_changes_sync example_lib
        (example_env [example_item "/book/A" "etag2"]
          [example_row "u1" "etag1" "/book/A"]) example_priv none).out_modified_objects
      = [{ uid := some "u1", revision := some "fresh", object := some "card of /book/A",
           extra := some "/book/A" }] := by
  decide

/-! ## C10: the error classifier -/

/-- C10 (as stated, refuted): without a session, a TLS failure is left as it is. -/
theorem c10_counterexample_tls_without_session :
    ebb_webdav_check_credentials_error { example_priv with webdav := none }
        { code := GErrorCode.SOUP_HTTP_ERROR SOUP_STATUS_SSL_FAILED, message := "TLS" }
      = { code := GErrorCode.SOUP_HTTP_ERROR SOUP_STATUS_SSL_FAILED, message := "TLS" } := by
  decide

/-- C10 (amended): the classifier keeps the message of the error; it turns a TLS failure into
"TLS not available" when the session exists and leaves it unchanged when there is no session;
it turns unauthorized and forbidden into "authentication failed" when the session exists and
holds non-empty credentials and into "authentication required" otherwise; it leaves every
other error unchanged, in particular the two cancellation errors. -/
theorem c10_classifier (priv : EBookBackendWebDAVPrivate) (e : GError) :
    (ebb_webdav_check_credentials_error priv e).message = e.message ∧
    (e.code = GErrorCode.SOUP_HTTP_ERROR SOUP_STATUS_SSL_FAILED → priv.webdav.isSome = true →
      (ebb_webdav_check_credentials_error priv e).code
        = GErrorCode.E_DATA_BOOK_ERROR EDataBookStatus.TLS_NOT_AVAILABLE) ∧
    (e.code = GErrorCode.SOUP_HTTP_ERROR SOUP_STATUS_SSL_FAILED → priv.webdav = none →
      ebb_webdav_check_credentials_error priv e = e) ∧
    (e.code = GErrorCode.SOUP_HTTP_ERROR SOUP_STATUS_UNAUTHORIZED ∨
        e.code = GErrorCode.SOUP_HTTP_ERROR SOUP_STATUS_FORBIDDEN →
      credentials_supplied priv = true →
      (ebb_webdav_check_credentials_error priv e).code
        = GErrorCode.E_DATA_BOOK_ERROR EDataBookStatus.AUTHENTICATION_FAILED) ∧
    (e.code = GErrorCode.SOUP_HTTP_ERROR SOUP_STATUS_UNAUTHORIZED ∨
        e.code = GErrorCode.SOUP_HTTP_ERROR SOUP_STATUS_FORBIDDEN →
      credentials_supplied priv = false →
      (ebb_webdav_check_credentials_error priv e).code
        = GErrorCode.E_DATA_BOOK_ERROR EDataBookStatus.AUTHENTICATION_REQUIRED) ∧
    (e.code ≠ GErrorCode.SOUP_HTTP_ERROR SOUP_STATUS_SSL_FAILED →
      e.code ≠ GErrorCode.SOUP_HTTP_ERROR SOUP_STATUS_UNAUTHORIZED →
      e.code ≠ GErrorCode.SOUP_HTTP_ERROR SOUP_STATUS_FORBIDDEN →
      ebb_webdav_check_credentials_error priv e = e) ∧
    (e.code = GErrorCode.SOUP_HTTP_ERROR SOUP_STATUS_CANCELLED ∨
        e.code = GErrorCode.G_IO_ERROR GIOErrorEnum.CANCELLED →
      ebb_webdav_check_credentials_error priv e = e) := by
  have hgen : e.code ≠ GErrorCode.SOUP_HTTP_ERROR SOUP_STATUS_SSL_FAILED →
      e.code ≠ GErrorCode.SOUP_HTTP_ERROR SOUP_STATUS_UNAUTHORIZED →
      e.code ≠ GErrorCode.SOUP_HTTP_ERROR SOUP_STATUS_FORBIDDEN →
      ebb_webdav_check_credentials_error priv e = e := by
    intro h1 h2 h3
    simp [ebb_webdav_check_credentials_error, g_error_matches, h1, h2, h3]
  refine ⟨?_, ?_, ?_, ?_, ?_, hgen, ?_⟩
  · unfold ebb_webdav_check_credentials_error
    split
    · rfl
    · split
      · split
        · split
          · split <;> rfl
          · rfl
        · rfl
      · rfl
  · intro h1 h2
    simp [ebb_webdav_check_credentials_error, g_error_matches, h1, h2]
  · intro h1 h2
    simp [ebb_webdav_check_credentials_error, g_error_matches, h1, h2, SOUP_STATUS_SSL_FAILED,
      SOUP_STATUS_UNAUTHORIZED, SOUP_STATUS_FORBIDDEN]
  · intro h1 h2
    unfold credentials_supplied at h2
    rcases h1 with h1 | h1
    · cases hw : priv.webdav with
      | none => simp [hw] at h2
      | some w =>
        cases hc : w.credentials with
        | none => simp [hw, hc] at h2
        | some c =>
          simp only [hw, hc, decide_eq_true_eq] at h2
          simp [ebb_webdav_check_credentials_error, g_error_matches, h1, hw, hc, h2,
            SOUP_STATUS_SSL_FAILED, SOUP_STATUS_UNAUTHORIZED, SOUP_STATUS_FORBIDDEN]
    · cases hw : priv.webdav with
      | none => simp [hw] at h2
      | some w =>
        cases hc : w.credentials with
        | none => simp [hw, hc] at h2
        | some c =>
          simp only [hw, hc, decide_eq_true_eq] at h2
          simp [ebb_webdav_check_credentials_error, g_error_matches, h1, hw, hc, h2,
            SOUP_STATUS_SSL_FAILED, SOUP_STATUS_UNAUTHORIZED, SOUP_STATUS_FORBIDDEN]
  · intro h1 h2
    unfold credentials_supplied at h2
    rcases h1 with h1 | h1
    · cases hw : priv.webdav with
      | none =>
        simp [ebb_webdav_check_credentials_error, g_error_matches, h1, hw,
          SOUP_STATUS_SSL_FAILED, SOUP_STATUS_UNAUTHORIZED, SOUP_STATUS_FORBIDDEN]
      | some w =>
        cases hc : w.credentials with
        | none =>
          simp [ebb_webdav_check_credentials_error, g_error_matches, h1, hw, hc,
            SOUP_STATUS_SSL_FAILED, SOUP_STATUS_UNAUTHORIZED, SOUP_STATUS_FORBIDDEN]
        | some c =>
          simp only [hw, hc, decide_eq_false_iff_not] at h2
          simp [ebb_webdav_check_credentials_error, g_error_matches, h1, hw, hc, h2,
            SOUP_STATUS_SSL_FAILED, SOUP_STATUS_UNAUTHORIZED, SOUP_STATUS_FORBIDDEN]
    · cases hw : priv.webdav with
      | none =>
        simp [ebb_webdav_check_credentials_error, g_error_matches, h1, hw,
          SOUP_STATUS_SSL_FAILED, SOUP_STATUS_UNAUTHORIZED, SOUP_STATUS_FORBIDDEN]
      | some w =>
        cases hc : w.credentials with
        | none =>
          simp [ebb_webdav_check_credentials_error, g_error_matches, h1, hw, hc,
            SOUP_STATUS_SSL_FAILED, SOUP_STATUS_UNAUTHORIZED, SOUP_STATUS_FORBIDDEN]
        | some c =>
          simp only [hw, hc, decide_eq_false_iff_not] at h2
          simp [ebb_webdav_check_credentials_error, g_error_matches, h1, hw, hc, h2,
            SOUP_STATUS_SSL_FAILED, SOUP_STATUS_UNAUTHORIZED, SOUP_STATUS_FORBIDDEN]
  · intro h
    apply hgen
    · rcases h with h | h <;> rw [h] <;> decide
    · rcases h with h | h <;> rw [h] <;> decide
    · rcases h with h | h <;> rw [h] <;> decide

/-- C10 (amended) at concrete errors of a session that holds credentials: unauthorized becomes
"authentication failed", a TLS failure becomes "TLS not available", and a cancellation stays
what it is. -/
theorem c10_classifier_witness :
    (ebb_webdav_check_credentials_error example_priv
        { code := GErrorCode.SOUP_HTTP_ERROR SOUP_STATUS_UNAUTHORIZED, message := "m" }).code
      = GErrorCode.E_DATA_BOOK_ERROR EDataBookStatus.AUTHENTICATION_FAILED ∧
    (ebb_webdav_check_credentials_error example_priv
        { code := GErrorCode.SOUP_HTTP_ERROR SOUP_STATUS_SSL_FAILED, message := "m" }).code
      = GErrorCode.E_DATA_BOOK_ERROR EDataBookStatus.TLS_NOT_AVAILABLE ∧
    ebb_webdav_check_credentials_error example_priv
        { code := GErrorCode.SOUP_HTTP_ERROR SOUP_STATUS_CANCELLED, message := "m" }
      = { code := GErrorCode.SOUP_HTTP_ERROR SOUP_STATUS_CANCELLED, message := "m" } :=
  ⟨(c10_classifier example_priv
      { code := GErrorCode.SOUP_HTTP_ERROR SOUP_STATUS_UNAUTHORIZED, message := "m" }).2.2.2.1
      (Or.inl rfl) rfl,
   (c10_classifier example_priv
      { code := GErrorCode.SOUP_HTTP_ERROR SOUP_STATUS_SSL_FAILED, message := "m" }).2.1 rfl rfl,
   (c10_classifier example_priv
      { code := GErrorCode.SOUP_HTTP_ERROR SOUP_STATUS_CANCELLED, message := "m" }).2.2.2.2.2.2
      (Or.inl rfl)⟩

/-! ## C11: the authentication result of connect -/

/-! ## C11: the authentication result of connect -/

/-- C11 (as stated, refuted): a connect without credentials whose capability probe is answered
"unauthorized" reports Rejected, not Required, when the authentication of the session does not
require credentials; and a connect on a backend that already holds a session returns success
without reporting any result. -/
theorem c11_counterexample_credentials_not_required :
    (ebb_webdav_connect_sync example_lib
        (example_connect_env (example_options_failed SOUP_STATUS_UNAUTHORIZED) false)
        example_unconnected example_source_uri none).out_auth_result
      = some ESourceAuthenticationResult.REJECTED ∧
    (ebb_webdav_connect_sync example_lib
        (example_connect_env (example_options_failed SOUP_STATUS_FORBIDDEN) false)
        example_unconnected example_source_uri none).out_auth_result
      = some ESourceAuthenticationResult.ERROR ∧
    (ebb_webdav_connect_sync example_lib (example_connect_env example_options_ok true)
        example_priv example_source_uri none).success = true ∧
    (ebb_webdav_connect_sync example_lib (example_connect_env example_options_ok true)
        example_priv example_source_uri none).out_auth_result = none := by
  decide

theorem outcome_ok_no_error (o : Outcome) (h : o.is_ok = true) : o.error_of = none := by
  cases o with
  | ok => rfl
  | failed e => simp [Outcome.is_ok] at h

theorem connect_probe_parent_no_error (L : Lib) (env : ConnectEnv) (soup_uri : SoupURI)
    (path : String) (st : ProbeState) (hst : st.success = true → st.local_error = none) :
    (connect_probe_parent L env soup_uri path st).success = true →
    (connect_probe_parent L env soup_uri path st).local_error = none := by
  unfold connect_probe_parent
  simp only
  repeat' (first | exact hst | exact outcome_ok_no_error _ | split)

/-- A capability probe that succeeded left no error behind. -/
theorem connect_probe_no_error (L : Lib) (env : ConnectEnv) (source_uri : Option SoupURI) :
    (connect_probe L env source_uri).success = true →
    (connect_probe L env source_uri).local_error = none := by
  have h0 : ({ success := (env.options 0 none).outcome.is_ok,
               local_error := (env.options 0 none).outcome.error_of,
               capabilities := (env.options 0 none).capabilities,
               allows := (env.options 0 none).allows,
               requests := [Request.options none] } : ProbeState).success = true →
      ({ success := (env.options 0 none).outcome.is_ok,
         local_error := (env.options 0 none).outcome.error_of,
         capabilities := (env.options 0 none).capabilities,
         allows := (env.options 0 none).allows,
         requests := [Request.options none] } : ProbeState).local_error = none :=
    outcome_ok_no_error _
  unfold connect_probe
  simp only
  repeat' (first | exact h0 | exact connect_probe_parent_no_error L env _ _ _ h0
                 | (intro _; rfl) | split)

/-- C11 (amended): the authentication result of connect.
A connect on a backend that already has a session returns success at once, issues no request
and writes no result.  On a backend without a session:
when the capability probe fails, connect fails and reports what the failure branch decides
from the error the probe left (for a first probe whose error is not the HTTP not-found, that
is the error of that probe);
when the probe succeeds on an address book and the change-tag probe fails with unauthorized,
connect fails and reports what the failure branch decides from that error;
when the probe succeeds on an address book and the change-tag probe does not fail with
unauthorized, connect succeeds and reports Accepted;
when the probe succeeds on something that is not an address book, connect fails with the
invalid-data error and reports Error.
The failure branch maps: a TLS failure to ErrorTLS with the certificate details retrieved; an
HTTP cancellation to Error with the error rewritten to the generic cancelled error; forbidden
to Required when no credentials were given and the session requires credentials, else Error;
unauthorized to Required under the same test, else Rejected; connection-refused to Rejected;
the I/O not-found error to Rejected when the session does not require credentials, else Error;
everything else, and no error at all, to Error. -/
theorem c11_auth_outcome_rules (L : Lib) (env : ConnectEnv) (priv : EBookBackendWebDAVPrivate)
    (source_uri : Option SoupURI) (credentials : Option ENamedParameters) :
    (priv.webdav.isSome = true →
      (ebb_webdav_connect_sync L env priv source_uri credentials).success = true ∧
      (ebb_webdav_connect_sync L env priv source_uri credentials).out_auth_result = none ∧
      (ebb_webdav_connect_sync L env priv source_uri credentials).requests = [] ∧
      (ebb_webdav_connect_sync L env priv source_uri credentials).priv = priv) ∧
    (priv.webdav = none → (connect_probe L env source_uri).success = false →
      (ebb_webdav_connect_sync L env priv source_uri credentials).success = false ∧
      (ebb_webdav_connect_sync L env priv source_uri credentials).out_auth_result
        = some (connect_failure credentials env.authentication_requires_credentials
            (connect_probe L env source_uri).local_error).auth_result ∧
      (ebb_webdav_connect_sync L env priv source_uri credentials).error
        = (connect_failure credentials env.authentication_requires_credentials
            (connect_probe L env source_uri).local_error).local_error ∧
      (ebb_webdav_connect_sync L env priv source_uri credentials).ssl_details_retrieved
        = (connect_failure credentials env.authentication_requires_credentials
            (connect_probe L env source_uri).local_error).is_ssl_error ∧
      (ebb_webdav_connect_sync L env priv source_uri credentials).priv.webdav = none) ∧
    (priv.webdav = none → (connect_probe L env source_uri).success = true →
      strcase_table_contains L (connect_probe L env source_uri).capabilities
        E_WEBDAV_CAPABILITY_ADDRESSBOOK = true →
      env.getctag.is_ok = false →
      g_error_matches env.getctag.error_of
        (GErrorCode.SOUP_HTTP_ERROR SOUP_STATUS_UNAUTHORIZED) = true →
      (ebb_webdav_connect_sync L env priv source_uri credentials).success = false ∧
      (ebb_webdav_connect_sync L env priv source_uri credentials).out_auth_result
        = some (connect_failure credentials env.authentication_requires_credentials
            env.getctag.error_of).auth_result ∧
      (ebb_webdav_connect_sync L env priv source_uri credentials).error
        = (connect_failure credentials env.authentication_requires_credentials
            env.getctag.error_of).local_error ∧
      (ebb_webdav_connect_sync L env priv source_uri credentials).priv.webdav = none) ∧
    (priv.webdav = none → (connect_probe L env source_uri).success = true →
      strcase_table_contains L (connect_probe L env source_uri).capabilities
        E_WEBDAV_CAPABILITY_ADDRESSBOOK = true →
      (env.getctag.is_ok = true ∨
        g_error_matches env.getctag.error_of
          (GErrorCode.SOUP_HTTP_ERROR SOUP_STATUS_UNAUTHORIZED) = false) →
      (ebb_webdav_connect_sync L env priv source_uri credentials).success = true ∧
      (ebb_webdav_connect_sync L env priv source_uri credentials).out_auth_result
        = some ESourceAuthenticationResult.ACCEPTED ∧
      (ebb_webdav_connect_sync L env priv source_uri credentials).error = none ∧
      (ebb_webdav_connect_sync L env priv source_uri credentials).priv.webdav.isSome = true) ∧
    (priv.webdav = none → (connect_probe L env source_uri).success = true →
      strcase_table_contains L (connect_probe L env source_uri).capabilities
        E_WEBDAV_CAPABILITY_ADDRESSBOOK = false →
      (ebb_webdav_connect_sync L env priv source_uri credentials).success = false ∧
      (ebb_webdav_connect_sync L env priv source_uri credentials).out_auth_result
        = some ESourceAuthenticationResult.ERROR ∧
      (ebb_webdav_connect_sync L env priv source_uri credentials).error
        = some (not_address_book_error (source_uri.bind L.soup_uri_to_string))) ∧
    (g_error_matches (env.options 0 none).outcome.error_of
        (GErrorCode.SOUP_HTTP_ERROR SOUP_STATUS_NOT_FOUND) = false →
      connect_probe L env source_uri
        = { success := (env.options 0 none).outcome.is_ok,
            local_error := (env.options 0 none).outcome.error_of,
            capabilities := (env.options 0 none).capabilities,
            allows := (env.options 0 none).allows,
            requests := [Request.options none] }) ∧
    (∀ (requires_credentials : Bool) (e : GError),
      (e.code = GErrorCode.SOUP_HTTP_ERROR SOUP_STATUS_SSL_FAILED →
        connect_failure credentials requires_credentials (some e)
          = { auth_result := ESourceAuthenticationResult.ERROR_SSL_FAILED,
              local_error := some e, is_ssl_error := true }) ∧
      (e.code = GErrorCode.SOUP_HTTP_ERROR SOUP_STATUS_CANCELLED →
        connect_failure credentials requires_credentials (some e)
          = { auth_result := ESourceAuthenticationResult.ERROR,
              local_error := some { e with code := GErrorCode.G_IO_ERROR GIOErrorEnum.CANCELLED },
              is_ssl_error := false }) ∧
      (e.code = GErrorCode.SOUP_HTTP_ERROR SOUP_STATUS_FORBIDDEN →
        connect_failure credentials requires_credentials (some e)
          = { auth_result :=
                if connect_credentials_empty credentials requires_credentials
                then ESourceAuthenticationResult.REQUIRED else ESourceAuthenticationResult.ERROR,
              local_error := some e, is_ssl_error := false }) ∧
      (e.code = GErrorCode.SOUP_HTTP_ERROR SOUP_STATUS_UNAUTHORIZED →
        connect_failure credentials requires_credentials (some e)
          = { auth_result :=
                if connect_credentials_empty credentials requires_credentials
                then ESourceAuthenticationResult.REQUIRED
                else ESourceAuthenticationResult.REJECTED,
              local_error := some e, is_ssl_error := false }) ∧
      (e.code = GErrorCode.G_IO_ERROR GIOErrorEnum.CONNECTION_REFUSED →
        connect_failure credentials requires_credentials (some e)
          = { auth_result := ESourceAuthenticationResult.REJECTED,
              local_error := some e, is_ssl_error := false }) ∧
      (e.code = GErrorCode.G_IO_ERROR GIOErrorEnum.NOT_FOUND →
        connect_failure credentials requires_credentials (some e)
          = { auth_result :=
                if requires_credentials then ESourceAuthenticationResult.ERROR
                else ESourceAuthenticationResult.REJECTED,
              local_error := some e, is_ssl_error := false }) ∧
      (e.code ≠ GErrorCode.SOUP_HTTP_ERROR SOUP_STATUS_SSL_FAILED →
        e.code ≠ GErrorCode.SOUP_HTTP_ERROR SOUP_STATUS_CANCELLED →
        e.code ≠ GErrorCode.SOUP_HTTP_ERROR SOUP_STATUS_FORBIDDEN →
        e.code ≠ GErrorCode.SOUP_HTTP_ERROR SOUP_STATUS_UNAUTHORIZED →
        e.code ≠ GErrorCode.G_IO_ERROR GIOErrorEnum.CONNECTION_REFUSED →
        e.code ≠ GErrorCode.G_IO_ERROR GIOErrorEnum.NOT_FOUND →
        connect_failure credentials requires_credentials (some e)
          = { auth_result := ESourceAuthenticationResult.ERROR,
              local_error := some e, is_ssl_error := false })) ∧
    (∀ requires_credentials : Bool,
      (connect_failure credentials requires_credentials none).auth_result
        = ESourceAuthenticationResult.ERROR) := by
  refine ⟨?_, ?_, ?_, ?_, ?_, ?_, ?_, ?_⟩
  · intro hw
    cases h : priv.webdav with
    | none => simp [h] at hw
    | some w =>
      unfold ebb_webdav_connect_sync
      simp [h]
  · intro hnew hfail
    unfold ebb_webdav_connect_sync
    simp [hnew, hfail, connect_fail, g_propagate_error]
  · intro hnew hok hcap hctag h401
    unfold ebb_webdav_connect_sync
    simp [hnew, hok, hcap, hctag, h401, connect_fail, g_propagate_error]
  · intro hnew hok hcap hctag
    have hc : (!env.getctag.is_ok && g_error_matches env.getctag.error_of
        (GErrorCode.SOUP_HTTP_ERROR SOUP_STATUS_UNAUTHORIZED)) = false := by
      rcases hctag with h | h <;> simp [h]
    unfold ebb_webdav_connect_sync
    simp only [hnew, hok, hcap, hc, if_true, Bool.false_eq_true, if_false]
    simp
  · intro hnew hok hcap
    have hloc := connect_probe_no_error L env source_uri hok
    unfold ebb_webdav_connect_sync
    simp [hnew, hok, hcap, hloc, connect_fail, connect_failure, g_error_matches,
      g_propagate_error]
  · intro h404
    unfold connect_probe
    simp only [h404, Bool.false_eq_true, if_false]
  · intro requires_credentials e
    refine ⟨?_, ?_, ?_, ?_, ?_, ?_, ?_⟩
    · intro h
      simp [connect_failure, g_error_matches, h, SOUP_STATUS_SSL_FAILED, SOUP_STATUS_CANCELLED,
        SOUP_STATUS_FORBIDDEN, SOUP_STATUS_UNAUTHORIZED]
    · intro h
      simp [connect_failure, g_error_matches, h, SOUP_STATUS_SSL_FAILED, SOUP_STATUS_CANCELLED,
        SOUP_STATUS_FORBIDDEN, SOUP_STATUS_UNAUTHORIZED]
    · intro h
      cases hc : connect_credentials_empty credentials requires_credentials <;>
        simp [connect_failure, g_error_matches, h, hc, SOUP_STATUS_SSL_FAILED,
          SOUP_STATUS_CANCELLED, SOUP_STATUS_FORBIDDEN, SOUP_STATUS_UNAUTHORIZED]
    · intro h
      cases hc : connect_credentials_empty credentials requires_credentials <;>
        simp [connect_failure, g_error_matches, h, hc, SOUP_STATUS_SSL_FAILED,
          SOUP_STATUS_CANCELLED, SOUP_STATUS_FORBIDDEN, SOUP_STATUS_UNAUTHORIZED]
    · intro h
      simp [connect_failure, g_error_matches, h]
    · intro h
      cases requires_credentials <;> simp [connect_failure, g_error_matches, h]
    · intro h1 h2 h3 h4 h5 h6
      simp [connect_failure, g_error_matches, h1, h2, h3, h4, h5, h6]
  · intro requires_credentials
    simp [connect_failure, g_error_matches]

/-- C11 (amended) at concrete connects of a backend without a session and without credentials:
a capability probe that fails with unauthorized gives Required on a session that requires
credentials and Rejected on one that does not, with the error of the probe reported; a probe
that fails with the TLS failure gives ErrorTLS with the certificate details retrieved; probes
that succeed give Accepted; and a connect on a backend that has a session writes no result. -/
theorem c11_auth_outcome_rules_witness :
    (ebb_webdav_connect_sync example_lib
        (example_connect_env (example_options_failed SOUP_STATUS_UNAUTHORIZED) true)
        example_unconnected example_source_uri none).out_auth_result
      = some ESourceAuthenticationResult.REQUIRED ∧
    (ebb_webdav_connect_sync example_lib
        (example_connect_env (example_options_failed SOUP_STATUS_UNAUTHORIZED) false)
        example_unconnected example_source_uri none).out_auth_result
      = some ESourceAuthenticationResult.REJECTED ∧
    (ebb_webdav_connect_sync example_lib
        (example_connect_env (example_options_failed SOUP_STATUS_UNAUTHORIZED) true)
        example_unconnected example_source_uri none).error
      = some { code := GErrorCode.SOUP_HTTP_ERROR SOUP_STATUS_UNAUTHORIZED,
               message := "probe failed" } ∧
    (ebb_webdav_connect_sync example_lib
        (example_connect_env (example_options_failed SOUP_STATUS_SSL_FAILED) true)
        example_unconnected example_source_uri none).out_auth_result
      = some ESourceAuthenticationResult.ERROR_SSL_FAILED ∧
    (ebb_webdav_connect_sync example_lib (example_connect_env example_options_ok true)
        example_unconnected example_source_uri none).out_auth_result
      = some ESourceAuthenticationResult.ACCEPTED ∧
    (ebb_webdav_connect_sync example_lib (example_connect_env example_options_ok true)
        example_priv example_source_uri none).out_auth_result = none :=
  ⟨((c11_auth_outcome_rules example_lib
      (example_connect_env (example_options_failed SOUP_STATUS_UNAUTHORIZED) true)
      example_unconnected example_source_uri none).2.1 rfl (by decide)).2.1.trans (by decide),
   ((c11_auth_outcome_rules example_lib
      (example_connect_env (example_options_failed SOUP_STATUS_UNAUTHORIZED) false)
      example_unconnected example_source_uri none).2.1 rfl (by decide)).2.1.trans (by decide),
   ((c11_auth_outcome_rules example_lib
      (example_connect_env (example_options_failed SOUP_STATUS_UNAUTHORIZED) true)
      example_unconnected example_source_uri none).2.1 rfl (by decide)).2.2.1.trans (by decide),
   ((c11_auth_outcome_rules example_lib
      (example_connect_env (example_options_failed SOUP_STATUS_SSL_FAILED) true)
      example_unconnected example_source_uri none).2.1 rfl (by decide)).2.1.trans (by decide),
   ((c11_auth_outcome_rules example_lib (example_connect_env example_options_ok true)
      example_unconnected example_source_uri none).2.2.2.1 rfl (by decide) (by decide)
      (Or.inl (by decide))).2.1,
   ((c11_auth_outcome_rules example_lib (example_connect_env example_options_ok true)
      example_priv example_source_uri none).1 (by decide)).2.1⟩

/-! ## C12: the retry of the capability probe against the parent directory -/

/-- C12 (as stated, refuted): for the collection `/a/b/` on an `.icloud.com` host whose first
capability probe is answered not-found, the one retry goes to the parent `/a`, not `/a/`. -/
theorem c12_counterexample_parent_without_slash :
    (ebb_webdav_connect_sync example_lib
        (example_connect_env (example_options_failed SOUP_STATUS_NOT_FOUND) true)
        example_unconnected example_icloud_uri none).requests
      = [Request.options none, Request.options (some "/a"), Request.getctag] ∧
    Request.options (some "/a/") ∉
      (ebb_webdav_connect_sync example_lib
        (example_connect_env (example_options_failed SOUP_STATUS_NOT_FOUND) true)
        example_unconnected example_icloud_uri none).requests := by
  decide

/-- The capability probe of a collection on an `.icloud.com` host, first answered not-found,
is the first probe followed by one probe of the parent directory. -/
theorem connect_probe_icloud (L : Lib) (env : ConnectEnv) (soup_uri : SoupURI)
    (host path dir uri : String)
    (hhost : soup_uri.host = some host) (hpath : soup_uri.path = some path)
    (hne : path ≠ "") (hicloud : L.e_util_utf8_strstrcase host ".icloud.com" = true)
    (h404 : g_error_matches (env.options 0 none).outcome.error_of
      (GErrorCode.SOUP_HTTP_ERROR SOUP_STATUS_NOT_FOUND) = true)
    (hdir : L.g_path_get_dirname
      (if path.data.getLast? = some '/' then String.mk path.data.dropLast else path) = some dir)
    (hpre : g_str_begins_with
      (if path.data.getLast? = some '/' then String.mk path.data.dropLast else path) dir = true)
    (huri : L.soup_uri_to_string { soup_uri with path := some dir } = some uri) :
    connect_probe L env (some soup_uri)
      = { success := (env.options 1 (some uri)).outcome.is_ok,
          local_error := (env.options 1 (some uri)).outcome.error_of,
          capabilities := (env.options 1 (some uri)).capabilities,
          allows := (env.options 1 (some uri)).allows,
          requests := [Request.options none, Request.options (some uri)] } := by
  unfold connect_probe
  simp only [h404, if_true, hhost, hpath]
  have hb : (path != "") = true := by simpa using hne
  simp only [hb, hicloud, Bool.and_self, if_true]
  unfold connect_probe_parent
  simp only [hdir, hpre, if_true, huri, List.singleton_append]

/-- The requests of a connect on a backend without a session are those of the capability
probe, followed by the change-tag probe or by nothing. -/
theorem connect_requests (L : Lib) (env : ConnectEnv) (priv : EBookBackendWebDAVPrivate)
    (source_uri : Option SoupURI) (credentials : Option ENamedParameters)
    (hnew : priv.webdav = none) :
    (ebb_webdav_connect_sync L env priv source_uri credentials).requests
        = (connect_probe L env source_uri).requests ∨
    (ebb_webdav_connect_sync L env priv source_uri credentials).requests
        = (connect_probe L env source_uri).requests ++ [Request.getctag] := by
  unfold ebb_webdav_connect_sync
  simp only [hnew]
  split
  · split
    · split
      · exact Or.inr rfl
      · exact Or.inr rfl
    · exact Or.inl rfl
  · exact Or.inl rfl

/-- C12 (amended): when the first capability probe is answered not-found, the host contains
`.icloud.com`, the collection path is not empty, and the directory name of the path without
its trailing slash is a prefix of it, connect retries the capability probe exactly once, against
the URI whose path is that directory name (for `/a/b/`: `/a`, without a trailing slash); the
only other request a connect may issue is the change-tag probe. -/
theorem c12_icloud_retry_once (L : Lib) (env : ConnectEnv) (priv : EBookBackendWebDAVPrivate)
    (soup_uri : SoupURI) (credentials : Option ENamedParameters) (host path dir uri : String)
    (hnew : priv.webdav = none)
    (hhost : soup_uri.host = some host) (hpath : soup_uri.path = some path)
    (hne : path ≠ "") (hicloud : L.e_util_utf8_strstrcase host ".icloud.com" = true)
    (h404 : g_error_matches (env.options 0 none).outcome.error_of
      (GErrorCode.SOUP_HTTP_ERROR SOUP_STATUS_NOT_FOUND) = true)
    (hdir : L.g_path_get_dirname
      (if path.data.getLast? = some '/' then String.mk path.data.dropLast else path) = some dir)
    (hpre : g_str_begins_with
      (if path.data.getLast? = some '/' then String.mk path.data.dropLast else path) dir = true)
    (huri : L.soup_uri_to_string { soup_uri with path := some dir } = some uri) :
    (ebb_webdav_connect_sync L env priv (some soup_uri) credentials).requests
        = [Request.options none, Request.options (some uri)] ∨
    (ebb_webdav_connect_sync L env priv (some soup_uri) credentials).requests
        = [Request.options none, Request.options (some uri), Request.getctag] := by
  have hp := connect_probe_icloud L env soup_uri host path dir uri hhost hpath hne hicloud h404
    hdir hpre huri
  rcases connect_requests L env priv (some soup_uri) credentials hnew with h | h
  · left
    rw [h, hp]
  · right
    rw [h, hp]
    rfl

/-- C12 (amended) on the collection `/a/b/` of an `.icloud.com` host: one retry, against
`/a`. -/
theorem c12_icloud_retry_once_witness :
    (ebb_webdav_connect_sync example_lib
        (example_connect_env (example_options_failed SOUP_STATUS_NOT_FOUND) true)
        example_unconnected
        (some { user := some "user", password := none, host := some "p01-contacts.icloud.com",
                path := some "/a/b/" }) none).requests
        = [Request.options none, Request.options (some "/a")] ∨
    (ebb_webdav_connect_sync example_lib
        (example_connect_env (example_options_failed SOUP_STATUS_NOT_FOUND) true)
        example_unconnected
        (some { user := some "user", password := none, host := some "p01-contacts.icloud.com",
                path := some "/a/b/" }) none).requests
        = [Request.options none, Request.options (some "/a"), Request.getctag] :=
  c12_icloud_retry_once example_lib
    (example_connect_env (example_options_failed SOUP_STATUS_NOT_FOUND) true)
    example_unconnected
    { user := some "user", password := none, host := some "p01-contacts.icloud.com",
      path := some "/a/b/" } none "p01-contacts.icloud.com" "/a/b/" "/a" "/a"
    rfl rfl rfl (by decide) (by decide) (by decide) (by decide) (by decide) (by decide)

/-! ## C13: a collection that is not an address book -/

/-- C13: after a successful capability probe whose capabilities lack the address-book
capability, connect fails with the invalid-data error "not an address book", reports Error,
drops the session, marks the source disconnected, and issues nothing beyond the requests of the
capability probe: no change-tag probe. -/
theorem c13_not_address_book (L : Lib) (env : ConnectEnv) (priv : EBookBackendWebDAVPrivate)
    (source_uri : Option SoupURI) (credentials : Option ENamedParameters)
    (hnew : priv.webdav = none)
    (hok : (connect_probe L env source_uri).success = true)
    (hcap : strcase_table_contains L (connect_probe L env source_uri).capabilities
      E_WEBDAV_CAPABILITY_ADDRESSBOOK = false) :
    (ebb_webdav_connect_sync L env priv source_uri credentials).success = false ∧
    (ebb_webdav_connect_sync L env priv source_uri credentials).error
      = some (not_address_book_error (source_uri.bind L.soup_uri_to_string)) ∧
    g_error_matches (ebb_webdav_connect_sync L env priv source_uri credentials).error
      (GErrorCode.G_IO_ERROR GIOErrorEnum.INVALID_DATA) = true ∧
    (ebb_webdav_connect_sync L env priv source_uri credentials).out_auth_result
      = some ESourceAuthenticationResult.ERROR ∧
    (ebb_webdav_connect_sync L env priv source_uri credentials).priv.webdav = none ∧
    (ebb_webdav_connect_sync L env priv source_uri credentials).connection_status
      = some ESourceConnectionStatus.DISCONNECTED ∧
    (ebb_webdav_connect_sync L env priv source_uri credentials).requests
      = (connect_probe L env source_uri).requests ∧
    (∀ q ∈ (ebb_webdav_connect_sync L env priv source_uri credentials).requests,
      ∃ uri, q = Request.options uri) := by
  have hloc := connect_probe_no_error L env source_uri hok
  have hreq : ∀ q ∈ (connect_probe L env source_uri).requests, ∃ uri, q = Request.options uri := by
    unfold connect_probe connect_probe_parent
    simp only
    intro q hq
    repeat' split at hq
    all_goals simp at hq
    all_goals first
      | exact ⟨_, hq⟩
      | (rcases hq with hq | hq <;> exact ⟨_, hq⟩)
  have heq : ebb_webdav_connect_sync L env priv source_uri credentials
      = connect_fail env
          { webdav := some { credentials := credentials,
                             authentication_requires_credentials :=
                               env.authentication_requires_credentials },
            ctag_supported := true, is_google := priv.is_google }
          credentials (some (not_address_book_error (source_uri.bind L.soup_uri_to_string)))
          none none
          (connect_probe L env source_uri).requests := by
    unfold ebb_webdav_connect_sync
    simp only [hnew, hok, if_true, hcap, hloc]
    rfl
  rw [heq]
  refine ⟨rfl, rfl, rfl, ?_, rfl, ?_, rfl, hreq⟩
  · simp [connect_fail, connect_failure, g_error_matches]
  · simp [connect_fail, connect_failure, g_error_matches]

/-- C13 on a collection that answers the capability probe without the address-book
capability. -/
theorem c13_not_address_book_witness :
    (ebb_webdav_connect_sync example_lib
        (example_connect_env
          { outcome := Outcome.ok, capabilities := some ["calendar-access"],
            allows := some ["PUT"] } true)
        example_unconnected example_source_uri none).success = false ∧
    (ebb_webdav_connect_sync example_lib
        (example_connect_env
          { outcome := Outcome.ok, capabilities := some ["calendar-access"],
            allows := some ["PUT"] } true)
        example_unconnected example_source_uri none).requests = [Request.options none] :=
  ⟨(c13_not_address_book example_lib
      (example_connect_env
        { outcome := Outcome.ok, capabilities := some ["calendar-access"],
          allows := some ["PUT"] } true)
      example_unconnected example_source_uri none rfl (by decide) (by decide)).1,
   (c13_not_address_book example_lib
      (example_connect_env
        { outcome := Outcome.ok, capabilities := some ["calendar-access"],
          allows := some ["PUT"] } true)
      example_unconnected example_source_uri none rfl (by decide)
      (by decide)).2.2.2.2.2.2.1.trans (by decide)⟩

/-! ## C14: target and precondition of the write of a save -/

/-- C14 (as stated, refuted): an overwriting save of a valid record for which no reference is
known issues no write at all and fails. -/
theorem c14_counterexample_overwrite_without_reference :
    (ebb_webdav_save_contact_sync example_lib
        (fun _ _ _ => { outcome := Outcome.ok, out_href := none })
        example_priv example_source_uri true EConflictResolution.FAIL
        { uid := some "u1", x_etag := some "e1", rest := "card" } none).requests = [] ∧
    (ebb_webdav_save_contact_sync example_lib
        (fun _ _ _ => { outcome := Outcome.ok, out_href := none })
        example_priv example_source_uri true EConflictResolution.FAIL
        { uid := some "u1", x_etag := some "e1", rest := "card" } none).success = false := by
  decide

/-- C14 (amended): a save of a valid record (uid present, card serialisable) that overwrites
an existing resource and is given a non-empty reference issues one write, to that reference,
whose precondition is the empty string (the unconditional write) under KeepLocal and the
X-ETAG attribute of the record under Fail, UseNewer, KeepServer and WriteCopy; without a
reference the overwriting save issues no request and fails with "not a valid vCard"; a save
that does not overwrite issues one write without precondition, to the reference when one is
given and otherwise to the URI derived from the uid and the extension `.vcf`. -/
theorem c14_save_write (L : Lib)
    (put_data : Option String → Option String → String → PutDataReply)
    (priv : EBookBackendWebDAVPrivate) (source_uri : Option SoupURI)
    (overwrite_existing : Bool) (conflict_resolution : EConflictResolution)
    (contact : EContact) (extra : Option String) (uid vcard : String)
    (huid : contact.uid = some uid)
    (hvcard : L.e_vcard_to_string { contact with x_etag := none } = some vcard) :
    (overwrite_existing = true → str_empty extra = false →
      (ebb_webdav_save_contact_sync L put_data priv source_uri overwrite_existing
          conflict_resolution contact extra).requests
        = [Request.put_data extra
            (if conflict_resolution = EConflictResolution.KEEP_LOCAL then some ""
             else contact.x_etag) vcard]) ∧
    (overwrite_existing = true → str_empty extra = true →
      (ebb_webdav_save_contact_sync L put_data priv source_uri overwrite_existing
          conflict_resolution contact extra).requests = [] ∧
      (ebb_webdav_save_contact_sync L put_data priv source_uri overwrite_existing
          conflict_resolution contact extra).success = false ∧
      (ebb_webdav_save_contact_sync L put_data priv source_uri overwrite_existing
          conflict_resolution contact extra).error
        = some (EDB_ERROR_EX EDataBookStatus.OTHER_ERROR "Object to save is not a valid vCard")) ∧
    (overwrite_existing = false →
      (ebb_webdav_save_contact_sync L put_data priv source_uri overwrite_existing
          conflict_resolution contact extra).requests
        = [Request.put_data
            (if str_empty extra then ebb_webdav_uid_to_uri L source_uri uid (some ".vcf")
             else extra) none vcard]) := by
  have hv2 := hvcard
  rw [huid] at hv2
  refine ⟨?_, ?_, ?_⟩
  · intro ho he
    subst ho
    unfold ebb_webdav_save_contact_sync
    simp only [huid, hv2, he]
    by_cases hk : conflict_resolution = EConflictResolution.KEEP_LOCAL <;> simp [hk]
  · intro ho he
    subst ho
    unfold ebb_webdav_save_contact_sync
    simp only [huid, hv2, he]
    simp
  · intro ho
    subst ho
    unfold ebb_webdav_save_contact_sync
    simp only [huid, hv2]
    cases he : str_empty extra <;> simp

/-- C14 (amended) on a record with uid `u1` and revision `e1` saved over the resource
`/book/u1.vcf`: the revision is the precondition under Fail, the empty string under
KeepLocal. -/
theorem c14_save_write_witness :
    (ebb_webdav_save_contact_sync example_lib
        (fun _ _ _ => { outcome := Outcome.ok, out_href := none })
        example_priv example_source_uri true EConflictResolution.FAIL
        { uid := some "u1", x_etag := some "e1", rest := "card" } (some "/book/u1.vcf")).requests
      = [Request.put_data (some "/book/u1.vcf") (some "e1") "card"] ∧
    (ebb_webdav_save_contact_sync example_lib
        (fun _ _ _ => { outcome := Outcome.ok, out_href := none })
        example_priv example_source_uri true EConflictResolution.KEEP_LOCAL
        { uid := some "u1", x_etag := some "e1", rest := "card" } (some "/book/u1.vcf")).requests
      = [Request.put_data (some "/book/u1.vcf") (some "") "card"] :=
  ⟨(c14_save_write example_lib (fun _ _ _ => { outcome := Outcome.ok, out_href := none })
      example_priv example_source_uri true EConflictResolution.FAIL
      { uid := some "u1", x_etag := some "e1", rest := "card" } (some "/book/u1.vcf")
      "u1" "card" rfl rfl).1 rfl (by decide),
   (c14_save_write example_lib (fun _ _ _ => { outcome := Outcome.ok, out_href := none })
      example_priv example_source_uri true EConflictResolution.KEEP_LOCAL
      { uid := some "u1", x_etag := some "e1", rest := "card" } (some "/book/u1.vcf")
      "u1" "card" rfl rfl).1 rfl (by decide)⟩

/-! ## C15: the fallback sequence of remove -/

/-- The classifier leaves a not-found transport error as it is. -/
theorem finish_error_not_found (priv : EBookBackendWebDAVPrivate) (local_error : Option GError)
    (h : g_error_matches local_error (GErrorCode.SOUP_HTTP_ERROR SOUP_STATUS_NOT_FOUND) = true) :
    finish_error priv local_error = local_error := by
  cases local_error with
  | none => rfl
  | some e =>
    have hc : e.code = GErrorCode.SOUP_HTTP_ERROR SOUP_STATUS_NOT_FOUND := by
      simpa [g_error_matches] using h
    simp [finish_error, ebb_webdav_check_credentials_error, g_error_matches, hc,
      SOUP_STATUS_NOT_FOUND, SOUP_STATUS_SSL_FAILED, SOUP_STATUS_UNAUTHORIZED,
      SOUP_STATUS_FORBIDDEN]

/-- A call that left an error did not return `TRUE`. -/
theorem outcome_error_not_ok (o : Outcome) (c : GErrorCode)
    (h : g_error_matches o.error_of c = true) : o.is_ok = false := by
  cases o with
  | ok => simp [Outcome.error_of, g_error_matches] at h
  | failed e => rfl

/-- C15: a remove with a non-empty reference and a parseable object, on a backend whose source
URI yields both uid-derived URIs. If the server answers not-found to every delete, exactly
three deletes are issued, in the order reference, uid with `.vcf`, uid alone, and the remove
fails with the not-found error of the last one. If the first delete does not end in not-found,
it is the only request; if the first ends in not-found and the second does not, there are
exactly two. -/
theorem c15_remove_fallback_sequence (L : Lib) (delete : Nat → String → Option String → Outcome)
    (priv : EBookBackendWebDAVPrivate) (source_uri : Option SoupURI)
    (conflict_resolution : EConflictResolution) (uid uri object href1 href2 : String)
    (contact : EContact)
    (hextra : uri ≠ "")
    (hparse : L.e_contact_new_from_vcard object = some contact)
    (h1 : ebb_webdav_uid_to_uri L source_uri uid (some ".vcf") = some href1)
    (h2 : ebb_webdav_uid_to_uri L source_uri uid none = some href2) :
    ((∀ n u e, g_error_matches (delete n u e).error_of
          (GErrorCode.SOUP_HTTP_ERROR SOUP_STATUS_NOT_FOUND) = true) →
      (ebb_webdav_remove_contact_sync L delete priv source_uri conflict_resolution uid (some uri)
          object).requests
        = [Request.delete uri
            (if conflict_resolution = EConflictResolution.FAIL then contact.x_etag else none),
           Request.delete href1
            (if conflict_resolution = EConflictResolution.FAIL then contact.x_etag else none),
           Request.delete href2
            (if conflict_resolution = EConflictResolution.FAIL then contact.x_etag else none)] ∧
      (ebb_webdav_remove_contact_sync L delete priv source_uri conflict_resolution uid (some uri)
          object).success = false ∧
      g_error_matches
        (ebb_webdav_remove_contact_sync L delete priv source_uri conflict_resolution uid (some uri)
          object).error (GErrorCode.SOUP_HTTP_ERROR SOUP_STATUS_NOT_FOUND) = true) ∧
    (g_error_matches
        (delete 0 uri
          (if conflict_resolution = EConflictResolution.FAIL then contact.x_etag
           else none)).error_of
        (GErrorCode.SOUP_HTTP_ERROR SOUP_STATUS_NOT_FOUND) = false →
      (ebb_webdav_remove_contact_sync L delete priv source_uri conflict_resolution uid (some uri)
          object).requests
        = [Request.delete uri
            (if conflict_resolution = EConflictResolution.FAIL then contact.x_etag else none)]) ∧
    (g_error_matches
        (delete 0 uri
          (if conflict_resolution = EConflictResolution.FAIL then contact.x_etag
           else none)).error_of
        (GErrorCode.SOUP_HTTP_ERROR SOUP_STATUS_NOT_FOUND) = true →
      g_error_matches
        (delete 1 href1
          (if conflict_resolution = EConflictResolution.FAIL then contact.x_etag
           else none)).error_of
        (GErrorCode.SOUP_HTTP_ERROR SOUP_STATUS_NOT_FOUND) = false →
      (ebb_webdav_remove_contact_sync L delete priv source_uri conflict_resolution uid (some uri)
          object).requests
        = [Request.delete uri
            (if conflict_resolution = EConflictResolution.FAIL then contact.x_etag else none),
           Request.delete href1
            (if conflict_resolution = EConflictResolution.FAIL then contact.x_etag
             else none)]) := by
  have hunf : ebb_webdav_remove_contact_sync L delete priv source_uri conflict_resolution uid
      (some uri) object
      = (let etag := if conflict_resolution = EConflictResolution.FAIL then contact.x_etag
                     else none
         let st1 := delete_step delete etag uri
           { success := false, local_error := none, requests := [] }
         let st3 :=
           if g_error_matches st1.local_error
               (GErrorCode.SOUP_HTTP_ERROR SOUP_STATUS_NOT_FOUND) then
             let st2 := delete_step delete etag href1 st1
             if g_error_matches st2.local_error
                 (GErrorCode.SOUP_HTTP_ERROR SOUP_STATUS_NOT_FOUND) then
               delete_step delete etag href2 st2
             else st2
           else st1
         { success := st3.success, error := finish_error priv st3.local_error, priv := priv,
           requests := st3.requests }) := by
    unfold ebb_webdav_remove_contact_sync
    simp only [hextra, if_false, hparse, h1, h2]
  rw [hunf]
  generalize (if conflict_resolution = EConflictResolution.FAIL then contact.x_etag else none)
    = etag
  simp only [delete_step, List.length_nil, List.nil_append, List.length_singleton,
    List.singleton_append]
  refine ⟨?_, ?_, ?_⟩
  · intro hall
    have hb := fun n u e => outcome_error_not_ok (delete n u e) _ (hall n u e)
    simp only [hall, if_true, List.cons_append, List.nil_append, List.length_cons,
      List.length_nil, hb]
    refine ⟨trivial, trivial, ?_⟩
    rw [finish_error_not_found priv _ (hall _ _ _)]
    exact hall _ _ _
  · intro hf
    simp only [hf]
    simp
  · intro ht hf
    simp only [ht, hf, if_true]
    simp

/-- C15 on the example collection, with a server that answers not-found to every delete:
three deletes, then failure. -/
theorem c15_remove_fallback_sequence_witness :
    (ebb_webdav_remove_contact_sync example_lib (fun _ _ _ => Outcome.failed (some example_not_found))
        example_priv example_source_uri EConflictResolution.KEEP_LOCAL "u1" (some "/book/x.vcf")
        "u1").requests
      = [Request.delete "/book/x.vcf" none, Request.delete "/book/u1.vcf" none,
         Request.delete "/book/u1" none] ∧
    (ebb_webdav_remove_contact_sync example_lib (fun _ _ _ => Outcome.failed (some example_not_found))
        example_priv example_source_uri EConflictResolution.KEEP_LOCAL "u1" (some "/book/x.vcf")
        "u1").success = false :=
  ⟨((c15_remove_fallback_sequence example_lib
      (fun _ _ _ => Outcome.failed (some example_not_found)) example_priv example_source_uri
      EConflictResolution.KEEP_LOCAL "u1" "/book/x.vcf" "u1" "/book/u1.vcf" "/book/u1"
      { uid := some "u1", x_etag := none, rest := "u1" }
      (by decide) rfl (by decide) (by decide)).1 (fun _ _ _ => by decide)).1,
   ((c15_remove_fallback_sequence example_lib
      (fun _ _ _ => Outcome.failed (some example_not_found)) example_priv example_source_uri
      EConflictResolution.KEEP_LOCAL "u1" "/book/x.vcf" "u1" "/book/u1.vcf" "/book/u1"
      { uid := some "u1", x_etag := none, rest := "u1" }
      (by decide) rfl (by decide) (by decide)).1 (fun _ _ _ => by decide)).2.1⟩

/-! ## C16: load with an unchanged change-tag -/

/-- C16: a load whose direct fetch did not succeed (no reference, or a fetch that failed),
with change-tag support enabled and a fetched change-tag equal to the stored sync token, fails
with contact-not-found; its requests are the direct fetch, if a reference was given, and the
change-tag fetch, and none to a uid-derived URI. -/
theorem c16_unchanged_ctag_not_found (L : Lib) (env : LoadEnv) (priv : EBookBackendWebDAVPrivate)
    (source_uri : Option SoupURI) (uid : String) (extra : Option String) (ctag : String)
    (hsup : priv.ctag_supported = true)
    (hok : env.getctag_success = true)
    (hctag : env.getctag_ctag = some ctag)
    (hlast : env.last_sync_tag = some ctag)
    (hdirect : str_empty extra = true ∨
      ∃ uri, extra = some uri ∧ (env.get_data 0 uri).outcome.is_ok = false) :
    (ebb_webdav_load_contact_sync L env priv source_uri uid extra).success = false ∧
    (ebb_webdav_load_contact_sync L env priv source_uri uid extra).error
      = some (EDB_ERROR EDataBookStatus.CONTACT_NOT_FOUND) ∧
    (ebb_webdav_load_contact_sync L env priv source_uri uid extra).out_contact = none ∧
    (ebb_webdav_load_contact_sync L env priv source_uri uid extra).requests
      = (match extra with
         | some uri => if uri = "" then [] else [Request.get_data uri]
         | none => []) ++ [Request.getctag] := by
  have hload : ∀ n log, load_after_direct L env priv source_uri uid n log
      = { success := false, error := some (EDB_ERROR EDataBookStatus.CONTACT_NOT_FOUND),
          out_contact := none, priv := priv, requests := log ++ [Request.getctag] } := by
    intro n log
    unfold load_after_direct
    simp [hsup, hok, hctag, hlast, g_strcmp0_eq]
  unfold ebb_webdav_load_contact_sync
  cases extra with
  | none => simp [hload]
  | some uri =>
    by_cases he : uri = ""
    · simp [he, hload]
    · rcases hdirect with h | ⟨u, hu, hfail⟩
      · simp [str_empty, he] at h
      · cases hu
        simp [he, hfail, hload]

/-- C16 on a load by reference whose fetch is answered not-found while the change-tag is the
stored one. -/
theorem c16_unchanged_ctag_not_found_witness :
    (ebb_webdav_load_contact_sync example_lib
        { example_load_env with getctag_success := true, getctag_ctag := some "ctag-7" }
        { example_priv with ctag_supported := true } example_source_uri "u1"
        (some "/book/x.vcf")).error
      = some (EDB_ERROR EDataBookStatus.CONTACT_NOT_FOUND) ∧
    (ebb_webdav_load_contact_sync example_lib
        { example_load_env with getctag_success := true, getctag_ctag := some "ctag-7" }
        { example_priv with ctag_supported := true } example_source_uri "u1"
        (some "/book/x.vcf")).requests
      = [Request.get_data "/book/x.vcf", Request.getctag] :=
  ⟨(c16_unchanged_ctag_not_found example_lib
      { example_load_env with getctag_success := true, getctag_ctag := some "ctag-7" }
      { example_priv with ctag_supported := true } example_source_uri "u1"
      (some "/book/x.vcf") "ctag-7" rfl rfl rfl rfl (Or.inr ⟨_, rfl, rfl⟩)).2.1,
   (c16_unchanged_ctag_not_found example_lib
      { example_load_env with getctag_success := true, getctag_ctag := some "ctag-7" }
      { example_priv with ctag_supported := true } example_source_uri "u1"
      (some "/book/x.vcf") "ctag-7" rfl rfl rfl rfl (Or.inr ⟨_, rfl, rfl⟩)).2.2.2.trans
      (by decide)⟩

/-! ## C17: a sync pass whose change-tag fetch fails -/

/-- The slow path hands back the tag it was given and issues the listing right after the
requests issued before. -/
theorem slow_path_tag_and_listing (L : Lib) (env : GetChangesEnv)
    (priv : EBookBackendWebDAVPrivate) (tag : Option String) (log : List Request) :
    (get_changes_slow_path L env priv tag log).out_new_sync_tag = tag ∧
    (get_changes_slow_path L env priv tag log).priv = priv ∧
    ∃ rest, (get_changes_slow_path L env priv tag log).requests
      = log ++ Request.propfind :: rest := by
  unfold get_changes_slow_path
  split
  · exact ⟨rfl, rfl, [], rfl⟩
  · simp only
    split
    · exact ⟨rfl, rfl, [Request.cache_search], by simp⟩
    · split
      · exact ⟨rfl, rfl, [Request.cache_search], by simp⟩
      · exact ⟨rfl, rfl, Request.cache_search :: List.map Request.report
          (multiget_all L env.report
            { created := List.map some (created_from_known (diff_step env).known_items),
              modified := List.map some (diff_step env).out_modified_objects }
            none).requests, by simp⟩

/-- C17: a sync pass with change-tag support enabled whose change-tag fetch fails and leaves no
tag. If the operation was not cancelled and the session exists, the pass is the slow path run
with the flag cleared: the flag is cleared afterwards, the listing is issued right after the
change-tag fetch, and no new sync tag is returned. If the operation was cancelled, the flag
stays set, the pass fails with the cancelled error, and the change-tag fetch is its only
request. -/
theorem c17_failed_ctag_fetch (L : Lib) (env : GetChangesEnv) (priv : EBookBackendWebDAVPrivate)
    (last_sync_tag : Option String)
    (hsup : priv.ctag_supported = true)
    (hfail : env.getctag_success = false)
    (hnone : env.getctag_ctag = none) :
    (env.cancelled = false → priv.webdav.isSome = true →
      ebb_webdav_get_changes_sync L env priv last_sync_tag
        = get_changes_slow_path L env { priv with ctag_supported := false } none
            [Request.getctag] ∧
      (ebb_webdav_get_changes_sync L env priv last_sync_tag).priv.ctag_supported = false ∧
      (ebb_webdav_get_changes_sync L env priv last_sync_tag).out_new_sync_tag = none ∧
      ∃ rest, (ebb_webdav_get_changes_sync L env priv last_sync_tag).requests
        = Request.getctag :: Request.propfind :: rest) ∧
    (env.cancelled = true →
      (ebb_webdav_get_changes_sync L env priv last_sync_tag).priv.ctag_supported = true ∧
      (ebb_webdav_get_changes_sync L env priv last_sync_tag).success = false ∧
      (ebb_webdav_get_changes_sync L env priv last_sync_tag).error = some cancelled_error ∧
      (ebb_webdav_get_changes_sync L env priv last_sync_tag).requests = [Request.getctag]) := by
  refine ⟨?_, ?_⟩
  · intro hc hw
    have hw2 : priv.webdav.isNone = false := by
      cases h : priv.webdav with
      | none => simp [h] at hw
      | some w => rfl
    have heq : ebb_webdav_get_changes_sync L env priv last_sync_tag
        = get_changes_slow_path L env { priv with ctag_supported := false } none
            [Request.getctag] := by
      unfold ebb_webdav_get_changes_sync
      simp [hsup, hfail, hnone, hc, hw2]
    obtain ⟨h1, h2, rest, h3⟩ := slow_path_tag_and_listing L env
      { priv with ctag_supported := false } none [Request.getctag]
    refine ⟨heq, ?_, ?_, rest, ?_⟩
    · rw [heq, h2]
    · rw [heq, h1]
    · rw [heq, h3]; rfl
  · intro hc
    unfold ebb_webdav_get_changes_sync
    simp [hsup, hfail, hc]

/-- C17 on a pass of a connected backend whose change-tag fetch fails without cancellation:
the flag is cleared and the listing follows the change-tag fetch. -/
theorem c17_failed_ctag_fetch_witness :
    (ebb_webdav_get_changes_sync example_lib (example_env [] [])
        { example_priv with ctag_supported := true } none).priv.ctag_supported = false ∧
    (ebb_webdav_get_changes_sync example_lib (example_env [] [])
        { example_priv with ctag_supported := true } none).out_new_sync_tag = none ∧
    ∃ rest, (ebb_webdav_get_changes_sync example_lib (example_env [] [])
        { example_priv with ctag_supported := true } none).requests
      = Request.getctag :: Request.propfind :: rest :=
  ((c17_failed_ctag_fetch example_lib (example_env [] [])
      { example_priv with ctag_supported := true } none rfl rfl rfl).1 rfl rfl).2

/-! ## C19: the references of the created and modified records -/

/-- One step of the cache scan keeps two facts: every table entry carries its key as
reference, and the references of the modified records together with the keys of the table are
pairwise distinct. -/
theorem search_changes_cb_refs (ccd : WebDAVChangesData) (row : CacheRow)
    (hwf : ∀ kv ∈ ccd.known_items, kv.2.extra = some kv.1)
    (hnd : (ccd.out_modified_objects.map EBookMetaBackendInfo.extra
      ++ ccd.known_items.map (fun kv => some kv.1)).Nodup) :
    (∀ kv ∈ (ebb_webdav_search_changes_cb ccd row).2.known_items, kv.2.extra = some kv.1) ∧
    ((ebb_webdav_search_changes_cb ccd row).2.out_modified_objects.map EBookMetaBackendInfo.extra
      ++ (ebb_webdav_search_changes_cb ccd row).2.known_items.map (fun kv => some kv.1)).Nodup := by
  have hrem : ∀ k, ((ccd.out_modified_objects.map EBookMetaBackendInfo.extra
      ++ (g_hash_table_remove ccd.known_items k).map (fun kv => some kv.1)).Nodup) := by
    intro k
    refine List.Nodup.sublist ?_ hnd
    exact List.Sublist.append (List.Sublist.refl _)
      ((List.filter_sublist ccd.known_items).map _)
  have hwfrem : ∀ k, ∀ kv ∈ g_hash_table_remove ccd.known_items k, kv.2.extra = some kv.1 :=
    fun k kv hkv => hwf kv ((mem_remove _ _ _).mp hkv).1
  unfold ebb_webdav_search_changes_cb
  cases he : row.extra with
  | none => exact ⟨hwf, hnd⟩
  | some e =>
    by_cases h0 : e = ""
    · simp only [h0, if_true]; exact ⟨hwf, hnd⟩
    · simp only [h0, if_false]
      cases hl : g_hash_table_lookup ccd.known_items e with
      | none => exact ⟨hwf, hnd⟩
      | some nfo =>
        simp only
        split
        · exact ⟨hwfrem e, hrem e⟩
        · refine ⟨hwfrem e, ?_⟩
          have hmem := lookup_mem _ _ _ hl
          have hx : nfo.extra = some e := hwf _ hmem
          have hx1 : (e_book_meta_backend_info_copy
              (if str_empty nfo.uid then { nfo with uid := some row.uid } else nfo)).extra
              = some e := by
            unfold e_book_meta_backend_info_copy
            split <;> exact hx
          simp only [List.map_cons, hx1, List.cons_append, List.nodup_cons]
          refine ⟨?_, hrem e⟩
          rw [List.mem_append]
          rintro (hin | hin)
          · have hdis := (List.nodup_append.mp hnd).2.2
            exact hdis hin (List.mem_map.mpr ⟨(e, nfo), hmem, rfl⟩)
          · obtain ⟨kv, hkv, hk⟩ := List.mem_map.mp hin
            have := ((mem_remove _ _ _).mp hkv).2
            simp only [Option.some.injEq] at hk
            exact this hk

/-- The two facts survive the whole cache scan. -/
theorem search_changes_refs (ccd : WebDAVChangesData) (rows : List CacheRow)
    (hwf : ∀ kv ∈ ccd.known_items, kv.2.extra = some kv.1)
    (hnd : (ccd.out_modified_objects.map EBookMetaBackendInfo.extra
      ++ ccd.known_items.map (fun kv => some kv.1)).Nodup) :
    (∀ kv ∈ (search_changes ccd rows).known_items, kv.2.extra = some kv.1) ∧
    ((search_changes ccd rows).out_modified_objects.map EBookMetaBackendInfo.extra
      ++ (search_changes ccd rows).known_items.map (fun kv => some kv.1)).Nodup := by
  induction rows generalizing ccd with
  | nil => exact ⟨hwf, hnd⟩
  | cons row rest ih =>
    rw [search_changes_cons]
    obtain ⟨h1, h2⟩ := search_changes_cb_refs ccd row hwf hnd
    exact ih _ h1 h2

/-- After the diff, the references of the created and of the modified records are pairwise
distinct. -/
theorem diff_step_refs_nodup (env : GetChangesEnv) :
    ((created_from_known (diff_step env).known_items
      ++ (diff_step env).out_modified_objects).map EBookMetaBackendInfo.extra).Nodup := by
  have hwf0 : ∀ kv ∈ collect_known_items env.request_path env.propfind_items,
      kv.2.extra = some kv.1 := by
    intro kv hkv
    obtain ⟨r, _, _, _, hveq⟩ := collect_mem _ _ kv.1 kv.2 hkv
    rw [hveq]; rfl
  have hnd0 : (([] : List EBookMetaBackendInfo).map EBookMetaBackendInfo.extra
      ++ (collect_known_items env.request_path env.propfind_items).map
          (fun kv => some kv.1)).Nodup := by
    simp only [List.map_nil, List.nil_append]
    have h := collect_keys_nodup env.request_path env.propfind_items
    have h2 := h.map (f := fun k : String => some k) (fun a b hab => Option.some.inj hab)
    simpa [List.map_map] using h2
  obtain ⟨hwf, hnd⟩ := search_changes_refs
    { out_modified_objects := [], out_removed_objects := [],
      known_items := collect_known_items env.request_path env.propfind_items }
    env.cache_rows hwf0 hnd0
  have hextras : (created_from_known (diff_step env).known_items).map EBookMetaBackendInfo.extra
      = ((diff_step env).known_items.map (fun kv => some kv.1)).reverse := by
    rw [created_from_known_eq, List.map_reverse, List.map_map]
    congr 1
    apply List.map_congr_left
    intro kv hkv
    exact hwf kv hkv
  rw [List.map_append, hextras]
  have hnd2 : ((diff_step env).out_modified_objects.map EBookMetaBackendInfo.extra
      ++ (diff_step env).known_items.map (fun kv => some kv.1)).Nodup := hnd
  rw [List.nodup_append] at hnd2 ⊢
  obtain ⟨a, b, c⟩ := hnd2
  refine ⟨List.nodup_reverse.mpr b, a, ?_⟩
  intro x hx hy
  exact c hy (List.mem_reverse.mp hx)

/-- C19: in a sync pass that issued the listing and whose listing and cache scan succeeded,
the references of the created and modified records returned are pairwise distinct, within each
list and across the two, and each is the reference of a listing item the listing callback
accepted into known-items: a property response with status OK, an etag, and a reference that
neither ends in a slash nor ends with the path of the request. -/
theorem c19_change_refs_distinct (L : Lib) (env : GetChangesEnv)
    (priv : EBookBackendWebDAVPrivate) (last_sync_tag : Option String)
    (hslow : Request.propfind ∈ (ebb_webdav_get_changes_sync L env priv last_sync_tag).requests)
    (hok : env.propfind_outcome = Outcome.ok) (hcache : env.cache_outcome = Outcome.ok) :
    (((ebb_webdav_get_changes_sync L env priv last_sync_tag).out_created_objects
      ++ (ebb_webdav_get_changes_sync L env priv last_sync_tag).out_modified_objects).map
        EBookMetaBackendInfo.extra).Nodup ∧
    (∀ x ∈ (ebb_webdav_get_changes_sync L env priv last_sync_tag).out_created_objects
        ++ (ebb_webdav_get_changes_sync L env priv last_sync_tag).out_modified_objects,
      ∃ it ∈ env.propfind_items, x.extra = some it.href ∧
        is_member_item env.request_path it = true ∧
        it.status_code = SOUP_STATUS_OK ∧ it.etag.isSome = true ∧
        g_str_has_suffix it.href "/" = false ∧
        (∀ p, env.request_path = some p → g_str_has_suffix it.href p = false)) := by
  obtain ⟨priv1, tag, log, heq⟩ := slow_path_of_propfind L env priv last_sync_tag hslow
  rw [heq]
  obtain ⟨_, hm, hc⟩ := slow_path_lists L env priv1 tag log hok
  simp only [hcache, if_true] at hc
  have hmember : ∀ it : DavResponse, is_member_item env.request_path it = true →
      it.status_code = SOUP_STATUS_OK ∧ it.etag.isSome = true ∧
      g_str_has_suffix it.href "/" = false ∧
      (∀ p, env.request_path = some p → g_str_has_suffix it.href p = false) := by
    intro it hit
    unfold is_member_item at hit
    simp only [Bool.and_eq_true, decide_eq_true_eq, Bool.not_eq_true', Bool.or_eq_false_iff] at hit
    obtain ⟨⟨⟨_, hs⟩, hsl, hp⟩, het⟩ := hit
    refine ⟨hs, het, hsl, ?_⟩
    intro p hpp
    rw [hpp] at hp
    exact hp
  have href : ∀ e, e ∈ ((created_from_known (diff_step env).known_items
      ++ (diff_step env).out_modified_objects).map EBookMetaBackendInfo.extra) →
      ∃ it ∈ env.propfind_items, e = some it.href ∧
        is_member_item env.request_path it = true := by
    intro e he
    obtain ⟨x, hx, hxe⟩ := List.mem_map.mp he
    rcases List.mem_append.mp hx with hx | hx
    · obtain ⟨k, hk, hkx⟩ := created_is_known env x hx
      obtain ⟨r, hr, hmr, hrk, _⟩ := collect_mem _ _ _ _ hkx
      exact ⟨r, hr, by rw [← hxe, hk, hrk], hmr⟩
    · obtain ⟨row, _, e1, nfo, _, _, hxe1, hl, _⟩ := modified_is_changed env x hx
      obtain ⟨r, hr, hmr, hrk, _⟩ := collect_mem _ _ _ _ (lookup_mem _ _ _ hl)
      exact ⟨r, hr, by rw [← hxe, hxe1, hrk], hmr⟩
  have hmap : ((get_changes_slow_path L env priv1 tag log).out_created_objects
      ++ (get_changes_slow_path L env priv1 tag log).out_modified_objects).map
        EBookMetaBackendInfo.extra
      = (created_from_known (diff_step env).known_items
          ++ (diff_step env).out_modified_objects).map EBookMetaBackendInfo.extra := by
    rw [List.map_append, List.map_append, hm, hc]
  refine ⟨?_, ?_⟩
  · rw [hmap]
    exact diff_step_refs_nodup env
  · intro x hx
    have hx2 : x.extra ∈ ((get_changes_slow_path L env priv1 tag log).out_created_objects
        ++ (get_changes_slow_path L env priv1 tag log).out_modified_objects).map
          EBookMetaBackendInfo.extra := List.mem_map.mpr ⟨x, hx, rfl⟩
    rw [hmap] at hx2
    obtain ⟨it, hit, he, hmr⟩ := href _ hx2
    exact ⟨it, hit, he, hmr, hmember it hmr⟩

/-- C19 on a pass whose listing holds a changed resource and a new one: the references of
the created and modified records are pairwise distinct. -/
theorem c19_change_refs_distinct_witness :
    (((ebb_webdav_get_changes_sync example_lib
          (example_env [example_item "/book/A" "etag2", example_item "/book/B" "etag1"]
            [example_row "u1" "etag1" "/book/A"])
          example_priv none).out_created_objects
      ++ (ebb_webdav_get_changes_sync example_lib
          (example_env [example_item "/book/A" "etag2", example_item "/book/B" "etag1"]
            [example_row "u1" "etag1" "/book/A"])
          example_priv none).out_modified_objects).map EBookMetaBackendInfo.extra).Nodup :=
  (c19_change_refs_distinct example_lib
    (example_env [example_item "/book/A" "etag2", example_item "/book/B" "etag1"]
      [example_row "u1" "etag1" "/book/A"])
    example_priv none (by decide) rfl rfl).1

/-! ## C18: what the batch builder skips -/

/-- C18 (as stated, refuted): a pending record whose reference is empty is not skipped by the
batch builder: it contributes an `href` element (with empty text) to the request and uses up
one of the 100 places; the same holds for a record without any reference. -/
theorem c18_counterexample_empty_reference_requested :
    multiget_collect example_lib
        { created := [some { uid := some "", revision := some "etag", object := none,
                             extra := some "" }],
          modified := [] } 1
        { link := GSListPtr.created 0, set2 := GSListPtr.null,
          left_to_go := E_WEBDAV_MAX_MULTIGET_AMOUNT, hrefs := [] }
      = { link := GSListPtr.null, set2 := GSListPtr.null, left_to_go := 99,
          hrefs := [some ""] } ∧
    (multiget_all example_lib example_report
        { created := [some { uid := some "", revision := some "etag", object := none,
                             extra := some "" }],
          modified := [] } none).requests = [[some ""]] ∧
    (multiget_collect example_lib
        { created := [some { uid := some "", revision := some "etag", object := none,
                             extra := none }],
          modified := [] } 1
        { link := GSListPtr.created 0, set2 := GSListPtr.null,
          left_to_go := E_WEBDAV_MAX_MULTIGET_AMOUNT, hrefs := [] }).left_to_go = 99 ∧
    (multiget_all example_lib example_report
        { created := [some { uid := some "", revision := some "etag", object := none,
                             extra := none }],
          modified := [] } none).requests.map List.length = [1] := by
  decide

/-- A batch holds the `href` texts of the first `left` nodes of the queue that have data. -/
theorem take_batch_eq_take (L : Lib) (left : Nat) (q : List (Option (Option String))) :
    (take_batch L left q).1 = (q.reduceOption.take left).map (href_of_extra L) := by
  induction q generalizing left with
  | nil => simp [take_batch_nil]
  | cons a rest ih =>
    cases left with
    | zero => simp [take_batch]
    | succ l =>
      cases a with
      | none => simpa [take_batch, List.reduceOption_cons_of_none] using ih (l + 1)
      | some e => simpa [take_batch, List.reduceOption_cons_of_some] using ih l

/-- C18 (amended): the batch builder skips exactly the list nodes that hold no record. Started
with `p` nodes of the pending queue (created list first) consumed, one run of its loop writes
one `href` element for each of the first 100 records from position `p` on, whatever the
reference of the record (also for a missing or empty one), and each of them uses up one of the
100 places. The records a sync pass hands to the builder need no skipping: every modified
record carries a non-empty reference, and every created record carries the reference of a
listing item accepted into known-items. -/
theorem c18_builder_skips_only_missing_records (L : Lib) (h : PendingLists) (p : Nat)
    (env : GetChangesEnv) :
    (multiget_collect L h (h.created.length + h.modified.length)
        { link := (ptr_at h.created.length h.modified.length p).1,
          set2 := (ptr_at h.created.length h.modified.length p).2,
          left_to_go := E_WEBDAV_MAX_MULTIGET_AMOUNT, hrefs := [] }).hrefs
      = ((((h.created ++ h.modified).drop p).reduceOption).take 100).map (href_text L) ∧
    (multiget_collect L h (h.created.length + h.modified.length)
        { link := (ptr_at h.created.length h.modified.length p).1,
          set2 := (ptr_at h.created.length h.modified.length p).2,
          left_to_go := E_WEBDAV_MAX_MULTIGET_AMOUNT, hrefs := [] }).left_to_go
      + ((((h.created ++ h.modified).drop p).reduceOption).take 100).length = 100 ∧
    (∀ x ∈ (diff_step env).out_modified_objects, ∃ e, x.extra = some e ∧ e ≠ "") ∧
    (∀ x ∈ created_from_known (diff_step env).known_items,
      ∃ it ∈ env.propfind_items, is_member_item env.request_path it = true ∧
        x.extra = some it.href) := by
  have hspec := multiget_collect_spec L h (h.created.length + h.modified.length) p
    E_WEBDAV_MAX_MULTIGET_AMOUNT [] (by omega)
  have hq : (h.queue_refs.drop p).reduceOption
      = (((h.created ++ h.modified).drop p).reduceOption).map EBookMetaBackendInfo.extra := by
    simp only [PendingLists.queue_refs, PendingLists.refs, ← List.map_append, ← List.map_drop,
      List.reduceOption_map]
  have hE : E_WEBDAV_MAX_MULTIGET_AMOUNT = 100 := rfl
  rw [hspec, take_batch_eq_take, hq, hE]
  refine ⟨?_, ?_, ?_, ?_⟩
  · simp only [List.nil_append, ← List.map_take, List.map_map]
    rfl
  · simp only [List.length_map, List.length_take, ← List.map_take]
    omega
  · intro x hx
    obtain ⟨_, _, e, _, _, hne, hxe, _, _⟩ := modified_is_changed env x hx
    exact ⟨e, hxe, hne⟩
  · intro x hx
    obtain ⟨k, hk, hkx⟩ := created_is_known env x hx
    obtain ⟨r, hr, hmr, hrk, _⟩ := collect_mem _ _ _ _ hkx
    exact ⟨r, hr, hmr, by rw [hk, hrk]⟩

/-- C18 (amended) on a queue of one node without a record followed by two records, and on the
diff of a listing with one changed resource: both records are requested, and the modified
record carries a non-empty reference. -/
theorem c18_builder_skips_only_missing_records_witness :
    (multiget_collect example_lib
        { created := [none, example_pending 1], modified := [example_pending 2] } (2 + 1)
        { link := GSListPtr.created 0, set2 := GSListPtr.modified 0,
          left_to_go := E_WEBDAV_MAX_MULTIGET_AMOUNT, hrefs := [] }).hrefs.length = 2 ∧
    (∀ x ∈ (diff_step (example_env [example_item "/book/A" "etag2"]
          [example_row "u1" "etag1" "/book/A"])).out_modified_objects,
      ∃ e, x.extra = some e ∧ e ≠ "") :=
  ⟨(congrArg List.length
      (c18_builder_skips_only_missing_records example_lib
        { created := [none, example_pending 1], modified := [example_pending 2] } 0
        (example_env [example_item "/book/A" "etag2"]
          [example_row "u1" "etag1" "/book/A"])).1).trans (by decide),
   (c18_builder_skips_only_missing_records example_lib
      { created := [none, example_pending 1], modified := [example_pending 2] } 0
      (example_env [example_item "/book/A" "etag2"]
        [example_row "u1" "etag1" "/book/A"])).2.2.1⟩

end WebDAV
